import Mathlib

/-!
# Dynamic filter configuration discovery

A shallow embedding of `source/common/filter/config_discovery_impl.cc`:
the `FilterConfigSubscription` that receives extension configs from the
control plane, the `DynamicFilterConfigProviderImplBase` slots attached to it,
and the provider manager's creation path.

Conventions of the embedding.

* Mutable C++ objects become records; a member function becomes a function
  from the old record to the new one.
* A function that can throw `EnvoyException` after it has already mutated the
  object returns the mutated object together with the exception, if any
  (`UpdateResult`); a function that throws before any mutation returns
  `Except EnvoyException _`.
* The subscription's `filter_config_providers_` set of raw pointers becomes a
  list of provider records, so that a call made on an attached provider is
  visible in the subscription state.
* Collaborators that live outside this translation unit (protobuf hashing,
  the factory registry, message translation, terminal-filter placement) are
  fields of `Collaborators`; every theorem holds for all of them.
* `uint64_t` payload hashes are naturals reduced modulo `2 ^ 64`; statistics
  counters are unbounded naturals.

The last part embeds the connection pool base that
`test/common/conn_pool/conn_pool_base_test.cc` exercises, as the specification describes
it.
-/

namespace Envoy
namespace Filter

/-! ## Data model -/

/-- A `ProtobufWkt::Any`: a type URL and the serialised payload. -/
structure Any where
  type_url : String
  value : String
  deriving DecidableEq, Repr

/-- A translated, validated `Protobuf::Message`. `type_name` is what
`GetTypeName()` returns. -/
structure Message where
  type_name : String
  content : String
  deriving DecidableEq, Repr

/-- The `envoy::config::core::v3::TypedExtensionConfig` resource. -/
structure TypedExtensionConfig where
  name : String
  typed_config : Any
  deriving DecidableEq, Repr

/-- A `Config::DecodedResourceRef`: the decoded resource and its version. -/
structure DecodedResource where
  resource : TypedExtensionConfig
  version : String
  deriving DecidableEq, Repr

/-- The exceptions thrown in this translation unit and by its collaborators,
one constructor per `throw` site. -/
inductive EnvoyException where
  | unexpectedNumberOfResources (size : Nat)
  | unexpectedResourceName (name : String)
  | typeUrlNotExpected (type_url : String) (require_type_urls : List String)
  | defaultFactoryNotFound (filter_config_name : String) (type_url : String)
  | factoryNotFound (name : String)
  | translationFailed (type_url : String)
  | terminalFilterPlacement (name : String) (filter_type : String) (filter_chain_type : String)
  deriving DecidableEq, Repr

/-- A `Server::Configuration::NamedHttpFilterConfigFactory`, reduced to the
two members this file calls. -/
structure NamedHttpFilterConfigFactory where
  name : String
  isTerminalFilterByProto : Message → Bool

/-- The functions this translation unit calls but does not define. -/
structure Collaborators where
  /-- The function `MessageUtil::hash` on a typed payload. -/
  hash : Any → Nat
  /-- The function `Config::Utility::getAndCheckFactory`; throws when no factory is known. -/
  getAndCheckFactory : TypedExtensionConfig → Except EnvoyException NamedHttpFilterConfigFactory
  /-- The function `Config::Utility::getFactoryByType`; `none` is the null pointer. -/
  getFactoryByType : Any → Option NamedHttpFilterConfigFactory
  /-- The function `Config::Utility::getFactoryType`. -/
  getFactoryType : Any → String
  /-- The function `Config::Utility::translateAnyToFactoryConfig`; throws on a payload that
  does not unpack or does not validate. -/
  translateAnyToFactoryConfig : Any → NamedHttpFilterConfigFactory → Except EnvoyException Message
  /-- The function `Config::Utility::validateTerminalFilters (name, filter_type,
  filter_chain_type, is_terminal_filter, last_filter_in_current_config)`. -/
  validateTerminalFilters : String → String → String → Bool → Bool → Except EnvoyException Unit
  /-- The function `TypeUtil::typeUrlToDescriptorFullName`. -/
  typeUrlToDescriptorFullName : String → String

/-- The `uint64_t` value `MessageUtil::hash` returns for a typed payload. -/
def Collaborators.hash64 (env : Collaborators) (any : Any) : Nat :=
  env.hash any % 2 ^ 64

/-- One call received by a provider through its virtual interface. -/
inductive ProviderCall where
  | onConfigUpdate (message : Message) (version_info : String)
  | onConfigRemoved
  | applyDefaultConfiguration
  deriving DecidableEq, Repr

/-- The record of a `DynamicFilterConfigProviderImplBase`. `default_config_` is the
default handed to the derived provider's constructor and `received` lists
the calls made on the provider so far, oldest first. -/
structure DynamicFilterConfigProviderImplBase where
  require_type_urls_ : List String
  last_filter_in_filter_chain_ : Bool
  filter_chain_type_ : String
  default_config_ : Option Message
  received : List ProviderCall
  deriving DecidableEq, Repr

/-- The counters of `ALL_EXTENSION_CONFIG_DISCOVERY_STATS`. -/
structure ExtensionConfigDiscoveryStats where
  config_reload_ : Nat
  config_fail_ : Nat
  config_conflict_ : Nat
  deriving DecidableEq, Repr

/-- The record of a `FilterConfigSubscription`. `init_target_ready_` is the state of its
init target and `transport_started_with` lists the resource-name sets passed
to the underlying subscription's `start`. -/
structure FilterConfigSubscription where
  filter_config_name_ : String
  init_target_ready_ : Bool
  started_ : Bool
  transport_started_with : List (List String)
  last_config_hash_ : Nat
  last_config_ : Option Message
  last_type_url_ : String
  last_version_info_ : String
  last_filter_name_ : String
  last_filter_is_terminal_ : Bool
  stats_ : ExtensionConfigDiscoveryStats
  filter_config_providers_ : List DynamicFilterConfigProviderImplBase
  deriving DecidableEq, Repr

/-- What a subscription callback leaves behind: the subscription after the
call and the exception that escaped it, if any. -/
structure UpdateResult where
  subscription : FilterConfigSubscription
  thrown : Option EnvoyException
  deriving DecidableEq, Repr

/-- The state right after the `FilterConfigSubscription` constructor: hash `0`, no config,
no provider attached, counters at zero, init target not ready. -/
def FilterConfigSubscription.create (filter_config_name : String) : FilterConfigSubscription :=
  { filter_config_name_ := filter_config_name
    init_target_ready_ := false
    started_ := false
    transport_started_with := []
    last_config_hash_ := 0
    last_config_ := none
    last_type_url_ := ""
    last_version_info_ := ""
    last_filter_name_ := ""
    last_filter_is_terminal_ := false
    stats_ := { config_reload_ := 0, config_fail_ := 0, config_conflict_ := 0 }
    filter_config_providers_ := [] }

/-! ## Providers -/

/-- The helper `validateTypeUrlHelper`: throws unless the set contains the type URL. -/
def validateTypeUrlHelper (type_url : String) (require_type_urls : List String) :
    Except EnvoyException Unit :=
  if !require_type_urls.contains type_url then
    throw (.typeUrlNotExpected type_url require_type_urls)
  else
    pure ()

namespace DynamicFilterConfigProviderImplBase

/-- The constructor, as far as the provider's own record goes, with the default
config the derived provider is given; no call has been received yet. (The
insertion into the subscription's set is done where the provider is created.) -/
def create (require_type_urls : List String) (last_filter_in_filter_chain : Bool)
    (filter_chain_type : String) (default_config : Option Message) :
    DynamicFilterConfigProviderImplBase :=
  { require_type_urls_ := require_type_urls
    last_filter_in_filter_chain_ := last_filter_in_filter_chain
    filter_chain_type_ := filter_chain_type
    default_config_ := default_config
    received := [] }

/-- The member `validateTypeUrl`. -/
def validateTypeUrl (provider : DynamicFilterConfigProviderImplBase) (type_url : String) :
    Except EnvoyException Unit :=
  validateTypeUrlHelper type_url provider.require_type_urls_

/-- The member `validateTerminalFilter`. -/
def validateTerminalFilter (env : Collaborators) (provider : DynamicFilterConfigProviderImplBase)
    (name filter_type : String) (is_terminal_filter : Bool) : Except EnvoyException Unit :=
  env.validateTerminalFilters name filter_type provider.filter_chain_type_ is_terminal_filter
    provider.last_filter_in_filter_chain_

/-- Modelled from the spec: the virtual `onConfigUpdate(message, version, cb)` of the derived
provider, declared in the header; it installs the new config. The call is
recorded. -/
def onConfigUpdate (provider : DynamicFilterConfigProviderImplBase) (message : Message)
    (version_info : String) : DynamicFilterConfigProviderImplBase :=
  { provider with received := provider.received ++ [.onConfigUpdate message version_info] }

/-- Modelled from the spec: the virtual `onConfigRemoved(cb)` of the derived provider; it
clears the installed config and falls back to the default if one is
configured. The call is recorded. -/
def onConfigRemoved (provider : DynamicFilterConfigProviderImplBase) :
    DynamicFilterConfigProviderImplBase :=
  { provider with received := provider.received ++ [.onConfigRemoved] }

/-- Modelled from the spec: the virtual `applyDefaultConfiguration()` of the derived provider;
it installs the pre-bound default, if any. The call is recorded. -/
def applyDefaultConfiguration (provider : DynamicFilterConfigProviderImplBase) :
    DynamicFilterConfigProviderImplBase :=
  { provider with received := provider.received ++ [.applyDefaultConfiguration] }

/-- Modelled from the spec: the config a provider currently publishes, read off the calls
it received: the message of the latest `onConfigUpdate`, or its default, if any,
after `applyDefaultConfiguration` or after `onConfigRemoved` (which falls back to the
default). -/
def installedConfig (provider : DynamicFilterConfigProviderImplBase) : Option Message :=
  match provider.received.getLast? with
  | some (.onConfigUpdate message _) => some message
  | some .onConfigRemoved => provider.default_config_
  | some .applyDefaultConfiguration => provider.default_config_
  | none => none

end DynamicFilterConfigProviderImplBase

/-- Runs a throwing check on every provider in turn, as the range-for loops over
`filter_config_providers_` do; the first exception ends the loop. -/
def forEachProvider (check : DynamicFilterConfigProviderImplBase → Except EnvoyException Unit) :
    List DynamicFilterConfigProviderImplBase → Except EnvoyException Unit
  | [] => pure ()
  | provider :: rest =>
    match check provider with
    | .error e => .error e
    | .ok _ => forEachProvider check rest

/-- Modelled from the spec: `Common::applyToAllWithCleanup` from `common/containers.h`: one pass
applying `f` to every element; `done` runs when the last reference to the
shared cleanup object is dropped, which here is the end of the pass. -/
def applyToAllWithCleanup {σ : Type} (container : List DynamicFilterConfigProviderImplBase)
    (f : DynamicFilterConfigProviderImplBase → DynamicFilterConfigProviderImplBase)
    (done : σ → σ) (state : σ) : List DynamicFilterConfigProviderImplBase × σ :=
  (container.map f, done state)

/-! ## The subscription -/

namespace FilterConfigSubscription

/-- Modelled from the spec: `init_target_.ready()` on the one-shot readiness token of
`Init::TargetImpl`, which is declared outside this file; the target is ready from
then on. -/
def initTargetReady (s : FilterConfigSubscription) : FilterConfigSubscription :=
  { s with init_target_ready_ := true }

/-- The member `start`. -/
def start (s : FilterConfigSubscription) : FilterConfigSubscription :=
  if !s.started_ then
    { s with started_ := true
             transport_started_with := s.transport_started_with ++ [[s.filter_config_name_]] }
  else
    s

/-- The member `incrementConflictCounter`. -/
def incrementConflictCounter (s : FilterConfigSubscription) : FilterConfigSubscription :=
  { s with stats_ := { s.stats_ with config_conflict_ := s.stats_.config_conflict_ + 1 } }

/-- The increment `stats_.config_reload_.inc()`. -/
def incConfigReload (s : FilterConfigSubscription) : FilterConfigSubscription :=
  { s with stats_ := { s.stats_ with config_reload_ := s.stats_.config_reload_ + 1 } }

/-- The full-state `onConfigUpdate(resources, version_info)`. -/
def onConfigUpdate (env : Collaborators) (s₀ : FilterConfigSubscription)
    (resources : List DecodedResource) (version_info : String) : UpdateResult :=
  -- Make sure to make progress in case the control plane is temporarily inconsistent.
  let s := s₀.initTargetReady
  match resources with
  | [resource] =>
    let filter_config := resource.resource
    if filter_config.name ≠ s.filter_config_name_ then
      ⟨s, some (.unexpectedResourceName filter_config.name)⟩
    else
      -- Skip update if hash matches
      let new_hash := env.hash64 filter_config.typed_config
      if new_hash = s.last_config_hash_ then
        ⟨s, none⟩
      else
        match env.getAndCheckFactory filter_config with
        | .error e => ⟨s, some e⟩
        | .ok factory =>
          let type_url := env.getFactoryType filter_config.typed_config
          match forEachProvider (fun provider => provider.validateTypeUrl type_url)
              s.filter_config_providers_ with
          | .error e => ⟨s, some e⟩
          | .ok _ =>
            match env.translateAnyToFactoryConfig filter_config.typed_config factory with
            | .error e => ⟨s, some e⟩
            | .ok message =>
              let is_terminal_filter := factory.isTerminalFilterByProto message
              match forEachProvider
                  (fun provider =>
                    provider.validateTerminalFilter env s.filter_config_name_ factory.name
                      is_terminal_filter)
                  s.filter_config_providers_ with
              | .error e => ⟨s, some e⟩
              | .ok _ =>
                let (providers, s) :=
                  applyToAllWithCleanup s.filter_config_providers_
                    (fun provider => provider.onConfigUpdate message version_info)
                    incConfigReload s
                ⟨{ s with filter_config_providers_ := providers
                          last_config_hash_ := new_hash
                          last_config_ := some message
                          last_type_url_ := type_url
                          last_version_info_ := version_info
                          last_filter_name_ := factory.name
                          last_filter_is_terminal_ := is_terminal_filter }, none⟩
  | _ => ⟨s, some (.unexpectedNumberOfResources resources.length)⟩

/-- The delta `onConfigUpdate(added_resources, removed_resources, system_version_info)`.
The `ASSERT(removed_resources.size() == 1)` is a debug-build check and
compiles to nothing in a release build, which is what is embedded. -/
def onConfigUpdateDelta (env : Collaborators) (s : FilterConfigSubscription)
    (added_resources : List DecodedResource) (removed_resources : List String)
    (_system_version_info : String) : UpdateResult :=
  if !removed_resources.isEmpty then
    let (providers, s) :=
      applyToAllWithCleanup s.filter_config_providers_
        (fun provider => provider.onConfigRemoved) incConfigReload s
    ⟨{ s with filter_config_providers_ := providers
              last_config_hash_ := 0
              last_config_ := none
              last_type_url_ := ""
              last_filter_is_terminal_ := false
              last_filter_name_ := "" }, none⟩
  else
    match added_resources with
    | first :: _ => onConfigUpdate env s added_resources first.version
    | [] => ⟨s, none⟩

/-- The reasons of `Config::ConfigUpdateFailureReason`. -/
inductive ConfigUpdateFailureReason where
  | ConnectionFailure
  | FetchTimedout
  | UpdateRejected
  deriving DecidableEq, Repr

/-- The member `onConfigUpdateFailed(reason, exception)`. -/
def onConfigUpdateFailed (s : FilterConfigSubscription) (_reason : ConfigUpdateFailureReason) :
    FilterConfigSubscription :=
  let s := { s with stats_ := { s.stats_ with config_fail_ := s.stats_.config_fail_ + 1 } }
  -- Make sure to make progress in case the control plane is temporarily failing.
  s.initTargetReady

/-- The destructor, as far as the subscription's own record goes: the init
target is signalled. (Erasing the key from the manager's table acts on the
manager.) -/
def destroy (s : FilterConfigSubscription) : FilterConfigSubscription :=
  s.initTargetReady

end FilterConfigSubscription

/-! ## The provider manager -/

/-- The `envoy::config::core::v3::ExtensionConfigSource` handed to the manager.
`config_source_hash` stands for `MessageUtil::hash(config_source())` and
`default_config = none` for `!has_default_config()`. -/
structure ExtensionConfigSource where
  config_source_hash : Nat
  default_config : Option Any
  apply_default_config_without_warming : Bool
  type_urls : List String
  deriving DecidableEq, Repr

/-- The init targets a listener init manager can be handed by this file. -/
inductive InitTarget where
  | subscriptionInitTarget
  | providerInitTarget
  deriving DecidableEq, Repr

/-- The member `FilterConfigProviderManagerImplBase::applyLastOrDefaultConfig`, acting on the
subscription and on the provider just constructed. The exception type of
the result is what could escape to the caller. -/
def applyLastOrDefaultConfig (env : Collaborators) (subscription : FilterConfigSubscription)
    (provider : DynamicFilterConfigProviderImplBase) (filter_config_name : String) :
    Except EnvoyException (FilterConfigSubscription × DynamicFilterConfigProviderImplBase) := do
  let mut subscription := subscription
  let mut provider := provider
  -- If the subscription already received a config, attempt to apply it.
  let mut last_config_valid := false
  if let some last_config := subscription.last_config_ then
    try
      provider.validateTypeUrl subscription.last_type_url_
      provider.validateTerminalFilter env filter_config_name subscription.last_filter_name_
        subscription.last_filter_is_terminal_
      last_config_valid := true
    catch _ =>
      subscription := subscription.incrementConflictCounter
    if last_config_valid then
      provider := provider.onConfigUpdate last_config subscription.last_version_info_
  -- Apply the default config if none has been applied.
  if !last_config_valid then
    provider := provider.applyDefaultConfiguration
  return (subscription, provider)

/-- The member `HttpFilterConfigProviderManagerImpl::getDefaultConfig`. -/
def getDefaultConfig (env : Collaborators) (proto_config : Any) (filter_config_name : String)
    (last_filter_in_filter_chain : Bool) (filter_chain_type : String)
    (require_type_urls : List String) : Except EnvoyException Message := do
  match env.getFactoryByType proto_config with
  | none => throw (.defaultFactoryNotFound filter_config_name proto_config.type_url)
  | some default_factory =>
    validateTypeUrlHelper (env.getFactoryType proto_config) require_type_urls
    let message ← env.translateAnyToFactoryConfig proto_config default_factory
    env.validateTerminalFilters filter_config_name default_factory.name filter_chain_type
      (default_factory.isTerminalFilterByProto message) last_filter_in_filter_chain
    return message

/-- What `createDynamicFilterConfigProvider` leaves behind: the listener init manager's
targets, the subscription, and the provider returned or the exception
thrown. -/
structure CreateResult where
  init_manager : List InitTarget
  subscription : FilterConfigSubscription
  provider : Except EnvoyException DynamicFilterConfigProviderImplBase

/-- The member `FilterConfigProviderManagerImpl::createDynamicFilterConfigProvider`, from the
point where `getSubscription` has returned `subscription`. The provider's
constructor inserts the provider into `filter_config_providers_`; as the
set holds a pointer, the entry shows the provider as
`applyLastOrDefaultConfig` leaves it. -/
def createDynamicFilterConfigProvider (env : Collaborators) (init_manager : List InitTarget)
    (subscription : FilterConfigSubscription) (config_source : ExtensionConfigSource)
    (filter_config_name : String) (last_filter_in_filter_chain : Bool)
    (filter_chain_type : String) : CreateResult :=
  -- For warming, wait until the subscription receives the first response.
  let init_manager :=
    if !config_source.apply_default_config_without_warming then
      init_manager ++ [InitTarget.subscriptionInitTarget]
    else init_manager
  let require_type_urls :=
    (config_source.type_urls.map env.typeUrlToDescriptorFullName).eraseDups
  let default_config : Except EnvoyException (Option Message) :=
    match config_source.default_config with
    | some proto_config =>
      (getDefaultConfig env proto_config filter_config_name last_filter_in_filter_chain
        filter_chain_type require_type_urls).map some
    | none => pure none
  match default_config with
  | .error e => ⟨init_manager, subscription, .error e⟩
  | .ok default_config =>
    let provider :=
      DynamicFilterConfigProviderImplBase.create require_type_urls last_filter_in_filter_chain
        filter_chain_type default_config
    -- Ensure the subscription starts if it has not already.
    let init_manager :=
      if config_source.apply_default_config_without_warming then
        init_manager ++ [InitTarget.providerInitTarget]
      else init_manager
    match applyLastOrDefaultConfig env subscription provider filter_config_name with
    | .error e => ⟨init_manager, subscription, .error e⟩
    | .ok (subscription, provider) =>
      ⟨init_manager,
        { subscription with
          filter_config_providers_ := subscription.filter_config_providers_ ++ [provider] },
        .ok provider⟩

/-- The destructor of a provider: it erases itself from the subscription's set.
The provider is named by its position in the list. -/
def destroyProvider (subscription : FilterConfigSubscription) (index : Nat) :
    FilterConfigSubscription :=
  { subscription with
    filter_config_providers_ := subscription.filter_config_providers_.eraseIdx index }

/-! ## Predicates and traces used in the statements -/

/-- Whether `provider` accepts the subscription's last config: both checks that
`applyLastOrDefaultConfig` makes inside its `try` block pass. -/
def acceptsLast (env : Collaborators) (subscription : FilterConfigSubscription)
    (provider : DynamicFilterConfigProviderImplBase) (filter_config_name : String) : Bool :=
  (provider.validateTypeUrl subscription.last_type_url_).isOk &&
  (provider.validateTerminalFilter env filter_config_name subscription.last_filter_name_
    subscription.last_filter_is_terminal_).isOk

/-- Whether `provider` rejects the payload `filter_config` of a full-state update on `s`:
its `validateTypeUrl` raises on the payload's factory type, or the payload has a
factory and a translation and the provider's `validateTerminalFilter` raises on the
factory's verdict. -/
def rejectsPayload (env : Collaborators) (s : FilterConfigSubscription)
    (provider : DynamicFilterConfigProviderImplBase) (filter_config : TypedExtensionConfig) :
    Bool :=
  !(provider.validateTypeUrl (env.getFactoryType filter_config.typed_config)).isOk ||
  match env.getAndCheckFactory filter_config with
  | .error _ => false
  | .ok factory =>
    match env.translateAnyToFactoryConfig filter_config.typed_config factory with
    | .error _ => false
    | .ok message =>
      !(provider.validateTerminalFilter env s.filter_config_name_ factory.name
        (factory.isTerminalFilterByProto message)).isOk

/-- The calls that can be made on a live subscription. -/
inductive Operation where
  | fullUpdate (resources : List DecodedResource) (version_info : String)
  | deltaUpdate (added_resources : List DecodedResource) (removed_resources : List String)
      (system_version_info : String)
  | updateFailed (reason : FilterConfigSubscription.ConfigUpdateFailureReason)
  | createProvider (init_manager : List InitTarget) (config_source : ExtensionConfigSource)
      (last_filter_in_filter_chain : Bool) (filter_chain_type : String)
  | destroyProvider (index : Nat)
  | start
  deriving DecidableEq, Repr

/-- The subscription after one operation. Exceptions go to the caller and are
dropped here; a provider is created under the subscription's own name, as
`getSubscription` keys subscriptions by name. -/
def step (env : Collaborators) (s : FilterConfigSubscription) : Operation → FilterConfigSubscription
  | .fullUpdate resources version_info => (s.onConfigUpdate env resources version_info).subscription
  | .deltaUpdate added removed version_info =>
    (s.onConfigUpdateDelta env added removed version_info).subscription
  | .updateFailed reason => s.onConfigUpdateFailed reason
  | .createProvider init_manager config_source last_filter_in_filter_chain filter_chain_type =>
    (createDynamicFilterConfigProvider env init_manager s config_source s.filter_config_name_
      last_filter_in_filter_chain filter_chain_type).subscription
  | .destroyProvider index => destroyProvider s index
  | .start => s.start

/-- The subscription after a sequence of operations, first to last. -/
def runOperations (env : Collaborators) (s : FilterConfigSubscription) (ops : List Operation) :
    FilterConfigSubscription :=
  ops.foldl (step env) s

/-- The payload hashes an operation presents to the subscription. -/
def Operation.payloadHashes (env : Collaborators) : Operation → List Nat
  | .fullUpdate resources _ => resources.map fun r => env.hash64 r.resource.typed_config
  | .deltaUpdate added _ _ => added.map fun r => env.hash64 r.resource.typed_config
  | _ => []

/-- The message `message` is the translation of a payload of a registered factory whose
factory type is in the provider's `require_type_urls_` and whose terminal verdict passes
the provider's placement check for the filter config `filter_config_name`. -/
def SatisfiesSlot (env : Collaborators) (filter_config_name : String)
    (provider : DynamicFilterConfigProviderImplBase) (message : Message) : Prop :=
  ∃ (any : Any) (factory : NamedHttpFilterConfigFactory),
    ((∃ name, env.getAndCheckFactory { name := name, typed_config := any } = .ok factory) ∨
      env.getFactoryByType any = some factory) ∧
    env.translateAnyToFactoryConfig any factory = .ok message ∧
    env.getFactoryType any ∈ provider.require_type_urls_ ∧
    provider.validateTerminalFilter env filter_config_name factory.name
      (factory.isTerminalFilterByProto message) = .ok ()

/-! ## A concrete set of collaborators

Two filter types are registered: `router`, whose configs are terminal, and
`buffer`, whose configs are not. The payload hash is the length of the
serialised value, so the empty payload hashes to `0`. -/

/-- The factory registered for type `router`; its filter is terminal. -/
def routerFactory : NamedHttpFilterConfigFactory :=
  { name := "router", isTerminalFilterByProto := fun _ => true }

/-- The factory registered for type `buffer`; its filter is not terminal. -/
def bufferFactory : NamedHttpFilterConfigFactory :=
  { name := "buffer", isTerminalFilterByProto := fun _ => false }

/-- Registry lookup by payload type. -/
def registryLookup (any : Any) : Option NamedHttpFilterConfigFactory :=
  if any.type_url = "router" then some routerFactory
  else if any.type_url = "buffer" then some bufferFactory
  else none

/-- A concrete instance of the collaborators. Placement follows
`Config::Utility::validateTerminalFilters`: a terminal filter must be last and the last
filter must be terminal. -/
def sampleCollaborators : Collaborators :=
  { hash := fun any => any.value.length
    getAndCheckFactory := fun filter_config =>
      match registryLookup filter_config.typed_config with
      | some factory => .ok factory
      | none => .error (.factoryNotFound filter_config.name)
    getFactoryByType := registryLookup
    getFactoryType := fun any => any.type_url
    translateAnyToFactoryConfig := fun any _ =>
      if any.value = "bad" then .error (.translationFailed any.type_url)
      else .ok { type_name := any.type_url, content := any.value }
    validateTerminalFilters := fun name filter_type filter_chain_type is_terminal_filter last =>
      if is_terminal_filter != last then
        .error (.terminalFilterPlacement name filter_type filter_chain_type)
      else .ok ()
    typeUrlToDescriptorFullName := fun type_url => type_url }

/-- A `buffer` payload for the filter config `foo`, hash `1`. -/
def bufferResource : DecodedResource :=
  { resource := { name := "foo", typed_config := { type_url := "buffer", value := "a" } }
    version := "1" }

/-- A second `buffer` payload for `foo`, hash `2`. -/
def bufferResource2 : DecodedResource :=
  { resource := { name := "foo", typed_config := { type_url := "buffer", value := "ab" } }
    version := "2" }

/-- A `buffer` payload for `foo` with an empty value, hash `0`. -/
def emptyBufferResource : DecodedResource :=
  { resource := { name := "foo", typed_config := { type_url := "buffer", value := "" } }
    version := "3" }

/-- A `router` payload for `foo`, hash `1`. -/
def routerResource : DecodedResource :=
  { resource := { name := "foo", typed_config := { type_url := "router", value := "r" } }
    version := "1" }

/-- An extension config source that admits `buffer` configs only, no default. -/
def bufferSource : ExtensionConfigSource :=
  { config_source_hash := 1, default_config := none
    apply_default_config_without_warming := false, type_urls := ["buffer"] }

/-- An extension config source that admits `router` configs only, with a
`router` default. -/
def routerSource : ExtensionConfigSource :=
  { config_source_hash := 1, default_config := some { type_url := "router", value := "d" }
    apply_default_config_without_warming := true, type_urls := ["router"] }

/-- The subscription `foo` after it has accepted `bufferResource` with no provider
attached. -/
def fooWithBuffer : FilterConfigSubscription :=
  ((FilterConfigSubscription.create "foo").onConfigUpdate sampleCollaborators
    [bufferResource] "1").subscription

/-- The subscription `fooWithBuffer` after a provider for a `router`-only slot at the end
of an HTTP chain has been created on it. -/
def fooWithRouterSlot : FilterConfigSubscription :=
  (createDynamicFilterConfigProvider sampleCollaborators [] fooWithBuffer routerSource "foo"
    true "http").subscription

/-- The subscription `foo` with one `buffer`-only provider in the middle of an HTTP
chain and no config yet. -/
def fooWithBufferSlot : FilterConfigSubscription :=
  (createDynamicFilterConfigProvider sampleCollaborators [] (FilterConfigSubscription.create "foo")
    bufferSource "foo" false "http").subscription

/-- The subscription `fooWithBufferSlot` after it has accepted `bufferResource`. -/
def fooBufferInstalled : FilterConfigSubscription :=
  (fooWithBufferSlot.onConfigUpdate sampleCollaborators [bufferResource] "1").subscription

/-- A provider for a `router`-only slot at the end of an HTTP chain, before any call. -/
def routerSlot : DynamicFilterConfigProviderImplBase :=
  { require_type_urls_ := ["router"], last_filter_in_filter_chain_ := true
    filter_chain_type_ := "http", default_config_ := none, received := [] }

/-- A provider for a `buffer`-only slot in the middle of an HTTP chain, before any
call. -/
def bufferSlot : DynamicFilterConfigProviderImplBase :=
  { require_type_urls_ := ["buffer"], last_filter_in_filter_chain_ := false
    filter_chain_type_ := "http", default_config_ := none, received := [] }

/-- The provider record that `createDynamicFilterConfigProvider` constructs from a source, a
chain position and a translated default, before any call is made on it. -/
def constructedProvider (env : Collaborators) (config_source : ExtensionConfigSource)
    (last_filter_in_filter_chain : Bool) (filter_chain_type : String)
    (default_config : Option Message) : DynamicFilterConfigProviderImplBase :=
  DynamicFilterConfigProviderImplBase.create
    (config_source.type_urls.map env.typeUrlToDescriptorFullName).eraseDups
    last_filter_in_filter_chain filter_chain_type default_config

/-- The bookkeeping that links a subscription to its providers: the `last_*` fields
describe the payload `last_config_` was translated from; every attached
provider's default satisfies the provider's slot; and so does every message an
attached provider has received through `onConfigUpdate`. -/
def Consistent (env : Collaborators) (s : FilterConfigSubscription) : Prop :=
  (∀ m, s.last_config_ = some m →
    ∃ (any : Any) (factory : NamedHttpFilterConfigFactory),
      (∃ name, env.getAndCheckFactory { name := name, typed_config := any } = .ok factory) ∧
      env.translateAnyToFactoryConfig any factory = .ok m ∧
      env.getFactoryType any = s.last_type_url_ ∧
      factory.name = s.last_filter_name_ ∧
      factory.isTerminalFilterByProto m = s.last_filter_is_terminal_) ∧
  ∀ p ∈ s.filter_config_providers_,
    (∀ m, p.default_config_ = some m → SatisfiesSlot env s.filter_config_name_ p m) ∧
    (∀ m v, ProviderCall.onConfigUpdate m v ∈ p.received →
      SatisfiesSlot env s.filter_config_name_ p m)

/-- The `router` slot of `routerSource` after it was created on a subscription holding a
`buffer` config, saw that config removed and then received a `router` config. -/
def routerSlotAfterBroadcast : DynamicFilterConfigProviderImplBase :=
  { require_type_urls_ := ["router"], last_filter_in_filter_chain_ := true
    filter_chain_type_ := "http"
    default_config_ := some { type_name := "router", content := "d" }
    received := [.applyDefaultConfiguration, .onConfigRemoved,
      .onConfigUpdate { type_name := "router", content := "r" } "1"] }

/-- An extension config source that declares a default of a type no factory is
registered for, and admits `router` configs only. -/
def unknownDefaultSource : ExtensionConfigSource :=
  { config_source_hash := 2, default_config := some { type_url := "unknown", value := "d" }
    apply_default_config_without_warming := false, type_urls := ["router"] }

/-! ## The manager's interning table -/

/-- An `envoy::config::core::v3::ConfigSource`: a control-plane descriptor, of which this
file only takes the hash. -/
structure ConfigSource where
  descriptor : String
  deriving DecidableEq, Repr

/-- The `uint64_t` value `MessageUtil::hash` returns for a config source, given the hash
function. -/
def configSourceHash (hashSource : ConfigSource → Nat) (config_source : ConfigSource) : Nat :=
  hashSource config_source % 2 ^ 64

/-- The key `absl::StrCat(MessageUtil::hash(config_source), ".", name)`: the hash in decimal, a dot,
the filter config name. -/
def subscriptionId (hash : Nat) (name : String) : String :=
  toString hash ++ "." ++ name

/-- A `FilterConfigSubscription` that is alive: the address of the object, the
`subscription_id_` it was constructed with, and its record. -/
structure SubscriptionObject where
  address : Nat
  subscription_id_ : String
  subscription : FilterConfigSubscription
  deriving DecidableEq, Repr

/-- The record of a `FilterConfigProviderManagerImplBase` with the subscriptions it made that
are still alive. `subscriptions_` maps a key to a weak pointer, given by the
address it points to; a weak pointer is expired when no object in `alive` has
that address. Addresses are handed out in increasing order and not reused. -/
structure FilterConfigProviderManagerImplBase where
  subscriptions_ : List (String × Nat)
  alive : List SubscriptionObject
  next_address : Nat
  deriving DecidableEq, Repr

/-- What `getSubscription` hands back: a shared pointer to a subscription, or the null
pointer of an expired weak reference, on which `ASSERT(existing != nullptr)` fails. -/
inductive GetSubscriptionResult where
  | subscription (address : Nat)
  | expired
  deriving DecidableEq, Repr

namespace FilterConfigProviderManagerImplBase

/-- A manager that has made no subscription yet. -/
def empty : FilterConfigProviderManagerImplBase :=
  { subscriptions_ := [], alive := [], next_address := 0 }

/-- The member `weak_ptr::lock` on the table's value: the object at that address, if alive. -/
def lock (manager : FilterConfigProviderManagerImplBase) (address : Nat) :
    Option SubscriptionObject :=
  manager.alive.find? fun object => object.address == address

/-- The member `getSubscription`. -/
def getSubscription (hashSource : ConfigSource → Nat)
    (manager : FilterConfigProviderManagerImplBase) (config_source : ConfigSource)
    (name : String) : FilterConfigProviderManagerImplBase × GetSubscriptionResult :=
  let subscription_id := subscriptionId (configSourceHash hashSource config_source) name
  match manager.subscriptions_.find? fun entry => entry.1 == subscription_id with
  | none =>
    let subscription : SubscriptionObject :=
      { address := manager.next_address
        subscription_id_ := subscription_id
        subscription := FilterConfigSubscription.create name }
    ({ subscriptions_ := manager.subscriptions_ ++ [(subscription_id, subscription.address)]
       alive := manager.alive ++ [subscription]
       next_address := manager.next_address + 1 },
      .subscription subscription.address)
  | some entry =>
    match manager.lock entry.2 with
    | some existing => (manager, .subscription existing.address)
    | none => (manager, .expired)

/-- The destructor of the subscription at `address`, as far as the manager goes:
`subscriptions_.erase(subscription_id_)`, after which the object is gone. Nothing
happens when no subscription is alive at that address. -/
def destroySubscription (manager : FilterConfigProviderManagerImplBase) (address : Nat) :
    FilterConfigProviderManagerImplBase :=
  match manager.lock address with
  | none => manager
  | some subscription =>
    { manager with
      subscriptions_ :=
        manager.subscriptions_.filter fun entry => entry.1 != subscription.subscription_id_
      alive := manager.alive.filter fun object => object.address != address }

end FilterConfigProviderManagerImplBase

/-- The calls that reach the interning table. -/
inductive ManagerOperation where
  | getSubscription (config_source : ConfigSource) (name : String)
  | destroySubscription (address : Nat)
  deriving DecidableEq, Repr

/-- The manager after one call. -/
def managerStep (hashSource : ConfigSource → Nat) (manager : FilterConfigProviderManagerImplBase) :
    ManagerOperation → FilterConfigProviderManagerImplBase
  | .getSubscription config_source name =>
    (manager.getSubscription hashSource config_source name).1
  | .destroySubscription address => manager.destroySubscription address

/-- The manager after a sequence of calls, first to last. -/
def runManager (hashSource : ConfigSource → Nat) (manager : FilterConfigProviderManagerImplBase)
    (ops : List ManagerOperation) : FilterConfigProviderManagerImplBase :=
  ops.foldl (managerStep hashSource) manager

/-- The table and the live subscriptions agree: every entry points to a live
subscription constructed with the entry's key, every live subscription is
entered under its own key, no key and no address occurs twice, and every
address in use is below the next one to hand out. -/
structure TableConsistent (manager : FilterConfigProviderManagerImplBase) : Prop where
  entry_alive : ∀ entry ∈ manager.subscriptions_, ∃ object ∈ manager.alive,
    object.address = entry.2 ∧ object.subscription_id_ = entry.1
  alive_entered : ∀ object ∈ manager.alive,
    (object.subscription_id_, object.address) ∈ manager.subscriptions_
  keys_nodup : (manager.subscriptions_.map Prod.fst).Nodup
  addresses_nodup : (manager.alive.map SubscriptionObject.address).Nodup
  addresses_lt : ∀ object ∈ manager.alive, object.address < manager.next_address

/-- The number a string of decimal digits stands for. -/
def decimalValue (cs : List Char) : Nat :=
  cs.foldl (fun acc c => acc * 10 + (c.toNat - 48)) 0

/-- A hash of config sources under which `xds-a` and `xds-b` collide. -/
def descriptorLength (config_source : ConfigSource) : Nat :=
  config_source.descriptor.length

/-- Two different config sources with descriptors of equal length. -/
def xdsA : ConfigSource := { descriptor := "xds-a" }

/-- The second of the two config sources. -/
def xdsB : ConfigSource := { descriptor := "xds-b" }

/-- An extension config source that declares no `type_urls` and no default. -/
def noTypeUrlsSource : ExtensionConfigSource :=
  { config_source_hash := 3, default_config := none
    apply_default_config_without_warming := false, type_urls := [] }

/-- An extension config source that declares no `type_urls` and a `buffer` default, for
which a factory is registered. -/
def noTypeUrlsDefaultSource : ExtensionConfigSource :=
  { config_source_hash := 4, default_config := some { type_url := "buffer", value := "d" }
    apply_default_config_without_warming := false, type_urls := [] }

/-- The subscription `foo` with one provider created from `noTypeUrlsSource` in the middle
of an HTTP chain and no config yet. -/
def fooWithNoTypeUrlsSlot : FilterConfigSubscription :=
  (createDynamicFilterConfigProvider sampleCollaborators [] (FilterConfigSubscription.create "foo")
    noTypeUrlsSource "foo" false "http").subscription

/-- The provider attached to `fooWithNoTypeUrlsSlot`: it requires no type URL, and has
been told to apply its default, of which it has none. -/
def noTypeUrlsSlot : DynamicFilterConfigProviderImplBase :=
  { require_type_urls_ := [], last_filter_in_filter_chain_ := false
    filter_chain_type_ := "http", default_config_ := none
    received := [.applyDefaultConfiguration] }

end Filter

/-! ## The connection pool

`ConnPoolImplBase`, `ActiveClient` and `PendingStream` are defined in
`source/common/conn_pool/conn_pool_base.{h,cc}`; this part is an embedding of what the
specification says about them, checked against `test/common/conn_pool/conn_pool_base_test.cc`. -/

namespace ConnectionPool

/-- Modelled from the spec: the states of `ActiveClient::State`. -/
inductive ActiveClient.State where
  | CONNECTING
  | READY
  | BUSY
  | DRAINING
  | CLOSED
  deriving DecidableEq, Repr

/-- Modelled from the spec: the values of `Upstream::Host::Health`. -/
inductive Health where
  | Healthy
  | Degraded
  | Unhealthy
  deriving DecidableEq, Repr

/-- Modelled from the spec: the policies of `ConnectionPool::CancelPolicy`. -/
inductive CancelPolicy where
  | Default
  | CloseExcess
  deriving DecidableEq, Repr

/-- Modelled from the spec: a preconnect ratio, the `float` of the source taken as the exact
fraction `num / den`; `1.5` is `3 / 2`. -/
structure PreconnectRatio where
  num : Nat
  den : Nat
  deriving DecidableEq, Repr

/-- Modelled from the spec: `ceil(ratio * streams)`, the stream capacity a ratio asks for. -/
def PreconnectRatio.ceilMul (ratio : PreconnectRatio) (streams : Nat) : Nat :=
  (ratio.num * streams + ratio.den - 1) / ratio.den

/-- The ratio `1`, preconnecting nothing. -/
def PreconnectRatio.one : PreconnectRatio :=
  { num := 1, den := 1 }

/-- Whether the ratio is below `1`. -/
def PreconnectRatio.belowOne (ratio : PreconnectRatio) : Bool :=
  decide (ratio.num < ratio.den)

/-- Modelled from the spec: an `ActiveClient`, one physical connection: its state, its
concurrent-stream capacity, the streams left of its lifetime `stream_limit`, its
active streams, and whether its connection duration timer exists. -/
structure ActiveClient where
  state_ : ActiveClient.State
  concurrent_stream_limit_ : Nat
  remaining_streams_ : Nat
  active_streams_ : Nat
  connection_duration_timer_ : Bool
  deriving DecidableEq, Repr

/-- Modelled from the spec: what a client adds to `connecting_and_connected_stream_capacity`:
`min(stream_limit - streams_used, concurrent_streams)` unless it is `CLOSED`. -/
def ActiveClient.capacity (client : ActiveClient) : Nat :=
  if client.state_ = .CLOSED then 0
  else min client.remaining_streams_ client.concurrent_stream_limit_

/-- Modelled from the spec: the counters of `Upstream::ClusterConnectivityState`. -/
structure ClusterConnectivityState where
  active_streams_ : Nat
  pending_streams_ : Nat
  connecting_and_connected_stream_capacity_ : Nat
  deriving DecidableEq, Repr

/-- Modelled from the spec: a `ConnPoolImplBase` as the test fixture sets it up: the health
of its host, the cluster's `perUpstreamPreconnectRatio`, the `stream_limit_` and
`concurrent_streams_` that `instantiateActiveClient` gives a new client, the clients in
the order they were instantiated, the queue of pending streams (each named by
its attach context), and the cluster connectivity state. -/
structure ConnPoolImplBase where
  health_ : Health
  per_upstream_preconnect_ratio_ : PreconnectRatio
  stream_limit_ : Nat
  concurrent_streams_ : Nat
  clients_ : List ActiveClient
  pending_streams_ : List Nat
  state_ : ClusterConnectivityState
  deriving DecidableEq, Repr

namespace ConnPoolImplBase

/-- Modelled from the spec: the client `instantiateActiveClient` returns, in state `CONNECTING`
and without a connection duration timer, which is started on `Connected` only. -/
def newClient (pool : ConnPoolImplBase) : ActiveClient :=
  { state_ := .CONNECTING
    concurrent_stream_limit_ := pool.concurrent_streams_
    remaining_streams_ := pool.stream_limit_
    active_streams_ := 0
    connection_duration_timer_ := false }

/-- Modelled from the spec: instantiating one client; its capacity is added to
`connecting_and_connected_stream_capacity`. -/
def instantiateActiveClient (pool : ConnPoolImplBase) : ConnPoolImplBase :=
  { pool with
    clients_ := pool.clients_ ++ [pool.newClient]
    state_ := { pool.state_ with
      connecting_and_connected_stream_capacity_ :=
        pool.state_.connecting_and_connected_stream_capacity_ + pool.newClient.capacity } }

/-- Modelled from the spec: the ratio `newStream` honors: `perUpstreamPreconnectRatio` on a
`Healthy` host and no preconnect, ratio `1`, on a `Degraded` or `Unhealthy` one. -/
def effectiveRatio (pool : ConnPoolImplBase) : PreconnectRatio :=
  if pool.health_ = .Healthy then pool.per_upstream_preconnect_ratio_ else PreconnectRatio.one

/-- Modelled from the spec: whether the capacity is short of
`ceil(ratio * (active + pending + anticipated))`. -/
def shouldCreateNewConnection (pool : ConnPoolImplBase) (ratio : PreconnectRatio)
    (anticipated_streams : Nat) : Bool :=
  decide (pool.state_.connecting_and_connected_stream_capacity_ <
    ratio.ceilMul (pool.state_.active_streams_ + pool.state_.pending_streams_
      + anticipated_streams))

/-- Modelled from the spec: "instantiate one or more ActiveClients until
`connecting_and_connected_stream_capacity >= ceil(ratio * (active + pending))`". The loop
makes at most `fuel` rounds. -/
def tryCreateNewConnections (ratio : PreconnectRatio) :
    Nat → ConnPoolImplBase → ConnPoolImplBase
  | 0, pool => pool
  | fuel + 1, pool =>
    if pool.shouldCreateNewConnection ratio 0 then
      tryCreateNewConnections ratio fuel pool.instantiateActiveClient
    else pool

/-- Modelled from the spec: attaching a stream to the client at `index`: the client's and the
cluster's active streams go up, one stream of the client's lifetime is used, the
capacity follows the client's, and the client leaves `READY` for `DRAINING` when its
`stream_limit` is used up or else for `BUSY` when it is at its concurrent capacity. -/
def attachStreamToClient (pool : ConnPoolImplBase) (index : Nat) (client : ActiveClient) :
    ConnPoolImplBase :=
  let attached : ActiveClient :=
    { client with
      active_streams_ := client.active_streams_ + 1
      remaining_streams_ := client.remaining_streams_ - 1 }
  let attached : ActiveClient :=
    if attached.remaining_streams_ = 0 then { attached with state_ := .DRAINING }
    else if attached.concurrent_stream_limit_ ≤ attached.active_streams_ then
      { attached with state_ := .BUSY }
    else attached
  { pool with
    clients_ := pool.clients_.set index attached
    state_ := { pool.state_ with
      active_streams_ := pool.state_.active_streams_ + 1
      connecting_and_connected_stream_capacity_ :=
        pool.state_.connecting_and_connected_stream_capacity_ - client.capacity
          + attached.capacity } }

/-- Modelled from the spec: `addPendingStream`, queueing a pending stream for `context` behind
those already waiting. -/
def addPendingStream (pool : ConnPoolImplBase) (context : Nat) : ConnPoolImplBase :=
  { pool with
    pending_streams_ := pool.pending_streams_ ++ [context]
    state_ := { pool.state_ with pending_streams_ := pool.state_.pending_streams_ + 1 } }

/-- Modelled from the spec: `ConnPoolImplBase::newStreamImpl` of `conn_pool_base.cc`, the spec's
`newStream`. With a `READY` client the stream is attached at
once. Otherwise a pending stream is queued and clients are instantiated until
the capacity reaches `ceil(ratio * (active + pending))`; that target bounds the rounds
of the loop, each client adding at least one unit. -/
def newStreamImpl (pool : ConnPoolImplBase) (context : Nat) : ConnPoolImplBase :=
  match pool.clients_.findIdx? fun client => client.state_ == .READY with
  | some index =>
    match pool.clients_.get? index with
    | some client => pool.attachStreamToClient index client
    | none => pool
  | none =>
    let pool := pool.addPendingStream context
    tryCreateNewConnections pool.effectiveRatio
      (pool.effectiveRatio.ceilMul (pool.state_.active_streams_ + pool.state_.pending_streams_))
      pool

/-- Modelled from the spec: `ConnPoolImplBase::maybePreconnectImpl` of `conn_pool_base.cc`, the
spec's `maybePreconnect(ratio)`: nothing on a host that is not `Healthy`,
nothing below ratio `1`; otherwise at most one client is instantiated, when the
capacity is short of the target, which counts the stream the call anticipates
(the test `ExplicitPreconnect` gets two clients from ratio `1.1` on an empty pool);
the result tells whether a client was created. -/
def maybePreconnectImpl (pool : ConnPoolImplBase) (global_preconnect_ratio : PreconnectRatio) :
    ConnPoolImplBase × Bool :=
  if pool.health_ ≠ .Healthy then (pool, false)
  else if global_preconnect_ratio.belowOne then (pool, false)
  else if pool.shouldCreateNewConnection global_preconnect_ratio 1 then
    (pool.instantiateActiveClient, true)
  else (pool, false)

/-- Modelled from the spec: closing the client at `index`: it becomes `CLOSED` and its capacity
is released. -/
def closeClient (pool : ConnPoolImplBase) (index : Nat) (client : ActiveClient) :
    ConnPoolImplBase :=
  { pool with
    clients_ := pool.clients_.set index { client with state_ := .CLOSED }
    state_ := { pool.state_ with
      connecting_and_connected_stream_capacity_ :=
        pool.state_.connecting_and_connected_stream_capacity_ - client.capacity } }

/-- Modelled from the spec: `PendingStream::cancel` of `conn_pool_base.cc`, cancelling the
pending stream of `context`. `Default` releases the
reservation and keeps the preconnected capacity; `CloseExcess` also closes one
`CONNECTING` client when the capacity exceeds what the streams still pending need,
releasing that client's capacity. -/
def cancel (pool : ConnPoolImplBase) (context : Nat) (policy : CancelPolicy) :
    ConnPoolImplBase :=
  if context ∈ pool.pending_streams_ then
    let pool : ConnPoolImplBase :=
      { pool with
        pending_streams_ := pool.pending_streams_.erase context
        state_ := { pool.state_ with pending_streams_ := pool.state_.pending_streams_ - 1 } }
    if policy = .CloseExcess ∧
        pool.state_.pending_streams_ < pool.state_.connecting_and_connected_stream_capacity_ then
      match pool.clients_.findIdx? fun client => client.state_ == .CONNECTING with
      | some index =>
        match pool.clients_.get? index with
        | some client => pool.closeClient index client
        | none => pool
      | none => pool
    else pool
  else pool

end ConnPoolImplBase

/-- Modelled from the spec: what `onConnectionDurationTimeout` leaves behind: the client, the
counter `upstream_cx_max_duration_reached` and the `ENVOY_BUG` raised, if any. -/
structure TimeoutResult where
  client : ActiveClient
  upstream_cx_max_duration_reached_ : Nat
  envoy_bug : Option String
  deriving DecidableEq, Repr

/-- Modelled from the spec: `ActiveClient::onConnectionDurationTimeout` of `conn_pool_base.cc`. The callback is a
programmer error in `CONNECTING` and `CLOSED`; a `BUSY` client is drained and a `READY`
one, having nothing to drain, is closed, both counted in
`upstream_cx_max_duration_reached`; a client already `DRAINING` is left alone (tests
`MaxConnectionDurationBusy`, `Ready`, `AlreadyDraining` and the two `Bug` tests). -/
def ActiveClient.onConnectionDurationTimeout (client : ActiveClient)
    (upstream_cx_max_duration_reached : Nat) : TimeoutResult :=
  match client.state_ with
  | .CONNECTING =>
    ⟨client, upstream_cx_max_duration_reached,
      some "max connection duration reached while connecting"⟩
  | .CLOSED =>
    ⟨client, upstream_cx_max_duration_reached,
      some "max connection duration reached while closed"⟩
  | .DRAINING => ⟨client, upstream_cx_max_duration_reached, none⟩
  | .BUSY =>
    ⟨{ client with state_ := .DRAINING }, upstream_cx_max_duration_reached + 1, none⟩
  | .READY =>
    ⟨{ client with state_ := .CLOSED }, upstream_cx_max_duration_reached + 1, none⟩

/-- The pool of the test fixture: a `Healthy` host, ratio `1.5`, `stream_limit_ = 100`,
`concurrent_streams_ = 1`, no client, no stream. -/
def fixturePool : ConnPoolImplBase :=
  { health_ := .Healthy
    per_upstream_preconnect_ratio_ := { num := 3, den := 2 }
    stream_limit_ := 100
    concurrent_streams_ := 1
    clients_ := []
    pending_streams_ := []
    state_ := { active_streams_ := 0, pending_streams_ := 0
                connecting_and_connected_stream_capacity_ := 0 } }

/-- The pool after `count` further clients have been instantiated. -/
def ConnPoolImplBase.withNewClients (pool : ConnPoolImplBase) (count : Nat) : ConnPoolImplBase :=
  { pool with
    clients_ := pool.clients_ ++ List.replicate count pool.newClient
    state_ := { pool.state_ with
      connecting_and_connected_stream_capacity_ :=
        pool.state_.connecting_and_connected_stream_capacity_
          + count * pool.newClient.capacity } }

/-- The fixture's pool after `host_->healthFlagSet(DEGRADED_EDS_HEALTH)`. -/
def degradedPool : ConnPoolImplBase :=
  { fixturePool with health_ := .Degraded }

/-- A client as the fixture has it after `Connected` with one stream attached: `BUSY`, with
its connection duration timer. -/
def busyClient : ActiveClient :=
  { state_ := .BUSY, concurrent_stream_limit_ := 1, remaining_streams_ := 99
    active_streams_ := 1, connection_duration_timer_ := true }

/-! ### Connection events, draining and the idle callbacks -/

/-- Modelled from the spec: the events of `Network::ConnectionEvent` a client hands to
`onConnectionEvent`. -/
inductive ConnectionEvent where
  | Connected
  | RemoteClose
  | LocalClose
  deriving DecidableEq, Repr

/-- Modelled from the spec: the behaviors of `ConnectionPool::DrainBehavior`. -/
inductive DrainBehavior where
  | DrainExistingConnections
  | DrainAndDelete
  deriving DecidableEq, Repr

namespace ConnPoolImplBase

/-- Modelled from the spec: the idle predicate of `conn_pool_base.cc`: "no PendingStreams and all
clients are CLOSED (or the pool has none)". -/
def isIdleImpl (pool : ConnPoolImplBase) : Bool :=
  pool.pending_streams_.isEmpty && pool.clients_.all fun client => client.state_ == .CLOSED

/-- Modelled from the spec: "attach as many queued PendingStreams as capacity allows, FIFO": the
streams of the queue are attached in order to the client at `index` for as long
as it is `READY`. -/
def attachPendingStreams (index : Nat) : List Nat → ConnPoolImplBase → ConnPoolImplBase
  | [], pool => pool
  | _ :: rest, pool =>
    match pool.clients_.get? index with
    | some client =>
      if client.state_ = .READY then
        attachPendingStreams index rest
          (({ pool with
              pending_streams_ := rest
              state_ := { pool.state_ with
                pending_streams_ := pool.state_.pending_streams_ - 1 } } :
            ConnPoolImplBase).attachStreamToClient index client)
      else pool
    | none => pool

/-- Modelled from the spec: `onConnected`, the `Connected` branch of `onConnectionEvent` of
`conn_pool_base.cc`, for the client at `index`: the client becomes `READY`, its connection
duration timer is started if the cluster declares a `maxConnectionDuration`, and the
queued streams are attached. -/
def onConnected (pool : ConnPoolImplBase) (index : Nat) (max_connection_duration : Option Nat) :
    ConnPoolImplBase :=
  match pool.clients_.get? index with
  | some client =>
    if client.state_ = .CONNECTING then
      let connected : ActiveClient :=
        { client with
          state_ := .READY
          connection_duration_timer_ := max_connection_duration.isSome }
      let pool : ConnPoolImplBase :=
        { pool with clients_ := pool.clients_.set index connected }
      attachPendingStreams index pool.pending_streams_ pool
    else pool
  | none => pool

/-- Modelled from the spec: the transitions of `onStreamClosed` of `conn_pool_base.cc` on
`client`, found at `index`: the client's and the cluster's active streams go down; a
`BUSY` client whose capacity reopens becomes `READY`; a `DRAINING` client left without a
stream becomes `CLOSED`; the capacity follows the client's. -/
def closeStreamOfClient (pool : ConnPoolImplBase) (index : Nat) (client : ActiveClient) :
    ConnPoolImplBase :=
  let closed : ActiveClient := { client with active_streams_ := client.active_streams_ - 1 }
  let closed : ActiveClient :=
    if client.state_ = .BUSY ∧ closed.active_streams_ < closed.concurrent_stream_limit_ then
      { closed with state_ := .READY }
    else if client.state_ = .DRAINING ∧ closed.active_streams_ = 0 then
      { closed with state_ := .CLOSED }
    else closed
  { pool with
    clients_ := pool.clients_.set index closed
    state_ := { pool.state_ with
      active_streams_ := pool.state_.active_streams_ - 1
      connecting_and_connected_stream_capacity_ :=
        pool.state_.connecting_and_connected_stream_capacity_ - client.capacity
          + closed.capacity } }

/-- Modelled from the spec: the transitions of the `RemoteClose` and `LocalClose` branch of
`onConnectionEvent` of `conn_pool_base.cc` on `client`, found at `index`: the client becomes
`CLOSED` and its capacity is released; when the client was still `CONNECTING`, the
connection has failed and the pending streams are failed through `onPoolFailure`,
which empties the queue. -/
def closeConnectionOfClient (pool : ConnPoolImplBase) (index : Nat) (client : ActiveClient) :
    ConnPoolImplBase :=
  let pool : ConnPoolImplBase :=
    if client.state_ = .CONNECTING then
      { pool with
        pending_streams_ := []
        state_ := { pool.state_ with pending_streams_ := 0 } }
    else pool
  pool.closeClient index client

/-- Modelled from the spec: what a drain does to one client: a `READY` or `BUSY` client becomes
`DRAINING`, and one that has no stream to drain is `CLOSED` at once (the helper
`closeStreamAndDrainClient` of the tests drains the pool to clean up a `READY` client). -/
def drainClient (client : ActiveClient) : ActiveClient :=
  if client.state_ = .READY ∨ client.state_ = .BUSY then
    if client.active_streams_ = 0 then { client with state_ := .CLOSED }
    else { client with state_ := .DRAINING }
  else client

/-- Modelled from the spec: the transitions of `drainConnectionsImpl` of `conn_pool_base.cc`:
every client is drained, and the capacity of the clients this closes is released. -/
def drainClients (pool : ConnPoolImplBase) : ConnPoolImplBase :=
  { pool with
    clients_ := pool.clients_.map drainClient
    state_ := { pool.state_ with
      connecting_and_connected_stream_capacity_ :=
        pool.state_.connecting_and_connected_stream_capacity_
          - ((pool.clients_.map ActiveClient.capacity).sum
            - ((pool.clients_.map drainClient).map ActiveClient.capacity).sum) } }

end ConnPoolImplBase

/-- Modelled from the spec: the pool with what its idle detection keeps: the cluster's
`maxConnectionDuration`, if declared; `idle_callbacks_`, the callbacks registered through
`addIdleCallbackImpl` in registration order, each named by a number; whether a drain has
requested the deletion of the pool; whether a stream close has scheduled the idle
callbacks on the next tick of the dispatcher's loop; and the record of the idle
callbacks invoked so far, oldest first. -/
structure PoolWithIdleCallbacks where
  pool : ConnPoolImplBase
  max_connection_duration_ : Option Nat
  idle_callbacks_ : List Nat
  is_draining_for_deletion_ : Bool
  idle_callbacks_scheduled_ : Bool
  invoked_idle_callbacks : List Nat
  deriving DecidableEq, Repr

namespace PoolWithIdleCallbacks

/-- Modelled from the spec: the flush of the idle callbacks: if the pool is idle, every
registered callback is invoked, in registration order ("idle callbacks fire in
registration order"), and never otherwise ("never when a PendingStream or non-CLOSED
client exists"). The callbacks stay registered: the tests
`PoolIdleCallbackTriggeredRemoteClose` and `PoolIdleCallbackTriggeredLocalClose` expect a callback
that was registered once to be called on the close event and again on the drain
that follows. -/
def checkForIdle (p : PoolWithIdleCallbacks) : PoolWithIdleCallbacks :=
  if p.pool.isIdleImpl then
    { p with invoked_idle_callbacks := p.invoked_idle_callbacks ++ p.idle_callbacks_ }
  else p

/-- Modelled from the spec: `addIdleCallbackImpl(cb)` of `conn_pool_base.cc`; it registers the
callback and does not look at the pool. -/
def addIdleCallbackImpl (p : PoolWithIdleCallbacks) (cb : Nat) : PoolWithIdleCallbacks :=
  { p with idle_callbacks_ := p.idle_callbacks_ ++ [cb] }

/-- The pool's `newStreamImpl`; the pool is not idle after it. -/
def newStreamImpl (p : PoolWithIdleCallbacks) (context : Nat) : PoolWithIdleCallbacks :=
  { p with pool := p.pool.newStreamImpl context }

/-- Modelled from the spec: `onConnectionEvent` of `conn_pool_base.cc` for the client at `index`.
`Connected` is `onConnected`. A close event on a client that is not `CLOSED`
yet closes it and then flushes the idle callbacks ("transitions into idle flush
all registered callbacks"), inside the call: the dispatcher of the tests
`PoolIdleCallbackTriggeredRemoteClose` and `PoolIdleCallbackTriggeredLocalClose` is a mock that
runs no loop tick, and they expect the callback by the time the event returns. -/
def onConnectionEvent (p : PoolWithIdleCallbacks) (index : Nat) (event : ConnectionEvent) :
    PoolWithIdleCallbacks :=
  match event with
  | .Connected => { p with pool := p.pool.onConnected index p.max_connection_duration_ }
  | .RemoteClose | .LocalClose =>
    match p.pool.clients_.get? index with
    | some client =>
      if client.state_ ≠ .CLOSED then
        ({ p with pool := p.pool.closeConnectionOfClient index client }).checkForIdle
      else p
    | none => p

/-- Modelled from the spec: `onStreamClosed` of `conn_pool_base.cc` for the client at `index`, which
is not `CLOSED`: "decrement streams; if client was BUSY and capacity reopens ⇒ READY; if client
was DRAINING and streams == 0 ⇒ CLOSED + deferred-delete; recompute idle state and, if idle,
schedule idle callbacks on the next loop tick". No callback is invoked inside the
call. -/
def onStreamClosed (p : PoolWithIdleCallbacks) (index : Nat) : PoolWithIdleCallbacks :=
  match p.pool.clients_.get? index with
  | some client =>
    if client.state_ ≠ .CLOSED then
      let pool := p.pool.closeStreamOfClient index client
      if pool.isIdleImpl then { p with pool := pool, idle_callbacks_scheduled_ := true }
      else { p with pool := pool }
    else p
  | none => p

/-- Modelled from the spec: the next tick of the dispatcher's loop, as far as the pool goes:
the flush that a stream close has scheduled is run. As every flush, it
invokes the callbacks only if the pool is idle, which a stream asked for
between the stream close and the tick may have ended. -/
def onLoopTick (p : PoolWithIdleCallbacks) : PoolWithIdleCallbacks :=
  if p.idle_callbacks_scheduled_ then
    ({ p with idle_callbacks_scheduled_ := false }).checkForIdle
  else p

/-- Modelled from the spec: cancelling the pending stream of `context`; as the queue may become
empty, the idle callbacks are then flushed ("transitions into idle flush all
registered callbacks"). -/
def cancel (p : PoolWithIdleCallbacks) (context : Nat) (policy : CancelPolicy) :
    PoolWithIdleCallbacks :=
  if context ∈ p.pool.pending_streams_ then
    ({ p with pool := p.pool.cancel context policy }).checkForIdle
  else p

/-- Modelled from the spec: `drainConnectionsImpl(behavior)` of `conn_pool_base.cc`: "READY/BUSY
clients transition to DRAINING; behavior DrainAndDelete additionally requests deferred
deletion once drained, and fires any idle callbacks after the final transition". With
`DrainAndDelete` the idle callbacks are run whenever the pool is idle after the
transitions, also when it was idle before them, which is what the tests
`PoolIdleCallbackTriggeredRemoteClose` and `PoolIdleCallbackTriggeredLocalClose` expect of their last
call. With `DrainExistingConnections` they are run when the drain has taken the pool into
the idle state ("transitions into idle flush all registered callbacks"). -/
def drainConnectionsImpl (p : PoolWithIdleCallbacks) (behavior : DrainBehavior) :
    PoolWithIdleCallbacks :=
  match behavior with
  | .DrainAndDelete =>
    ({ p with pool := p.pool.drainClients, is_draining_for_deletion_ := true }).checkForIdle
  | .DrainExistingConnections =>
    if p.pool.isIdleImpl then { p with pool := p.pool.drainClients }
    else ({ p with pool := p.pool.drainClients }).checkForIdle

end PoolWithIdleCallbacks

/-- The operations on a pool that the idle detection is followed through. -/
inductive PoolOperation where
  | newStream (context : Nat)
  | connectionEvent (index : Nat) (event : ConnectionEvent)
  | streamClosed (index : Nat)
  | cancel (context : Nat) (policy : CancelPolicy)
  | addIdleCallback (cb : Nat)
  | drainConnections (behavior : DrainBehavior)
  | loopTick
  deriving DecidableEq, Repr

/-- One operation on the pool. -/
def PoolWithIdleCallbacks.step (p : PoolWithIdleCallbacks) :
    PoolOperation → PoolWithIdleCallbacks
  | .newStream context => p.newStreamImpl context
  | .connectionEvent index event => p.onConnectionEvent index event
  | .streamClosed index => p.onStreamClosed index
  | .cancel context policy => p.cancel context policy
  | .addIdleCallback cb => p.addIdleCallbackImpl cb
  | .drainConnections behavior => p.drainConnectionsImpl behavior
  | .loopTick => p.onLoopTick

/-- A sequence of operations on the pool, first to last. -/
def PoolWithIdleCallbacks.run (p : PoolWithIdleCallbacks) (operations : List PoolOperation) :
    PoolWithIdleCallbacks :=
  operations.foldl PoolWithIdleCallbacks.step p

/-- The pool of the fixture of the idle tests: as `fixturePool`, with the preconnect ratio
`1` that gives the one client these tests assert after `newStreamImpl`, no declared
`maxConnectionDuration` and no idle callback. -/
def idleTestPool : PoolWithIdleCallbacks :=
  { pool := { fixturePool with per_upstream_preconnect_ratio_ := PreconnectRatio.one }
    max_connection_duration_ := none
    idle_callbacks_ := []
    is_draining_for_deletion_ := false
    idle_callbacks_scheduled_ := false
    invoked_idle_callbacks := [] }

/-- The calls of the tests `PoolIdleCallbackTriggeredRemoteClose` and
`PoolIdleCallbackTriggeredLocalClose` up to and with the close event: a stream is asked for,
the connection is established, the stream is closed, the idle callback `0` is
registered, and the connection is closed. -/
def idleTestCalls (close : ConnectionEvent) : List PoolOperation :=
  [.newStream 7, .connectionEvent 0 .Connected, .streamClosed 0, .addIdleCallback 0,
    .connectionEvent 0 close]

/-- The pool of `idleTestPool` with the `stream_limit_ = 1` that the helper `newDrainingClient` of
the tests sets, so that the first stream leaves its client `DRAINING`. -/
def drainingTestPool : PoolWithIdleCallbacks :=
  { idleTestPool with pool := { idleTestPool.pool with stream_limit_ := 1 } }

/-- A stream is asked for, the connection is established, which leaves the client
`DRAINING`, the idle callback `0` is registered, and the stream is closed, which
closes the client. -/
def streamCloseCalls : List PoolOperation :=
  [.newStream 7, .connectionEvent 0 .Connected, .addIdleCallback 0, .streamClosed 0]

end ConnectionPool

namespace Filter

/-! ## Lemmas on the loops and on the control flow -/

theorem forEachProvider_ok_iff
    (check : DynamicFilterConfigProviderImplBase → Except EnvoyException Unit)
    (providers : List DynamicFilterConfigProviderImplBase) :
    forEachProvider check providers = .ok () ↔ ∀ p ∈ providers, check p = .ok () := by
  induction providers with
  | nil => simp [forEachProvider, pure, Except.pure]
  | cons p ps ih =>
    simp only [forEachProvider, List.mem_cons, forall_eq_or_imp]
    cases h : check p with
    | error e => simp
    | ok u => cases u; simp [ih]

theorem isOk_eq_true_iff (x : Except EnvoyException Unit) : x.isOk = true ↔ x = .ok () := by
  cases x with
  | error e => simp [Except.isOk, Except.toBool]
  | ok u => cases u; simp [Except.isOk, Except.toBool]

theorem validateTypeUrlHelper_ok_iff (type_url : String) (require_type_urls : List String) :
    validateTypeUrlHelper type_url require_type_urls = .ok () ↔ type_url ∈ require_type_urls := by
  unfold validateTypeUrlHelper
  by_cases h : type_url ∈ require_type_urls
  · simp [h, pure, Except.pure]
  · simp [h, throw, throwThe, MonadExceptOf.throw]

/-- The outcome of `applyLastOrDefaultConfig` in closed form. -/
theorem applyLastOrDefaultConfig_eq (env : Collaborators) (subscription : FilterConfigSubscription)
    (provider : DynamicFilterConfigProviderImplBase) (filter_config_name : String) :
    applyLastOrDefaultConfig env subscription provider filter_config_name =
      .ok (match subscription.last_config_ with
        | none => (subscription, provider.applyDefaultConfiguration)
        | some last_config =>
          if acceptsLast env subscription provider filter_config_name then
            (subscription, provider.onConfigUpdate last_config subscription.last_version_info_)
          else
            (subscription.incrementConflictCounter, provider.applyDefaultConfiguration)) := by
  unfold applyLastOrDefaultConfig acceptsLast
  cases hlast : subscription.last_config_ with
  | none => simp only [hlast]; rfl
  | some m =>
    cases h1 : provider.validateTypeUrl subscription.last_type_url_ with
    | error e => simp only [hlast, h1]; rfl
    | ok u =>
      cases h2 : provider.validateTerminalFilter env filter_config_name
          subscription.last_filter_name_ subscription.last_filter_is_terminal_ with
      | error e => simp only [hlast, h1, h2]; rfl
      | ok u2 => simp only [hlast, h1, h2]; rfl

/-- The subscription a successful full-state update leaves behind. -/
theorem onConfigUpdate_success (env : Collaborators) (s : FilterConfigSubscription)
    (resource : DecodedResource) (version_info : String)
    (factory : NamedHttpFilterConfigFactory) (message : Message)
    (hname : resource.resource.name = s.filter_config_name_)
    (hhash : env.hash64 resource.resource.typed_config ≠ s.last_config_hash_)
    (hfactory : env.getAndCheckFactory resource.resource = .ok factory)
    (htranslate : env.translateAnyToFactoryConfig resource.resource.typed_config factory
      = .ok message)
    (htype : ∀ p ∈ s.filter_config_providers_,
      p.validateTypeUrl (env.getFactoryType resource.resource.typed_config) = .ok ())
    (hterminal : ∀ p ∈ s.filter_config_providers_,
      p.validateTerminalFilter env s.filter_config_name_ factory.name
        (factory.isTerminalFilterByProto message) = .ok ()) :
    s.onConfigUpdate env [resource] version_info =
      ⟨{ s with
          init_target_ready_ := true
          filter_config_providers_ :=
            s.filter_config_providers_.map fun p => p.onConfigUpdate message version_info
          stats_ := { s.stats_ with config_reload_ := s.stats_.config_reload_ + 1 }
          last_config_hash_ := env.hash64 resource.resource.typed_config
          last_config_ := some message
          last_type_url_ := env.getFactoryType resource.resource.typed_config
          last_version_info_ := version_info
          last_filter_name_ := factory.name
          last_filter_is_terminal_ := factory.isTerminalFilterByProto message }, none⟩ := by
  have h1 := (forEachProvider_ok_iff _ _).mpr htype
  have h2 := (forEachProvider_ok_iff _ _).mpr hterminal
  simp [FilterConfigSubscription.onConfigUpdate, FilterConfigSubscription.initTargetReady, hname,
    hhash, hfactory, htranslate, h1, h2, applyToAllWithCleanup,
    FilterConfigSubscription.incConfigReload]

/-- A full-state update whose single, correctly named resource hashes to
`last_config_hash_` is skipped. -/
theorem onConfigUpdate_skip (env : Collaborators) (s : FilterConfigSubscription)
    (resource : DecodedResource) (version_info : String)
    (hname : resource.resource.name = s.filter_config_name_)
    (hhash : env.hash64 resource.resource.typed_config = s.last_config_hash_) :
    s.onConfigUpdate env [resource] version_info = ⟨s.initTargetReady, none⟩ := by
  simp [FilterConfigSubscription.onConfigUpdate, FilterConfigSubscription.initTargetReady, hname,
    hhash]

/-- The three ways a full-state update can end: skipped on an equal hash, thrown
with nothing but the init target touched, or applied. -/
theorem onConfigUpdate_cases (env : Collaborators) (s : FilterConfigSubscription)
    (resources : List DecodedResource) (version_info : String) :
    (s.onConfigUpdate env resources version_info = ⟨s.initTargetReady, none⟩ ∧
      ∃ resource, resources = [resource] ∧ resource.resource.name = s.filter_config_name_ ∧
        env.hash64 resource.resource.typed_config = s.last_config_hash_) ∨
    ((∃ e, s.onConfigUpdate env resources version_info = ⟨s.initTargetReady, some e⟩) ∧
      ¬ ∃ resource, resources = [resource] ∧ resource.resource.name = s.filter_config_name_ ∧
        env.hash64 resource.resource.typed_config = s.last_config_hash_) ∨
    ∃ resource factory message,
      resources = [resource] ∧
      resource.resource.name = s.filter_config_name_ ∧
      env.hash64 resource.resource.typed_config ≠ s.last_config_hash_ ∧
      env.getAndCheckFactory resource.resource = .ok factory ∧
      env.translateAnyToFactoryConfig resource.resource.typed_config factory = .ok message ∧
      (∀ p ∈ s.filter_config_providers_,
        p.validateTypeUrl (env.getFactoryType resource.resource.typed_config) = .ok ()) ∧
      (∀ p ∈ s.filter_config_providers_,
        p.validateTerminalFilter env s.filter_config_name_ factory.name
          (factory.isTerminalFilterByProto message) = .ok ()) := by
  match resources with
  | [] => right; left; exact ⟨⟨_, rfl⟩, by simp⟩
  | _ :: _ :: _ => right; left; exact ⟨⟨_, rfl⟩, by simp⟩
  | [resource] =>
    by_cases hname : resource.resource.name = s.filter_config_name_
    swap
    · right; left
      refine ⟨⟨.unexpectedResourceName resource.resource.name, ?_⟩, ?_⟩
      · simp [FilterConfigSubscription.onConfigUpdate, FilterConfigSubscription.initTargetReady,
          hname]
      · rintro ⟨r, hr, hn, -⟩
        cases hr
        exact hname hn
    by_cases hhash : env.hash64 resource.resource.typed_config = s.last_config_hash_
    · left
      exact ⟨onConfigUpdate_skip env s resource version_info hname hhash,
        resource, rfl, hname, hhash⟩
    have hnot : ¬ ∃ r, [resource] = [r] ∧ r.resource.name = s.filter_config_name_ ∧
        env.hash64 r.resource.typed_config = s.last_config_hash_ := by
      rintro ⟨r, hr, -, hh⟩
      cases hr
      exact hhash hh
    cases hfactory : env.getAndCheckFactory resource.resource with
    | error e =>
      right; left
      refine ⟨⟨e, ?_⟩, hnot⟩
      simp [FilterConfigSubscription.onConfigUpdate, FilterConfigSubscription.initTargetReady,
        hname, hhash, hfactory]
    | ok factory =>
      cases h1 : forEachProvider
          (fun p => p.validateTypeUrl (env.getFactoryType resource.resource.typed_config))
          s.filter_config_providers_ with
      | error e =>
        right; left
        refine ⟨⟨e, ?_⟩, hnot⟩
        simp [FilterConfigSubscription.onConfigUpdate, FilterConfigSubscription.initTargetReady,
          hname, hhash, hfactory, h1]
      | ok u1 =>
        cases htranslate : env.translateAnyToFactoryConfig resource.resource.typed_config
            factory with
        | error e =>
          right; left
          refine ⟨⟨e, ?_⟩, hnot⟩
          simp [FilterConfigSubscription.onConfigUpdate, FilterConfigSubscription.initTargetReady,
            hname, hhash, hfactory, h1, htranslate]
        | ok message =>
          cases h2 : forEachProvider
              (fun p => p.validateTerminalFilter env s.filter_config_name_ factory.name
                (factory.isTerminalFilterByProto message))
              s.filter_config_providers_ with
          | error e =>
            right; left
            refine ⟨⟨e, ?_⟩, hnot⟩
            simp [FilterConfigSubscription.onConfigUpdate,
              FilterConfigSubscription.initTargetReady, hname, hhash, hfactory, h1, htranslate,
              h2]
          | ok u2 =>
            right; right
            exact ⟨resource, factory, message, rfl, hname, hhash, hfactory, htranslate,
              (forEachProvider_ok_iff _ _).mp h1, (forEachProvider_ok_iff _ _).mp h2⟩

/-- Every full-state update leaves the init target ready. -/
theorem onConfigUpdate_ready (env : Collaborators) (s : FilterConfigSubscription)
    (resources : List DecodedResource) (version_info : String) :
    (s.onConfigUpdate env resources version_info).subscription.init_target_ready_ = true := by
  rcases onConfigUpdate_cases env s resources version_info with
    ⟨h, -⟩ | ⟨⟨e, h⟩, -⟩ | ⟨r, f, m, hr, hn, hh, hf, ht, h1, h2⟩
  · rw [h]; rfl
  · rw [h]; rfl
  · subst hr
    rw [onConfigUpdate_success env s r version_info f m hn hh hf ht h1 h2]

/-- When some provider fails a check, the loop over the providers ends with the
exception of one of them. -/
theorem forEachProvider_error
    (check : DynamicFilterConfigProviderImplBase → Except EnvoyException Unit)
    (providers : List DynamicFilterConfigProviderImplBase)
    (p : DynamicFilterConfigProviderImplBase) (e₀ : EnvoyException)
    (hp : p ∈ providers) (hcheck : check p = .error e₀) :
    ∃ q e, q ∈ providers ∧ check q = .error e ∧ forEachProvider check providers = .error e := by
  induction providers with
  | nil => exact absurd hp (List.not_mem_nil _)
  | cons a rest ih =>
    cases ha : check a with
    | error e => exact ⟨a, e, List.mem_cons_self _ _, ha, by simp [forEachProvider, ha]⟩
    | ok u =>
      rcases List.mem_cons.mp hp with rfl | hrest
      · rw [hcheck] at ha; cases ha
      · obtain ⟨q, e, hq, hqe, hall⟩ := ih hrest
        exact ⟨q, e, List.mem_cons_of_mem _ hq, hqe, by simp [forEachProvider, ha, hall]⟩

/-- A full-state update that passes the count, name, hash and factory checks and
then meets a provider whose `validateTypeUrl` raises: the exception leaves the
subscription as the call found it, but for the init target. -/
theorem onConfigUpdate_type_url_rejected (env : Collaborators) (s : FilterConfigSubscription)
    (resource : DecodedResource) (version_info : String)
    (factory : NamedHttpFilterConfigFactory) (e : EnvoyException)
    (hname : resource.resource.name = s.filter_config_name_)
    (hhash : env.hash64 resource.resource.typed_config ≠ s.last_config_hash_)
    (hfactory : env.getAndCheckFactory resource.resource = .ok factory)
    (htype : forEachProvider
      (fun provider => provider.validateTypeUrl (env.getFactoryType resource.resource.typed_config))
      s.filter_config_providers_ = .error e) :
    s.onConfigUpdate env [resource] version_info = ⟨s.initTargetReady, some e⟩ := by
  simp [FilterConfigSubscription.onConfigUpdate, FilterConfigSubscription.initTargetReady, hname,
    hhash, hfactory, htype]

/-- A full-state update that passes the count, name, hash and factory checks, the
type URL loop and the translation, and then meets a provider whose
`validateTerminalFilter` raises: the exception leaves the subscription as the call found
it, but for the init target. -/
theorem onConfigUpdate_terminal_rejected (env : Collaborators) (s : FilterConfigSubscription)
    (resource : DecodedResource) (version_info : String)
    (factory : NamedHttpFilterConfigFactory) (message : Message) (e : EnvoyException)
    (hname : resource.resource.name = s.filter_config_name_)
    (hhash : env.hash64 resource.resource.typed_config ≠ s.last_config_hash_)
    (hfactory : env.getAndCheckFactory resource.resource = .ok factory)
    (htype : forEachProvider
      (fun provider => provider.validateTypeUrl (env.getFactoryType resource.resource.typed_config))
      s.filter_config_providers_ = .ok ())
    (htranslate : env.translateAnyToFactoryConfig resource.resource.typed_config factory
      = .ok message)
    (hterminal : forEachProvider
      (fun provider => provider.validateTerminalFilter env s.filter_config_name_ factory.name
        (factory.isTerminalFilterByProto message))
      s.filter_config_providers_ = .error e) :
    s.onConfigUpdate env [resource] version_info = ⟨s.initTargetReady, some e⟩ := by
  simp [FilterConfigSubscription.onConfigUpdate, FilterConfigSubscription.initTargetReady, hname,
    hhash, hfactory, htype, htranslate, hterminal]

/-- The loop over the providers either passes every provider or ends with the
exception of one of them. -/
theorem forEachProvider_cases
    (check : DynamicFilterConfigProviderImplBase → Except EnvoyException Unit)
    (providers : List DynamicFilterConfigProviderImplBase) :
    forEachProvider check providers = .ok () ∨
    ∃ q e, q ∈ providers ∧ check q = .error e ∧ forEachProvider check providers = .error e := by
  cases h : forEachProvider check providers with
  | ok u => left; rfl
  | error e =>
    right
    by_cases hall : ∀ p ∈ providers, check p = .ok ()
    · rw [(forEachProvider_ok_iff check providers).mpr hall] at h
      cases h
    · push_neg at hall
      obtain ⟨p, hp, hne⟩ := hall
      cases hp2 : check p with
      | ok u => exact absurd hp2 hne
      | error e₀ =>
        obtain ⟨q, e2, hq, hqe, hres⟩ := forEachProvider_error check providers p e₀ hp hp2
        rw [h] at hres
        cases hres
        exact ⟨q, e, hq, hqe, rfl⟩

/-! ## Full-state updates -/

/-- Claim C1. A full-state update in which the check of an attached provider raises is
one that has passed the count, name, hash and factory checks, which come before
the two validation loops, and in which `validateTypeUrl` raises for an attached
provider or, the payload having been translated, `validateTerminalFilter` does. Such a
call raises, with the exception of an attached provider's check; no provider
receives `onConfigUpdate`, `config_reload` is not incremented and no `last_*` field
changes: the subscription is as before, but for the init target, which is
ready. -/
theorem onConfigUpdate_raising_provider_is_atomic (env : Collaborators)
    (s : FilterConfigSubscription) (resource : DecodedResource) (version_info : String)
    (factory : NamedHttpFilterConfigFactory)
    (hname : resource.resource.name = s.filter_config_name_)
    (hhash : env.hash64 resource.resource.typed_config ≠ s.last_config_hash_)
    (hfactory : env.getAndCheckFactory resource.resource = .ok factory)
    (hraises :
      (∃ p ∈ s.filter_config_providers_, ∃ e,
        p.validateTypeUrl (env.getFactoryType resource.resource.typed_config) = .error e) ∨
      (∃ message,
        env.translateAnyToFactoryConfig resource.resource.typed_config factory = .ok message ∧
        ∃ p ∈ s.filter_config_providers_, ∃ e,
          p.validateTerminalFilter env s.filter_config_name_ factory.name
            (factory.isTerminalFilterByProto message) = .error e)) :
    (∃ e, (s.onConfigUpdate env [resource] version_info).thrown = some e ∧
      ∃ q ∈ s.filter_config_providers_,
        q.validateTypeUrl (env.getFactoryType resource.resource.typed_config) = .error e ∨
        ∃ message,
          env.translateAnyToFactoryConfig resource.resource.typed_config factory
            = .ok message ∧
          q.validateTerminalFilter env s.filter_config_name_ factory.name
            (factory.isTerminalFilterByProto message) = .error e) ∧
    (s.onConfigUpdate env [resource] version_info).subscription =
      { s with init_target_ready_ := true } ∧
    (s.onConfigUpdate env [resource] version_info).subscription.filter_config_providers_ =
      s.filter_config_providers_ ∧
    (s.onConfigUpdate env [resource] version_info).subscription.stats_.config_reload_ =
      s.stats_.config_reload_ ∧
    (s.onConfigUpdate env [resource] version_info).subscription.last_config_hash_ =
      s.last_config_hash_ ∧
    (s.onConfigUpdate env [resource] version_info).subscription.last_config_ =
      s.last_config_ ∧
    (s.onConfigUpdate env [resource] version_info).subscription.last_type_url_ =
      s.last_type_url_ ∧
    (s.onConfigUpdate env [resource] version_info).subscription.last_version_info_ =
      s.last_version_info_ ∧
    (s.onConfigUpdate env [resource] version_info).subscription.last_filter_name_ =
      s.last_filter_name_ ∧
    (s.onConfigUpdate env [resource] version_info).subscription.last_filter_is_terminal_ =
      s.last_filter_is_terminal_ := by
  have key : ∃ e, s.onConfigUpdate env [resource] version_info = ⟨s.initTargetReady, some e⟩ ∧
      ∃ q ∈ s.filter_config_providers_,
        q.validateTypeUrl (env.getFactoryType resource.resource.typed_config) = .error e ∨
        ∃ message,
          env.translateAnyToFactoryConfig resource.resource.typed_config factory
            = .ok message ∧
          q.validateTerminalFilter env s.filter_config_name_ factory.name
            (factory.isTerminalFilterByProto message) = .error e := by
    rcases forEachProvider_cases
        (fun provider =>
          provider.validateTypeUrl (env.getFactoryType resource.resource.typed_config))
        s.filter_config_providers_ with htype | ⟨q, e, hq, hqe, hall⟩
    · rcases hraises with ⟨p, hp, e, hpe⟩ | ⟨message, htranslate, p, hp, e₀, hpe⟩
      · have hok := (forEachProvider_ok_iff _ _).mp htype p hp
        rw [hpe] at hok
        cases hok
      · obtain ⟨q, e, hq, hqe, hall⟩ := forEachProvider_error
          (fun provider =>
            provider.validateTerminalFilter env s.filter_config_name_ factory.name
              (factory.isTerminalFilterByProto message))
          s.filter_config_providers_ p e₀ hp hpe
        exact ⟨e, onConfigUpdate_terminal_rejected env s resource version_info factory message
          e hname hhash hfactory htype htranslate hall, q, hq, Or.inr ⟨message, htranslate, hqe⟩⟩
    · exact ⟨e, onConfigUpdate_type_url_rejected env s resource version_info factory e hname
        hhash hfactory hall, q, hq, Or.inl hqe⟩
  obtain ⟨e, hresult, hq⟩ := key
  rw [hresult]
  exact ⟨⟨e, rfl, hq⟩, rfl, rfl, rfl, rfl, rfl, rfl, rfl, rfl, rfl⟩

/-- Claim C1 at the subscription `fooWithRouterSlot`, whose provider admits `router` configs
only, for a `buffer` payload with a new hash: the provider's `validateTypeUrl` raises. -/
theorem onConfigUpdate_raising_provider_is_atomic_witness :
    bufferResource2.resource.name = fooWithRouterSlot.filter_config_name_ ∧
    sampleCollaborators.hash64 bufferResource2.resource.typed_config ≠
      fooWithRouterSlot.last_config_hash_ ∧
    sampleCollaborators.getAndCheckFactory bufferResource2.resource = .ok bufferFactory ∧
    (fooWithRouterSlot.onConfigUpdate sampleCollaborators [bufferResource2] "2").thrown =
      some (.typeUrlNotExpected "buffer" ["router"]) ∧
    (fooWithRouterSlot.onConfigUpdate sampleCollaborators [bufferResource2] "2").subscription =
      { fooWithRouterSlot with init_target_ready_ := true } ∧
    (fooWithRouterSlot.onConfigUpdate sampleCollaborators [bufferResource2]
      "2").subscription.filter_config_providers_ = fooWithRouterSlot.filter_config_providers_ ∧
    (fooWithRouterSlot.onConfigUpdate sampleCollaborators [bufferResource2]
      "2").subscription.stats_.config_reload_ = fooWithRouterSlot.stats_.config_reload_ :=
  have h := onConfigUpdate_raising_provider_is_atomic sampleCollaborators fooWithRouterSlot
    bufferResource2 "2" bufferFactory rfl (by decide) rfl
    (Or.inl ⟨_, List.mem_singleton.mpr rfl, .typeUrlNotExpected "buffer" ["router"], rfl⟩)
  ⟨rfl, by decide, rfl, rfl, h.2.1, h.2.2.1, h.2.2.2.1⟩

/-- The same frame for a payload that an attached provider would reject if it were
asked, whether or not the call gets as far as asking: no provider receives
`onConfigUpdate`, `config_reload` is not incremented and no `last_*` field changes, only
the init target is made ready. The call raises, except when the update is
a single resource with the subscription's name whose payload hash equals
`last_config_hash_`: that update is skipped before any provider is consulted. -/
theorem onConfigUpdate_rejected_is_atomic (env : Collaborators) (s : FilterConfigSubscription)
    (resources : List DecodedResource) (version_info : String) (resource : DecodedResource)
    (provider : DynamicFilterConfigProviderImplBase)
    (hresource : resource ∈ resources)
    (hprovider : provider ∈ s.filter_config_providers_)
    (hrejects : rejectsPayload env s provider resource.resource = true) :
    (s.onConfigUpdate env resources version_info).subscription
        = { s with init_target_ready_ := true } ∧
    ((s.onConfigUpdate env resources version_info).thrown = none ↔
      resources = [resource] ∧ resource.resource.name = s.filter_config_name_ ∧
        env.hash64 resource.resource.typed_config = s.last_config_hash_) := by
  rcases onConfigUpdate_cases env s resources version_info with
    ⟨h, r, hr, hn, hh⟩ | ⟨⟨e, h⟩, hnot⟩ | ⟨r, f, m, hr, hn, hh, hf, ht, h1, h2⟩
  · subst hr
    have : resource = r := by simpa using hresource
    subst this
    rw [h]
    exact ⟨rfl, by simp [hn, hh]⟩
  · rw [h]
    refine ⟨rfl, ?_⟩
    constructor
    · intro hnone; cases hnone
    · rintro ⟨hr, hn, hh⟩
      exact absurd ⟨resource, hr, hn, hh⟩ hnot
  · subst hr
    have : resource = r := by simpa using hresource
    subst this
    exfalso
    have e1 := (isOk_eq_true_iff _).mpr (h1 provider hprovider)
    have e2 := (isOk_eq_true_iff _).mpr (h2 provider hprovider)
    simp [rejectsPayload, hf, ht, e1, e2] at hrejects

/-- The hash guard comes before the validation loops: on `fooWithRouterSlot` the attached
provider admits `router` configs only and would reject the `buffer` payload, yet
re-delivering the payload the subscription already holds returns without any
provider being consulted, so nothing raises. -/
theorem onConfigUpdate_rejected_without_error :
    (∃ provider ∈ fooWithRouterSlot.filter_config_providers_,
      rejectsPayload sampleCollaborators fooWithRouterSlot provider bufferResource.resource
        = true) ∧
    (fooWithRouterSlot.onConfigUpdate sampleCollaborators [bufferResource] "1").thrown
      = none := by
  decide

/-- Witness for `onConfigUpdate_rejected_is_atomic`: a `buffer` payload with a new hash is
offered to a subscription whose only provider admits `router` configs. -/
theorem onConfigUpdate_rejected_is_atomic_witness :
    (fooWithRouterSlot.onConfigUpdate sampleCollaborators [bufferResource2] "2").subscription
        = { fooWithRouterSlot with init_target_ready_ := true } ∧
    ((fooWithRouterSlot.onConfigUpdate sampleCollaborators [bufferResource2] "2").thrown = none ↔
      [bufferResource2] = [bufferResource2] ∧
        bufferResource2.resource.name = fooWithRouterSlot.filter_config_name_ ∧
        sampleCollaborators.hash64 bufferResource2.resource.typed_config
          = fooWithRouterSlot.last_config_hash_) :=
  onConfigUpdate_rejected_is_atomic sampleCollaborators fooWithRouterSlot [bufferResource2] "2"
    bufferResource2
    { require_type_urls_ := ["router"], last_filter_in_filter_chain_ := true
      filter_chain_type_ := "http"
      default_config_ := some { type_name := "router", content := "d" }
      received := [.applyDefaultConfiguration] }
    (by decide) (by decide) (by decide)

/-- Claim C2, as the code has it. For a well-formed payload accepted by every attached
provider, delivered twice in a row: neither delivery raises and the second one
changes nothing at all. If the payload hash differs from `last_config_hash_` before
the first delivery, the two deliveries together make exactly one `onConfigUpdate`
call on each attached provider and increment `config_reload` exactly once; if the
hash equals `last_config_hash_`, the first delivery is skipped as well. -/
theorem onConfigUpdate_twice (env : Collaborators) (s : FilterConfigSubscription)
    (resource : DecodedResource) (version_info : String)
    (factory : NamedHttpFilterConfigFactory) (message : Message)
    (hname : resource.resource.name = s.filter_config_name_)
    (hfactory : env.getAndCheckFactory resource.resource = .ok factory)
    (htranslate : env.translateAnyToFactoryConfig resource.resource.typed_config factory
      = .ok message)
    (htype : ∀ p ∈ s.filter_config_providers_,
      p.validateTypeUrl (env.getFactoryType resource.resource.typed_config) = .ok ())
    (hterminal : ∀ p ∈ s.filter_config_providers_,
      p.validateTerminalFilter env s.filter_config_name_ factory.name
        (factory.isTerminalFilterByProto message) = .ok ()) :
    (s.onConfigUpdate env [resource] version_info).thrown = none ∧
    (s.onConfigUpdate env [resource] version_info).subscription.onConfigUpdate env [resource]
        version_info
      = ⟨(s.onConfigUpdate env [resource] version_info).subscription, none⟩ ∧
    (env.hash64 resource.resource.typed_config ≠ s.last_config_hash_ →
      (s.onConfigUpdate env [resource] version_info).subscription.filter_config_providers_
        = s.filter_config_providers_.map
            (fun p => { p with received := p.received ++ [.onConfigUpdate message version_info] }) ∧
      (s.onConfigUpdate env [resource] version_info).subscription.stats_.config_reload_
        = s.stats_.config_reload_ + 1) ∧
    (env.hash64 resource.resource.typed_config = s.last_config_hash_ →
      (s.onConfigUpdate env [resource] version_info).subscription
        = { s with init_target_ready_ := true }) := by
  by_cases hhash : env.hash64 resource.resource.typed_config = s.last_config_hash_
  · rw [onConfigUpdate_skip env s resource version_info hname hhash]
    refine ⟨rfl, ?_, fun h => absurd hhash h, fun _ => rfl⟩
    exact onConfigUpdate_skip env s.initTargetReady resource version_info hname hhash
  · rw [onConfigUpdate_success env s resource version_info factory message hname hhash hfactory
      htranslate htype hterminal]
    refine ⟨rfl, ?_, fun _ => ⟨rfl, rfl⟩, fun h => absurd h hhash⟩
    exact onConfigUpdate_skip env _ resource version_info hname rfl

/-- The claim C2 fails as stated: `fooBufferInstalled` already holds `bufferResource` and its
provider accepts that payload, yet delivering it twice makes no `onConfigUpdate`
call on the provider and does not increment `config_reload`. -/
theorem onConfigUpdate_twice_no_broadcast :
    (∀ p ∈ fooBufferInstalled.filter_config_providers_,
      rejectsPayload sampleCollaborators fooBufferInstalled p bufferResource.resource = false) ∧
    ((fooBufferInstalled.onConfigUpdate sampleCollaborators [bufferResource]
        "1").subscription.onConfigUpdate sampleCollaborators [bufferResource] "1").subscription
      = fooBufferInstalled := by
  decide

/-- Witness for `onConfigUpdate_twice`: a new `buffer` payload on `fooBufferInstalled`. -/
theorem onConfigUpdate_twice_witness :
    (fooBufferInstalled.onConfigUpdate sampleCollaborators [bufferResource2] "2").thrown = none ∧
    (fooBufferInstalled.onConfigUpdate sampleCollaborators [bufferResource2]
        "2").subscription.onConfigUpdate sampleCollaborators [bufferResource2] "2"
      = ⟨(fooBufferInstalled.onConfigUpdate sampleCollaborators [bufferResource2]
          "2").subscription, none⟩ ∧
    (sampleCollaborators.hash64 bufferResource2.resource.typed_config
        ≠ fooBufferInstalled.last_config_hash_ →
      (fooBufferInstalled.onConfigUpdate sampleCollaborators [bufferResource2]
          "2").subscription.filter_config_providers_
        = fooBufferInstalled.filter_config_providers_.map
            (fun p => { p with
              received := p.received ++
                [.onConfigUpdate { type_name := "buffer", content := "ab" } "2"] }) ∧
      (fooBufferInstalled.onConfigUpdate sampleCollaborators [bufferResource2]
          "2").subscription.stats_.config_reload_
        = fooBufferInstalled.stats_.config_reload_ + 1) ∧
    (sampleCollaborators.hash64 bufferResource2.resource.typed_config
        = fooBufferInstalled.last_config_hash_ →
      (fooBufferInstalled.onConfigUpdate sampleCollaborators [bufferResource2] "2").subscription
        = { fooBufferInstalled with init_target_ready_ := true }) :=
  onConfigUpdate_twice sampleCollaborators fooBufferInstalled bufferResource2 "2" bufferFactory
    { type_name := "buffer", content := "ab" } (by decide) rfl rfl
    ((forEachProvider_ok_iff _ _).mp rfl) ((forEachProvider_ok_iff _ _).mp rfl)

/-- Claim C3. A full-state update with exactly one resource that carries the
subscription's name, a hash different from `last_config_hash_`, a known factory, a
payload that translates, and that every attached provider accepts (type URL and
terminal placement) returns normally; every attached provider receives exactly one
more call, `onConfigUpdate` with the translated message and the given version;
`config_reload` goes up by one; and the `last_*` fields hold the new hash, the
translated message, the payload's factory type, the given version, the factory's
name and the factory's terminal verdict. -/
theorem onConfigUpdate_postcondition (env : Collaborators) (s : FilterConfigSubscription)
    (resource : DecodedResource) (version_info : String)
    (factory : NamedHttpFilterConfigFactory) (message : Message)
    (hname : resource.resource.name = s.filter_config_name_)
    (hhash : env.hash64 resource.resource.typed_config ≠ s.last_config_hash_)
    (hfactory : env.getAndCheckFactory resource.resource = .ok factory)
    (htranslate : env.translateAnyToFactoryConfig resource.resource.typed_config factory
      = .ok message)
    (htype : ∀ p ∈ s.filter_config_providers_,
      p.validateTypeUrl (env.getFactoryType resource.resource.typed_config) = .ok ())
    (hterminal : ∀ p ∈ s.filter_config_providers_,
      p.validateTerminalFilter env s.filter_config_name_ factory.name
        (factory.isTerminalFilterByProto message) = .ok ()) :
    (s.onConfigUpdate env [resource] version_info).thrown = none ∧
    (s.onConfigUpdate env [resource] version_info).subscription.filter_config_providers_
      = s.filter_config_providers_.map
          (fun p => { p with received := p.received ++ [.onConfigUpdate message version_info] }) ∧
    (s.onConfigUpdate env [resource] version_info).subscription.stats_
      = { s.stats_ with config_reload_ := s.stats_.config_reload_ + 1 } ∧
    (s.onConfigUpdate env [resource] version_info).subscription.last_config_hash_
      = env.hash64 resource.resource.typed_config ∧
    (s.onConfigUpdate env [resource] version_info).subscription.last_config_ = some message ∧
    (s.onConfigUpdate env [resource] version_info).subscription.last_type_url_
      = env.getFactoryType resource.resource.typed_config ∧
    (s.onConfigUpdate env [resource] version_info).subscription.last_version_info_
      = version_info ∧
    (s.onConfigUpdate env [resource] version_info).subscription.last_filter_name_
      = factory.name ∧
    (s.onConfigUpdate env [resource] version_info).subscription.last_filter_is_terminal_
      = factory.isTerminalFilterByProto message := by
  rw [onConfigUpdate_success env s resource version_info factory message hname hhash hfactory
    htranslate htype hterminal]
  exact ⟨rfl, rfl, rfl, rfl, rfl, rfl, rfl, rfl, rfl⟩

/-- Witness for `onConfigUpdate_postcondition`: the first `buffer` payload on a subscription
with one `buffer` slot. -/
theorem onConfigUpdate_postcondition_witness :
    (fooWithBufferSlot.onConfigUpdate sampleCollaborators [bufferResource] "1").thrown = none ∧
    (fooWithBufferSlot.onConfigUpdate sampleCollaborators [bufferResource]
        "1").subscription.filter_config_providers_
      = fooWithBufferSlot.filter_config_providers_.map
          (fun p => { p with
            received := p.received ++
              [.onConfigUpdate { type_name := "buffer", content := "a" } "1"] }) ∧
    (fooWithBufferSlot.onConfigUpdate sampleCollaborators [bufferResource] "1").subscription.stats_
      = { fooWithBufferSlot.stats_ with
          config_reload_ := fooWithBufferSlot.stats_.config_reload_ + 1 } ∧
    (fooWithBufferSlot.onConfigUpdate sampleCollaborators [bufferResource]
        "1").subscription.last_config_hash_
      = sampleCollaborators.hash64 bufferResource.resource.typed_config ∧
    (fooWithBufferSlot.onConfigUpdate sampleCollaborators [bufferResource]
        "1").subscription.last_config_ = some { type_name := "buffer", content := "a" } ∧
    (fooWithBufferSlot.onConfigUpdate sampleCollaborators [bufferResource]
        "1").subscription.last_type_url_
      = sampleCollaborators.getFactoryType bufferResource.resource.typed_config ∧
    (fooWithBufferSlot.onConfigUpdate sampleCollaborators [bufferResource]
        "1").subscription.last_version_info_ = "1" ∧
    (fooWithBufferSlot.onConfigUpdate sampleCollaborators [bufferResource]
        "1").subscription.last_filter_name_ = bufferFactory.name ∧
    (fooWithBufferSlot.onConfigUpdate sampleCollaborators [bufferResource]
        "1").subscription.last_filter_is_terminal_
      = bufferFactory.isTerminalFilterByProto { type_name := "buffer", content := "a" } :=
  onConfigUpdate_postcondition sampleCollaborators fooWithBufferSlot bufferResource "1"
    bufferFactory { type_name := "buffer", content := "a" } (by decide) (by decide) rfl rfl
    ((forEachProvider_ok_iff _ _).mp rfl) ((forEachProvider_ok_iff _ _).mp rfl)

/-- Claim C7. A full-state update whose resource list does not have exactly one
element, or whose single resource is not named like the subscription, raises;
the subscription afterwards differs from before in nothing but a ready init
target: no provider was called, `config_reload` and every `last_*` field are as
they were. -/
theorem onConfigUpdate_malformed (env : Collaborators) (s : FilterConfigSubscription)
    (resources : List DecodedResource) (version_info : String)
    (hmalformed : resources.length ≠ 1 ∨
      ∃ resource, resources = [resource] ∧ resource.resource.name ≠ s.filter_config_name_) :
    (∃ e, (s.onConfigUpdate env resources version_info).thrown = some e) ∧
    (s.onConfigUpdate env resources version_info).subscription
      = { s with init_target_ready_ := true } ∧
    (s.onConfigUpdate env resources version_info).subscription.init_target_ready_ = true := by
  rcases hmalformed with hlen | ⟨resource, rfl, hname⟩
  · match resources, hlen with
    | [], _ => exact ⟨⟨_, rfl⟩, rfl, rfl⟩
    | _ :: _ :: _, _ => exact ⟨⟨_, rfl⟩, rfl, rfl⟩
    | [_], h => exact absurd rfl h
  · simp [FilterConfigSubscription.onConfigUpdate, FilterConfigSubscription.initTargetReady,
      hname]

/-- Witness for `onConfigUpdate_malformed`: two resources in one full-state update. -/
theorem onConfigUpdate_malformed_witness :
    (∃ e, (fooBufferInstalled.onConfigUpdate sampleCollaborators
      [bufferResource2, routerResource] "2").thrown = some e) ∧
    (fooBufferInstalled.onConfigUpdate sampleCollaborators
        [bufferResource2, routerResource] "2").subscription
      = { fooBufferInstalled with init_target_ready_ := true } ∧
    (fooBufferInstalled.onConfigUpdate sampleCollaborators
      [bufferResource2, routerResource] "2").subscription.init_target_ready_ = true :=
  onConfigUpdate_malformed sampleCollaborators fooBufferInstalled
    [bufferResource2, routerResource] "2" (Or.inl (by decide))

/-- Claim C8. For every subscription and failure reason, `onConfigUpdateFailed` adds one to
`config_fail`, makes the init target ready, calls no provider, and leaves
`config_reload`, `config_conflict` and every `last_*` field as they were. -/
theorem onConfigUpdateFailed_effect (s : FilterConfigSubscription)
    (reason : FilterConfigSubscription.ConfigUpdateFailureReason) :
    (s.onConfigUpdateFailed reason).stats_.config_fail_ = s.stats_.config_fail_ + 1 ∧
    (s.onConfigUpdateFailed reason).init_target_ready_ = true ∧
    (s.onConfigUpdateFailed reason).filter_config_providers_ = s.filter_config_providers_ ∧
    (s.onConfigUpdateFailed reason).stats_.config_reload_ = s.stats_.config_reload_ ∧
    (s.onConfigUpdateFailed reason).stats_.config_conflict_ = s.stats_.config_conflict_ ∧
    (s.onConfigUpdateFailed reason).last_config_hash_ = s.last_config_hash_ ∧
    (s.onConfigUpdateFailed reason).last_config_ = s.last_config_ ∧
    (s.onConfigUpdateFailed reason).last_type_url_ = s.last_type_url_ ∧
    (s.onConfigUpdateFailed reason).last_version_info_ = s.last_version_info_ ∧
    (s.onConfigUpdateFailed reason).last_filter_name_ = s.last_filter_name_ ∧
    (s.onConfigUpdateFailed reason).last_filter_is_terminal_ = s.last_filter_is_terminal_ :=
  ⟨rfl, rfl, rfl, rfl, rfl, rfl, rfl, rfl, rfl, rfl, rfl⟩

/-! ## Delta updates, provider creation and the init target -/

/-- The subscription a delta update with a non-empty removed set leaves behind. -/
theorem onConfigUpdateDelta_removed (env : Collaborators) (s : FilterConfigSubscription)
    (added_resources : List DecodedResource) (removed_resources : List String)
    (system_version_info : String) (hremoved : removed_resources ≠ []) :
    s.onConfigUpdateDelta env added_resources removed_resources system_version_info =
      ⟨{ s with
          filter_config_providers_ := s.filter_config_providers_.map fun p => p.onConfigRemoved
          stats_ := { s.stats_ with config_reload_ := s.stats_.config_reload_ + 1 }
          last_config_hash_ := 0
          last_config_ := none
          last_type_url_ := ""
          last_filter_is_terminal_ := false
          last_filter_name_ := "" }, none⟩ := by
  cases removed_resources with
  | nil => exact absurd rfl hremoved
  | cons r rs => rfl

/-- A delta update with an empty removed set is the full-state update of the added
list at the version of its first element, or nothing when that list is empty. -/
theorem onConfigUpdateDelta_added (env : Collaborators) (s : FilterConfigSubscription)
    (added_resources : List DecodedResource) (system_version_info : String) :
    s.onConfigUpdateDelta env added_resources [] system_version_info =
      match added_resources with
      | first :: _ => s.onConfigUpdate env added_resources first.version
      | [] => ⟨s, none⟩ := by
  cases added_resources <;> rfl

/-- What `getDefaultConfig` has checked when it returns a message. -/
theorem getDefaultConfig_ok (env : Collaborators) (proto_config : Any)
    (filter_config_name : String) (last_filter_in_filter_chain : Bool)
    (filter_chain_type : String) (require_type_urls : List String) (message : Message)
    (h : getDefaultConfig env proto_config filter_config_name last_filter_in_filter_chain
      filter_chain_type require_type_urls = .ok message) :
    ∃ factory, env.getFactoryByType proto_config = some factory ∧
      env.getFactoryType proto_config ∈ require_type_urls ∧
      env.translateAnyToFactoryConfig proto_config factory = .ok message ∧
      env.validateTerminalFilters filter_config_name factory.name filter_chain_type
        (factory.isTerminalFilterByProto message) last_filter_in_filter_chain = .ok () := by
  unfold getDefaultConfig at h
  cases hf : env.getFactoryByType proto_config with
  | none => simp only [hf] at h; cases h
  | some factory =>
    simp only [hf] at h
    cases h1 : validateTypeUrlHelper (env.getFactoryType proto_config) require_type_urls with
    | error e => simp [h1, bind, Except.bind] at h
    | ok u1 =>
      cases h2 : env.translateAnyToFactoryConfig proto_config factory with
      | error e => simp [h1, h2, bind, Except.bind] at h
      | ok m =>
        cases h3 : env.validateTerminalFilters filter_config_name factory.name filter_chain_type
            (factory.isTerminalFilterByProto m) last_filter_in_filter_chain with
        | error e => simp [h1, h2, h3, bind, Except.bind] at h
        | ok u3 =>
          simp [h1, h2, h3, bind, Except.bind, pure, Except.pure] at h
          subst h
          exact ⟨factory, rfl, (validateTypeUrlHelper_ok_iff _ _).mp h1, h2, h3⟩

/-- The subscription after `createDynamicFilterConfigProvider`: untouched when the default is
refused, and otherwise extended by the constructed provider after its first
call. -/
theorem createDynamicFilterConfigProvider_cases (env : Collaborators) (init_manager : List InitTarget)
    (s : FilterConfigSubscription) (config_source : ExtensionConfigSource)
    (filter_config_name : String) (last_filter_in_filter_chain : Bool)
    (filter_chain_type : String) :
    (createDynamicFilterConfigProvider env init_manager s config_source filter_config_name
        last_filter_in_filter_chain filter_chain_type).subscription = s ∨
    ∃ default_config : Option Message,
      (∀ m, default_config = some m → ∃ proto_config,
        getDefaultConfig env proto_config filter_config_name last_filter_in_filter_chain
          filter_chain_type
          (config_source.type_urls.map env.typeUrlToDescriptorFullName).eraseDups = .ok m) ∧
      ((s.last_config_ = none ∧
        (createDynamicFilterConfigProvider env init_manager s config_source filter_config_name
            last_filter_in_filter_chain filter_chain_type).subscription =
          { s with filter_config_providers_ := s.filter_config_providers_ ++
              [(constructedProvider env config_source last_filter_in_filter_chain
                filter_chain_type default_config).applyDefaultConfiguration] }) ∨
      (∃ last_config, s.last_config_ = some last_config ∧
        acceptsLast env s (constructedProvider env config_source last_filter_in_filter_chain
          filter_chain_type default_config) filter_config_name = true ∧
        (createDynamicFilterConfigProvider env init_manager s config_source filter_config_name
            last_filter_in_filter_chain filter_chain_type).subscription =
          { s with filter_config_providers_ := s.filter_config_providers_ ++
              [(constructedProvider env config_source last_filter_in_filter_chain
                filter_chain_type default_config).onConfigUpdate last_config
                  s.last_version_info_] }) ∨
      (∃ last_config, s.last_config_ = some last_config ∧
        acceptsLast env s (constructedProvider env config_source last_filter_in_filter_chain
          filter_chain_type default_config) filter_config_name = false ∧
        (createDynamicFilterConfigProvider env init_manager s config_source filter_config_name
            last_filter_in_filter_chain filter_chain_type).subscription =
          { s.incrementConflictCounter with
            filter_config_providers_ := s.filter_config_providers_ ++
              [(constructedProvider env config_source last_filter_in_filter_chain
                filter_chain_type default_config).applyDefaultConfiguration] })) := by
  have key : ∀ default_config : Option Message,
      (match applyLastOrDefaultConfig env s
          (constructedProvider env config_source last_filter_in_filter_chain filter_chain_type
            default_config) filter_config_name with
        | .error _ => s
        | .ok (subscription, provider) =>
          { subscription with
            filter_config_providers_ := subscription.filter_config_providers_ ++ [provider] })
        = (createDynamicFilterConfigProvider env init_manager s config_source
            filter_config_name last_filter_in_filter_chain filter_chain_type).subscription →
      (s.last_config_ = none ∧
        (createDynamicFilterConfigProvider env init_manager s config_source filter_config_name
            last_filter_in_filter_chain filter_chain_type).subscription =
          { s with filter_config_providers_ := s.filter_config_providers_ ++
              [(constructedProvider env config_source last_filter_in_filter_chain
                filter_chain_type default_config).applyDefaultConfiguration] }) ∨
      (∃ last_config, s.last_config_ = some last_config ∧
        acceptsLast env s (constructedProvider env config_source last_filter_in_filter_chain
          filter_chain_type default_config) filter_config_name = true ∧
        (createDynamicFilterConfigProvider env init_manager s config_source filter_config_name
            last_filter_in_filter_chain filter_chain_type).subscription =
          { s with filter_config_providers_ := s.filter_config_providers_ ++
              [(constructedProvider env config_source last_filter_in_filter_chain
                filter_chain_type default_config).onConfigUpdate last_config
                  s.last_version_info_] }) ∨
      (∃ last_config, s.last_config_ = some last_config ∧
        acceptsLast env s (constructedProvider env config_source last_filter_in_filter_chain
          filter_chain_type default_config) filter_config_name = false ∧
        (createDynamicFilterConfigProvider env init_manager s config_source filter_config_name
            last_filter_in_filter_chain filter_chain_type).subscription =
          { s.incrementConflictCounter with
            filter_config_providers_ := s.filter_config_providers_ ++
              [(constructedProvider env config_source last_filter_in_filter_chain
                filter_chain_type default_config).applyDefaultConfiguration] }) := by
    intro default_config hresult
    rw [← hresult, applyLastOrDefaultConfig_eq]
    clear hresult
    obtain ⟨n, r, st, tr, hs, lc, tu, vi, fn, ft, stats, ps⟩ := s
    cases lc with
    | none => exact Or.inl ⟨rfl, rfl⟩
    | some last_config =>
      cases haccepts : acceptsLast env ⟨n, r, st, tr, hs, some last_config, tu, vi, fn, ft,
          stats, ps⟩ (constructedProvider env config_source
          last_filter_in_filter_chain filter_chain_type default_config) filter_config_name with
      | true => exact Or.inr (Or.inl ⟨last_config, rfl, rfl, rfl⟩)
      | false => exact Or.inr (Or.inr ⟨last_config, rfl, rfl, rfl⟩)
  cases hdefault : config_source.default_config with
  | none =>
    right
    refine ⟨none, by simp, key none ?_⟩
    simp only [createDynamicFilterConfigProvider, hdefault, pure, Except.pure,
      constructedProvider]
    rw [applyLastOrDefaultConfig_eq]
  | some proto_config =>
    cases hget : getDefaultConfig env proto_config filter_config_name last_filter_in_filter_chain
        filter_chain_type
        (config_source.type_urls.map env.typeUrlToDescriptorFullName).eraseDups with
    | error e => left; simp [createDynamicFilterConfigProvider, hdefault, hget, Except.map]
    | ok m =>
      right
      refine ⟨some m, ?_, key (some m) ?_⟩
      · intro m1 hm1
        cases hm1
        exact ⟨proto_config, hget⟩
      · simp only [createDynamicFilterConfigProvider, hdefault, hget, Except.map,
          constructedProvider]
        rw [applyLastOrDefaultConfig_eq]

/-- Creating a provider does not touch the subscription's init target. -/
theorem createDynamicFilterConfigProvider_ready (env : Collaborators) (init_manager : List InitTarget)
    (s : FilterConfigSubscription) (config_source : ExtensionConfigSource)
    (filter_config_name : String) (last_filter_in_filter_chain : Bool)
    (filter_chain_type : String) :
    (createDynamicFilterConfigProvider env init_manager s config_source filter_config_name
        last_filter_in_filter_chain filter_chain_type).subscription.init_target_ready_
      = s.init_target_ready_ := by
  rcases createDynamicFilterConfigProvider_cases env init_manager s config_source
    filter_config_name last_filter_in_filter_chain filter_chain_type with
    h | ⟨d, -, ⟨-, h⟩ | ⟨m, -, -, h⟩ | ⟨m, -, -, h⟩⟩
  all_goals rw [h]
  rfl

/-- No operation makes a ready init target un-ready. -/
theorem step_ready (env : Collaborators) (s : FilterConfigSubscription) (op : Operation)
    (hready : s.init_target_ready_ = true) : (step env s op).init_target_ready_ = true := by
  cases op with
  | fullUpdate resources version_info => exact onConfigUpdate_ready env s resources version_info
  | deltaUpdate added removed version_info =>
    simp only [step]
    cases removed with
    | cons r rs =>
      rw [onConfigUpdateDelta_removed env s added (r :: rs) version_info (by simp)]
      exact hready
    | nil =>
      rw [onConfigUpdateDelta_added]
      cases added with
      | nil => exact hready
      | cons a as => exact onConfigUpdate_ready env s (a :: as) a.version
  | updateFailed reason => rfl
  | createProvider init_manager config_source last chain =>
    simp only [step]
    rw [createDynamicFilterConfigProvider_ready]
    exact hready
  | destroyProvider index => exact hready
  | start =>
    simp only [step, FilterConfigSubscription.start]
    split
    · exact hready
    · exact hready

theorem runOperations_ready (env : Collaborators) (ops : List Operation)
    (s : FilterConfigSubscription) (hready : s.init_target_ready_ = true) :
    (runOperations env s ops).init_target_ready_ = true := by
  induction ops generalizing s with
  | nil => exact hready
  | cons op ops ih => exact ih (step env s op) (step_ready env s op hready)

/-- Claim C4. The three outcomes of `applyLastOrDefaultConfig` on a provider just created;
in each of them the call returns normally. (i) With no `last_config_` the provider
receives `applyDefaultConfiguration` and nothing else, and the subscription, its
`config_conflict` included, is untouched. (ii) With a `last_config_` that passes the
provider's type-URL and terminal-filter validation the provider receives
`onConfigUpdate` with that config and `last_version_info_` and nothing else, and the
subscription is untouched. (iii) With a `last_config_` that fails either
validation the provider receives `applyDefaultConfiguration` and nothing else, and
`config_conflict` goes up by one. -/
theorem applyLastOrDefaultConfig_outcome (env : Collaborators)
    (subscription : FilterConfigSubscription) (provider : DynamicFilterConfigProviderImplBase)
    (filter_config_name : String) :
    (subscription.last_config_ = none →
      applyLastOrDefaultConfig env subscription provider filter_config_name
        = .ok (subscription,
            { provider with received := provider.received ++ [.applyDefaultConfiguration] })) ∧
    (∀ last_config, subscription.last_config_ = some last_config →
      provider.validateTypeUrl subscription.last_type_url_ = .ok () →
      provider.validateTerminalFilter env filter_config_name subscription.last_filter_name_
        subscription.last_filter_is_terminal_ = .ok () →
      applyLastOrDefaultConfig env subscription provider filter_config_name
        = .ok (subscription,
            { provider with
              received := provider.received ++
                [.onConfigUpdate last_config subscription.last_version_info_] })) ∧
    (∀ last_config, subscription.last_config_ = some last_config →
      (provider.validateTypeUrl subscription.last_type_url_ ≠ .ok () ∨
        provider.validateTerminalFilter env filter_config_name subscription.last_filter_name_
          subscription.last_filter_is_terminal_ ≠ .ok ()) →
      applyLastOrDefaultConfig env subscription provider filter_config_name
        = .ok ({ subscription with
                  stats_ := { subscription.stats_ with
                    config_conflict_ := subscription.stats_.config_conflict_ + 1 } },
            { provider with received := provider.received ++ [.applyDefaultConfiguration] })) := by
  rw [applyLastOrDefaultConfig_eq]
  refine ⟨?_, ?_, ?_⟩
  · intro hnone
    rw [hnone]
    rfl
  · intro last_config hsome h1 h2
    have : acceptsLast env subscription provider filter_config_name = true := by
      simp [acceptsLast, (isOk_eq_true_iff _).mpr h1, (isOk_eq_true_iff _).mpr h2]
    simp only [hsome, this, if_true]
    rfl
  · intro last_config hsome hfail
    have : acceptsLast env subscription provider filter_config_name = false := by
      rcases hfail with h | h
      · have : (provider.validateTypeUrl subscription.last_type_url_).isOk = false := by
          rw [Bool.eq_false_iff]
          intro hok
          exact h ((isOk_eq_true_iff _).mp hok)
        simp [acceptsLast, this]
      · have : (provider.validateTerminalFilter env filter_config_name
            subscription.last_filter_name_ subscription.last_filter_is_terminal_).isOk
              = false := by
          rw [Bool.eq_false_iff]
          intro hok
          exact h ((isOk_eq_true_iff _).mp hok)
        simp [acceptsLast, this]
    simp [hsome, this, FilterConfigSubscription.incrementConflictCounter,
      DynamicFilterConfigProviderImplBase.applyDefaultConfiguration]

/-- Witness for `applyLastOrDefaultConfig_outcome`, one instance per case: a fresh subscription,
a subscription holding a `buffer` config with a `buffer` slot, and the same
subscription with a `router` slot. -/
theorem applyLastOrDefaultConfig_outcome_witness :
    applyLastOrDefaultConfig sampleCollaborators (FilterConfigSubscription.create "foo") bufferSlot
        "foo"
      = .ok (FilterConfigSubscription.create "foo",
          { bufferSlot with received := bufferSlot.received ++ [.applyDefaultConfiguration] }) ∧
    applyLastOrDefaultConfig sampleCollaborators fooWithBuffer bufferSlot "foo"
      = .ok (fooWithBuffer,
          { bufferSlot with
            received := bufferSlot.received ++
              [.onConfigUpdate { type_name := "buffer", content := "a" }
                fooWithBuffer.last_version_info_] }) ∧
    applyLastOrDefaultConfig sampleCollaborators fooWithBuffer routerSlot "foo"
      = .ok ({ fooWithBuffer with
                stats_ := { fooWithBuffer.stats_ with
                  config_conflict_ := fooWithBuffer.stats_.config_conflict_ + 1 } },
          { routerSlot with received := routerSlot.received ++ [.applyDefaultConfiguration] }) :=
  ⟨(applyLastOrDefaultConfig_outcome sampleCollaborators (FilterConfigSubscription.create "foo")
      bufferSlot "foo").1 rfl,
    (applyLastOrDefaultConfig_outcome sampleCollaborators fooWithBuffer bufferSlot "foo").2.1
      { type_name := "buffer", content := "a" } rfl rfl rfl,
    (applyLastOrDefaultConfig_outcome sampleCollaborators fooWithBuffer routerSlot "foo").2.2
      { type_name := "buffer", content := "a" } rfl
      (Or.inl (fun h => by
        have := (isOk_eq_true_iff _).mpr h
        revert this
        decide))⟩

/-- Claim C9. Whatever the prior state, the init target is ready after any full-state
`onConfigUpdate` (applied, skipped or raised), after any `onConfigUpdateFailed` and after
destruction; and from a state where it is ready, it is ready after every sequence
of operations, and after destruction at the end of it. -/
theorem init_target_progress (env : Collaborators) (s : FilterConfigSubscription) :
    (∀ resources version_info,
      (s.onConfigUpdate env resources version_info).subscription.init_target_ready_ = true) ∧
    (∀ reason, (s.onConfigUpdateFailed reason).init_target_ready_ = true) ∧
    s.destroy.init_target_ready_ = true ∧
    (s.init_target_ready_ = true →
      ∀ ops, (runOperations env s ops).init_target_ready_ = true ∧
        (runOperations env s ops).incrementConflictCounter.init_target_ready_ = true ∧
        (runOperations env s ops).destroy.init_target_ready_ = true) :=
  ⟨fun resources version_info => onConfigUpdate_ready env s resources version_info,
    fun _ => rfl, rfl,
    fun hready ops =>
      ⟨runOperations_ready env ops s hready, runOperations_ready env ops s hready, rfl⟩⟩

/-- Witness for `init_target_progress`: a removal, a provider creation and a `start` on a
subscription that is ready. -/
theorem init_target_progress_witness :
    fooWithBuffer.init_target_ready_ = true ∧
    (runOperations sampleCollaborators fooWithBuffer
      [.deltaUpdate [] ["foo"] "", .createProvider [] routerSource true "http",
        .start]).init_target_ready_ = true :=
  ⟨by decide,
    ((init_target_progress sampleCollaborators fooWithBuffer).2.2.2 (by decide) _).1⟩

/-- Claim C10, evaluated where the code departs from it. On `fooBufferInstalled`, which holds
a config of version `1`, a delta update that removes `foo` calls `onConfigRemoved`
once on the attached provider, increments `config_reload` and clears the hash, the
config, the type URL, the filter name and the terminal flag, but
`last_version_info_` is still `1` afterwards, not empty. -/
theorem onConfigUpdateDelta_keeps_version_info :
    fooBufferInstalled.last_version_info_ = "1" ∧
    fooBufferInstalled.onConfigUpdateDelta sampleCollaborators [] ["foo"] "" =
      ⟨{ fooBufferInstalled with
          filter_config_providers_ :=
            fooBufferInstalled.filter_config_providers_.map
              (fun p => { p with received := p.received ++ [.onConfigRemoved] })
          stats_ := { fooBufferInstalled.stats_ with
            config_reload_ := fooBufferInstalled.stats_.config_reload_ + 1 }
          last_config_hash_ := 0
          last_config_ := none
          last_type_url_ := ""
          last_version_info_ := "1"
          last_filter_name_ := ""
          last_filter_is_terminal_ := false }, none⟩ ∧
    (fooBufferInstalled.onConfigUpdateDelta sampleCollaborators [] ["foo"]
      "").subscription.last_version_info_ ≠ "" := by
  decide

/-! ## The hash sentinel -/

/-- Creating a provider leaves the subscription's name and `last_*` fields alone. -/
theorem createDynamicFilterConfigProvider_frame (env : Collaborators)
    (init_manager : List InitTarget) (s : FilterConfigSubscription)
    (config_source : ExtensionConfigSource) (filter_config_name : String)
    (last_filter_in_filter_chain : Bool) (filter_chain_type : String) :
    (createDynamicFilterConfigProvider env init_manager s config_source filter_config_name
        last_filter_in_filter_chain filter_chain_type).subscription.filter_config_name_
      = s.filter_config_name_ ∧
    (createDynamicFilterConfigProvider env init_manager s config_source filter_config_name
        last_filter_in_filter_chain filter_chain_type).subscription.last_config_hash_
      = s.last_config_hash_ ∧
    (createDynamicFilterConfigProvider env init_manager s config_source filter_config_name
        last_filter_in_filter_chain filter_chain_type).subscription.last_config_
      = s.last_config_ := by
  rcases createDynamicFilterConfigProvider_cases env init_manager s config_source
    filter_config_name last_filter_in_filter_chain filter_chain_type with
    h | ⟨d, -, ⟨-, h⟩ | ⟨m, -, -, h⟩ | ⟨m, -, -, h⟩⟩
  all_goals rw [h]
  all_goals exact ⟨rfl, rfl, rfl⟩

/-- A full-state update keeps "no config implies hash zero", and keeps "hash zero
implies no config" when none of its payloads hashes to zero. -/
theorem onConfigUpdate_hash_sentinel (env : Collaborators) (s : FilterConfigSubscription)
    (resources : List DecodedResource) (version_info : String) :
    ((s.last_config_ = none → s.last_config_hash_ = 0) →
      (s.onConfigUpdate env resources version_info).subscription.last_config_ = none →
      (s.onConfigUpdate env resources version_info).subscription.last_config_hash_ = 0) ∧
    ((∀ r ∈ resources, env.hash64 r.resource.typed_config ≠ 0) →
      (s.last_config_hash_ = 0 → s.last_config_ = none) →
      (s.onConfigUpdate env resources version_info).subscription.last_config_hash_ = 0 →
      (s.onConfigUpdate env resources version_info).subscription.last_config_ = none) := by
  rcases onConfigUpdate_cases env s resources version_info with
    ⟨h, -⟩ | ⟨⟨e, h⟩, -⟩ | ⟨r, f, m, hr, hn, hh, hf, ht, h1, h2⟩
  · rw [h]
    exact ⟨fun hinv => hinv, fun _ hinv => hinv⟩
  · rw [h]
    exact ⟨fun hinv => hinv, fun _ hinv => hinv⟩
  · subst hr
    rw [onConfigUpdate_success env s r version_info f m hn hh hf ht h1 h2]
    refine ⟨fun _ hnone => ?_, fun hnz _ hzero => ?_⟩
    · cases hnone
    · exact absurd hzero (hnz r (List.mem_singleton.mpr rfl))

/-- One operation keeps "no config implies hash zero". -/
theorem step_absent_hash_zero (env : Collaborators) (s : FilterConfigSubscription)
    (op : Operation) (hinv : s.last_config_ = none → s.last_config_hash_ = 0) :
    (step env s op).last_config_ = none → (step env s op).last_config_hash_ = 0 := by
  cases op with
  | fullUpdate resources version_info =>
    exact (onConfigUpdate_hash_sentinel env s resources version_info).1 hinv
  | deltaUpdate added removed version_info =>
    simp only [step]
    cases removed with
    | cons r rs =>
      rw [onConfigUpdateDelta_removed env s added (r :: rs) version_info (by simp)]
      exact fun _ => rfl
    | nil =>
      rw [onConfigUpdateDelta_added]
      cases added with
      | nil => exact hinv
      | cons a as => exact (onConfigUpdate_hash_sentinel env s (a :: as) a.version).1 hinv
  | updateFailed reason => exact hinv
  | createProvider init_manager config_source last chain =>
    simp only [step]
    obtain ⟨-, h1, h2⟩ := createDynamicFilterConfigProvider_frame env init_manager s
      config_source s.filter_config_name_ last chain
    rw [h1, h2]
    exact hinv
  | destroyProvider index => exact hinv
  | start =>
    simp only [step, FilterConfigSubscription.start]
    split <;> exact hinv

/-- One operation whose payloads do not hash to zero keeps "hash zero implies no
config". -/
theorem step_hash_zero_absent (env : Collaborators) (s : FilterConfigSubscription)
    (op : Operation) (hop : 0 ∉ op.payloadHashes env)
    (hinv : s.last_config_hash_ = 0 → s.last_config_ = none) :
    (step env s op).last_config_hash_ = 0 → (step env s op).last_config_ = none := by
  cases op with
  | fullUpdate resources version_info =>
    refine (onConfigUpdate_hash_sentinel env s resources version_info).2 ?_ hinv
    intro r hr hzero
    exact hop (List.mem_map.mpr ⟨r, hr, hzero⟩)
  | deltaUpdate added removed version_info =>
    simp only [step]
    cases removed with
    | cons r rs =>
      rw [onConfigUpdateDelta_removed env s added (r :: rs) version_info (by simp)]
      exact fun _ => rfl
    | nil =>
      rw [onConfigUpdateDelta_added]
      cases added with
      | nil => exact hinv
      | cons a as =>
        refine (onConfigUpdate_hash_sentinel env s (a :: as) a.version).2 ?_ hinv
        intro r hr hzero
        exact hop (List.mem_map.mpr ⟨r, hr, hzero⟩)
  | updateFailed reason => exact hinv
  | createProvider init_manager config_source last chain =>
    simp only [step]
    obtain ⟨-, h1, h2⟩ := createDynamicFilterConfigProvider_frame env init_manager s
      config_source s.filter_config_name_ last chain
    rw [h1, h2]
    exact hinv
  | destroyProvider index => exact hinv
  | start =>
    simp only [step, FilterConfigSubscription.start]
    split <;> exact hinv

theorem runOperations_absent_hash_zero (env : Collaborators) (ops : List Operation)
    (s : FilterConfigSubscription) (hinv : s.last_config_ = none → s.last_config_hash_ = 0) :
    (runOperations env s ops).last_config_ = none →
      (runOperations env s ops).last_config_hash_ = 0 := by
  induction ops generalizing s with
  | nil => exact hinv
  | cons op ops ih => exact ih (step env s op) (step_absent_hash_zero env s op hinv)

theorem runOperations_hash_zero_absent (env : Collaborators) (ops : List Operation)
    (s : FilterConfigSubscription) (hops : ∀ op ∈ ops, 0 ∉ op.payloadHashes env)
    (hinv : s.last_config_hash_ = 0 → s.last_config_ = none) :
    (runOperations env s ops).last_config_hash_ = 0 →
      (runOperations env s ops).last_config_ = none := by
  induction ops generalizing s with
  | nil => exact hinv
  | cons op ops ih =>
    exact ih (step env s op) (fun o ho => hops o (List.mem_cons_of_mem _ ho))
      (step_hash_zero_absent env s op (hops op (List.mem_cons_self _ _)) hinv)

/-- Claim C6, as the code has it. In every state reached from a fresh subscription by
full-state updates, delta updates, update failures, provider creations and
destructions and `start` calls, an absent `last_config_` implies `last_config_hash_ = 0`;
and if no payload offered along the way hashes to `0`, then `last_config_hash_ = 0`
holds exactly when `last_config_` is absent. -/
theorem hash_zero_iff_no_config (env : Collaborators) (filter_config_name : String)
    (ops : List Operation) :
    ((runOperations env (FilterConfigSubscription.create filter_config_name) ops).last_config_
        = none →
      (runOperations env (FilterConfigSubscription.create filter_config_name)
        ops).last_config_hash_ = 0) ∧
    ((∀ op ∈ ops, 0 ∉ op.payloadHashes env) →
      ((runOperations env (FilterConfigSubscription.create filter_config_name)
          ops).last_config_hash_ = 0 ↔
        (runOperations env (FilterConfigSubscription.create filter_config_name) ops).last_config_
          = none)) :=
  ⟨runOperations_absent_hash_zero env ops _ (fun _ => rfl),
    fun hops =>
      ⟨runOperations_hash_zero_absent env ops _ hops (fun _ => rfl),
        runOperations_absent_hash_zero env ops _ (fun _ => rfl)⟩⟩

/-- The claim C6 fails as stated: after `bufferResource` (hash `1`) the subscription `foo`
accepts `emptyBufferResource`, whose payload hashes to `0`, and then holds a config
under `last_config_hash_ = 0`. -/
theorem hash_zero_with_config :
    (runOperations sampleCollaborators (FilterConfigSubscription.create "foo")
      [.fullUpdate [bufferResource] "1", .fullUpdate [emptyBufferResource] "3"]).last_config_hash_
      = 0 ∧
    (runOperations sampleCollaborators (FilterConfigSubscription.create "foo")
      [.fullUpdate [bufferResource] "1", .fullUpdate [emptyBufferResource] "3"]).last_config_
      = some { type_name := "buffer", content := "" } := by
  decide

/-- Witness for `hash_zero_iff_no_config`: an update, a removal and a second update, none of
whose payloads hashes to `0`. -/
theorem hash_zero_iff_no_config_witness :
    (runOperations sampleCollaborators (FilterConfigSubscription.create "foo")
        [.fullUpdate [bufferResource] "1", .deltaUpdate [] ["foo"] "",
          .fullUpdate [bufferResource2] "2"]).last_config_hash_ = 0 ↔
      (runOperations sampleCollaborators (FilterConfigSubscription.create "foo")
        [.fullUpdate [bufferResource] "1", .deltaUpdate [] ["foo"] "",
          .fullUpdate [bufferResource2] "2"]).last_config_ = none :=
  (hash_zero_iff_no_config sampleCollaborators "foo"
    [.fullUpdate [bufferResource] "1", .deltaUpdate [] ["foo"] "",
      .fullUpdate [bufferResource2] "2"]).2 (by decide)

/-! ## The provider-config invariant -/

/-- A fresh subscription is consistent. -/
theorem consistent_create (env : Collaborators) (filter_config_name : String) :
    Consistent env (FilterConfigSubscription.create filter_config_name) := by
  refine ⟨fun m hm => ?_, fun p hp => ?_⟩
  · cases hm
  · cases hp

/-- Consistency carries over to a state with the same name and `last_*` fields whose
providers all were attached before. -/
theorem consistent_of_frame (env : Collaborators) (s t : FilterConfigSubscription)
    (hname : t.filter_config_name_ = s.filter_config_name_)
    (hconfig : t.last_config_ = s.last_config_)
    (htype : t.last_type_url_ = s.last_type_url_)
    (hfilter : t.last_filter_name_ = s.last_filter_name_)
    (hterminal : t.last_filter_is_terminal_ = s.last_filter_is_terminal_)
    (hproviders : ∀ p ∈ t.filter_config_providers_, p ∈ s.filter_config_providers_)
    (h : Consistent env s) : Consistent env t := by
  unfold Consistent
  rw [hname, hconfig, htype, hfilter, hterminal]
  exact ⟨h.1, fun p hp => h.2 p (hproviders p hp)⟩

/-- Consistency carries over when one provider is attached whose default and
received messages satisfy its slot. -/
theorem consistent_attach (env : Collaborators) (s t : FilterConfigSubscription)
    (provider : DynamicFilterConfigProviderImplBase)
    (hname : t.filter_config_name_ = s.filter_config_name_)
    (hconfig : t.last_config_ = s.last_config_)
    (htype : t.last_type_url_ = s.last_type_url_)
    (hfilter : t.last_filter_name_ = s.last_filter_name_)
    (hterminal : t.last_filter_is_terminal_ = s.last_filter_is_terminal_)
    (hproviders : t.filter_config_providers_ = s.filter_config_providers_ ++ [provider])
    (hdefault : ∀ m, provider.default_config_ = some m →
      SatisfiesSlot env s.filter_config_name_ provider m)
    (hreceived : ∀ m v, ProviderCall.onConfigUpdate m v ∈ provider.received →
      SatisfiesSlot env s.filter_config_name_ provider m)
    (h : Consistent env s) : Consistent env t := by
  unfold Consistent
  rw [hname, hconfig, htype, hfilter, hterminal, hproviders]
  refine ⟨h.1, fun p hp => ?_⟩
  rcases List.mem_append.mp hp with hold | hnew
  · exact h.2 p hold
  · have : p = provider := by simpa using hnew
    subst this
    exact ⟨hdefault, hreceived⟩

/-- A full-state update keeps the subscription consistent. -/
theorem onConfigUpdate_consistent (env : Collaborators) (s : FilterConfigSubscription)
    (resources : List DecodedResource) (version_info : String) (h : Consistent env s) :
    Consistent env (s.onConfigUpdate env resources version_info).subscription := by
  rcases onConfigUpdate_cases env s resources version_info with
    ⟨heq, -⟩ | ⟨⟨e, heq⟩, -⟩ | ⟨r, f, m, hr, hn, hh, hf, ht, h1, h2⟩
  · rw [heq]; exact h
  · rw [heq]; exact h
  · subst hr
    rw [onConfigUpdate_success env s r version_info f m hn hh hf ht h1 h2]
    refine ⟨fun m1 hm1 => ?_, fun p1 hp1 => ?_⟩
    · have : m = m1 := by simpa using hm1
      subst this
      exact ⟨r.resource.typed_config, f, ⟨r.resource.name, hf⟩, ht, rfl, rfl, rfl⟩
    · obtain ⟨p, hp, rfl⟩ := List.mem_map.mp hp1
      refine ⟨fun m1 hm1 => (h.2 p hp).1 m1 hm1, fun m1 v1 hmem => ?_⟩
      rcases List.mem_append.mp hmem with hold | hnew
      · exact (h.2 p hp).2 m1 v1 hold
      · have hcall : ProviderCall.onConfigUpdate m1 v1 = .onConfigUpdate m version_info := by
          simpa using hnew
        cases hcall
        exact ⟨r.resource.typed_config, f, Or.inl ⟨r.resource.name, hf⟩, ht,
          (validateTypeUrlHelper_ok_iff _ _).mp (h1 p hp), h2 p hp⟩

/-- A delta update keeps the subscription consistent. -/
theorem onConfigUpdateDelta_consistent (env : Collaborators) (s : FilterConfigSubscription)
    (added_resources : List DecodedResource) (removed_resources : List String)
    (system_version_info : String) (h : Consistent env s) :
    Consistent env
      (s.onConfigUpdateDelta env added_resources removed_resources
        system_version_info).subscription := by
  cases removed_resources with
  | cons r rs =>
    rw [onConfigUpdateDelta_removed env s added_resources (r :: rs) system_version_info
      (by simp)]
    refine ⟨fun m1 hm1 => ?_, fun p1 hp1 => ?_⟩
    · cases hm1
    · obtain ⟨p, hp, rfl⟩ := List.mem_map.mp hp1
      refine ⟨fun m1 hm1 => (h.2 p hp).1 m1 hm1, fun m1 v1 hmem => ?_⟩
      rcases List.mem_append.mp hmem with hold | hnew
      · exact (h.2 p hp).2 m1 v1 hold
      · simp at hnew
  | nil =>
    rw [onConfigUpdateDelta_added]
    cases added_resources with
    | nil => exact h
    | cons a as => exact onConfigUpdate_consistent env s (a :: as) a.version h

/-- A default returned by `getDefaultConfig` satisfies the slot it was checked for. -/
theorem constructedProvider_default (env : Collaborators) (config_source : ExtensionConfigSource)
    (filter_config_name : String) (last_filter_in_filter_chain : Bool)
    (filter_chain_type : String) (default_config : Option Message)
    (received : List ProviderCall)
    (hdefault : ∀ m, default_config = some m → ∃ proto_config,
      getDefaultConfig env proto_config filter_config_name last_filter_in_filter_chain
        filter_chain_type
        (config_source.type_urls.map env.typeUrlToDescriptorFullName).eraseDups = .ok m)
    (m : Message) (hm : default_config = some m) :
    SatisfiesSlot env filter_config_name
      { constructedProvider env config_source last_filter_in_filter_chain filter_chain_type
          default_config with received := received } m := by
  obtain ⟨proto_config, hget⟩ := hdefault m hm
  obtain ⟨factory, hfactory, htype, htranslate, hplace⟩ :=
    getDefaultConfig_ok env proto_config filter_config_name last_filter_in_filter_chain
      filter_chain_type _ m hget
  exact ⟨proto_config, factory, Or.inr hfactory, htranslate, htype, hplace⟩

/-- Creating a provider keeps the subscription consistent. -/
theorem createDynamicFilterConfigProvider_consistent (env : Collaborators)
    (init_manager : List InitTarget) (s : FilterConfigSubscription)
    (config_source : ExtensionConfigSource) (last_filter_in_filter_chain : Bool)
    (filter_chain_type : String) (h : Consistent env s) :
    Consistent env
      (createDynamicFilterConfigProvider env init_manager s config_source s.filter_config_name_
        last_filter_in_filter_chain filter_chain_type).subscription := by
  rcases createDynamicFilterConfigProvider_cases env init_manager s config_source
    s.filter_config_name_ last_filter_in_filter_chain filter_chain_type with
    heq | ⟨d, hd, ⟨hlast, heq⟩ | ⟨last_config, hlast, haccepts, heq⟩ |
      ⟨last_config, hlast, haccepts, heq⟩⟩
  · rw [heq]; exact h
  · rw [heq]
    refine consistent_attach env s _ _ rfl rfl rfl rfl rfl rfl
      (constructedProvider_default env config_source s.filter_config_name_
        last_filter_in_filter_chain filter_chain_type d _ hd) ?_ h
    intro m v hmem
    simp [DynamicFilterConfigProviderImplBase.applyDefaultConfiguration,
      constructedProvider, DynamicFilterConfigProviderImplBase.create] at hmem
  · rw [heq]
    refine consistent_attach env s _ _ rfl rfl rfl rfl rfl rfl
      (constructedProvider_default env config_source s.filter_config_name_
        last_filter_in_filter_chain filter_chain_type d _ hd) ?_ h
    intro m v hmem
    have hcall : m = last_config ∧ v = s.last_version_info_ := by
      simpa [DynamicFilterConfigProviderImplBase.onConfigUpdate, constructedProvider,
        DynamicFilterConfigProviderImplBase.create] using hmem
    obtain ⟨rfl, rfl⟩ := hcall
    simp only [acceptsLast, Bool.and_eq_true] at haccepts
    obtain ⟨any, factory, hfactory, htranslate, hurl, hname, hterm⟩ := h.1 m hlast
    refine ⟨any, factory, Or.inl hfactory, htranslate, ?_, ?_⟩
    · rw [hurl]
      exact (validateTypeUrlHelper_ok_iff _ _).mp ((isOk_eq_true_iff _).mp haccepts.1)
    · rw [hname, hterm]
      exact (isOk_eq_true_iff _).mp haccepts.2
  · rw [heq]
    refine consistent_attach env s _ _ rfl rfl rfl rfl rfl rfl
      (constructedProvider_default env config_source s.filter_config_name_
        last_filter_in_filter_chain filter_chain_type d _ hd) ?_ h
    intro m v hmem
    simp [DynamicFilterConfigProviderImplBase.applyDefaultConfiguration,
      constructedProvider, DynamicFilterConfigProviderImplBase.create] at hmem

/-- Every operation keeps the subscription consistent. -/
theorem step_consistent (env : Collaborators) (s : FilterConfigSubscription) (op : Operation)
    (h : Consistent env s) : Consistent env (step env s op) := by
  cases op with
  | fullUpdate resources version_info =>
    exact onConfigUpdate_consistent env s resources version_info h
  | deltaUpdate added removed version_info =>
    exact onConfigUpdateDelta_consistent env s added removed version_info h
  | updateFailed reason => exact h
  | createProvider init_manager config_source last chain =>
    exact createDynamicFilterConfigProvider_consistent env init_manager s config_source last
      chain h
  | destroyProvider index =>
    exact consistent_of_frame env s _ rfl rfl rfl rfl rfl
      (fun p hp => List.mem_of_mem_eraseIdx hp) h
  | start =>
    simp only [step, FilterConfigSubscription.start]
    split
    · exact h
    · exact h

/-- A full-state update does not rename the subscription. -/
theorem onConfigUpdate_name (env : Collaborators) (s : FilterConfigSubscription)
    (resources : List DecodedResource) (version_info : String) :
    (s.onConfigUpdate env resources version_info).subscription.filter_config_name_
      = s.filter_config_name_ := by
  rcases onConfigUpdate_cases env s resources version_info with
    ⟨heq, -⟩ | ⟨⟨e, heq⟩, -⟩ | ⟨r, f, m, hr, hn, hh, hf, ht, h1, h2⟩
  · rw [heq]; rfl
  · rw [heq]; rfl
  · subst hr
    rw [onConfigUpdate_success env s r version_info f m hn hh hf ht h1 h2]

/-- No operation renames the subscription. -/
theorem step_name (env : Collaborators) (s : FilterConfigSubscription) (op : Operation) :
    (step env s op).filter_config_name_ = s.filter_config_name_ := by
  cases op with
  | fullUpdate resources version_info => exact onConfigUpdate_name env s resources version_info
  | deltaUpdate added removed version_info =>
    simp only [step]
    cases removed with
    | cons r rs =>
      rw [onConfigUpdateDelta_removed env s added (r :: rs) version_info (by simp)]
    | nil =>
      rw [onConfigUpdateDelta_added]
      cases added with
      | nil => rfl
      | cons a as => exact onConfigUpdate_name env s (a :: as) a.version
  | updateFailed reason => rfl
  | createProvider init_manager config_source last chain =>
    exact (createDynamicFilterConfigProvider_frame env init_manager s config_source
      s.filter_config_name_ last chain).1
  | destroyProvider index => rfl
  | start =>
    simp only [step, FilterConfigSubscription.start]
    split <;> rfl

theorem runOperations_consistent (env : Collaborators) (ops : List Operation)
    (s : FilterConfigSubscription) (h : Consistent env s) :
    Consistent env (runOperations env s ops) := by
  induction ops generalizing s with
  | nil => exact h
  | cons op ops ih => exact ih (step env s op) (step_consistent env s op h)

theorem runOperations_name (env : Collaborators) (ops : List Operation)
    (s : FilterConfigSubscription) :
    (runOperations env s ops).filter_config_name_ = s.filter_config_name_ := by
  induction ops generalizing s with
  | nil => rfl
  | cons op ops ih => exact (ih (step env s op)).trans (step_name env s op)

/-- In a consistent subscription the config a provider publishes satisfies the
provider's slot. -/
theorem installedConfig_of_consistent (env : Collaborators) (s : FilterConfigSubscription)
    (h : Consistent env s) (p : DynamicFilterConfigProviderImplBase)
    (hp : p ∈ s.filter_config_providers_) (m : Message) (hm : p.installedConfig = some m) :
    SatisfiesSlot env s.filter_config_name_ p m := by
  obtain ⟨hdefault, hreceived⟩ := h.2 p hp
  unfold DynamicFilterConfigProviderImplBase.installedConfig at hm
  cases hcall : p.received.getLast? with
  | none => simp [hcall] at hm
  | some call =>
    cases call with
    | onConfigUpdate m1 v1 =>
      simp only [hcall, Option.some.injEq] at hm
      subst hm
      exact hreceived m1 v1 (List.mem_of_getLast?_eq_some hcall)
    | onConfigRemoved =>
      simp only [hcall] at hm
      exact hdefault m hm
    | applyDefaultConfiguration =>
      simp only [hcall] at hm
      exact hdefault m hm

/-- Claim C5. In every state reached from a fresh subscription by provider creations
(with or without a default), full-state updates, delta updates, update failures,
provider destructions and `start` calls, and for every attached provider: each
message the provider ever received through `onConfigUpdate` (from a broadcast or
from apply-last at creation), its default if it has one, and so in particular
the config it currently publishes, is the translation of a payload of a
registered factory whose factory type is in the provider's `require_type_urls_` and
whose terminal verdict passes the provider's placement check. -/
theorem installed_config_satisfies_slot (env : Collaborators) (filter_config_name : String)
    (ops : List Operation) (p : DynamicFilterConfigProviderImplBase)
    (hp : p ∈ (runOperations env (FilterConfigSubscription.create filter_config_name)
      ops).filter_config_providers_) :
    (∀ m v, ProviderCall.onConfigUpdate m v ∈ p.received →
      SatisfiesSlot env filter_config_name p m) ∧
    (∀ m, p.default_config_ = some m → SatisfiesSlot env filter_config_name p m) ∧
    (∀ m, p.installedConfig = some m → SatisfiesSlot env filter_config_name p m) := by
  have hcons := runOperations_consistent env ops _ (consistent_create env filter_config_name)
  have hinstalled := installedConfig_of_consistent env _ hcons p hp
  obtain ⟨hdefault, hreceived⟩ := hcons.2 p hp
  rw [runOperations_name] at hdefault hreceived hinstalled
  exact ⟨hreceived, hdefault, hinstalled⟩

/-- Witness for `installed_config_satisfies_slot`: a `router` slot with a default is created on a
subscription that holds a `buffer` config, so the slot publishes its default;
then the config is removed and a `router` config is broadcast, which the slot
publishes. -/
theorem installed_config_satisfies_slot_witness :
    routerSlotAfterBroadcast ∈
      (runOperations sampleCollaborators (FilterConfigSubscription.create "foo")
        [.fullUpdate [bufferResource] "1", .createProvider [] routerSource true "http",
          .deltaUpdate [] ["foo"] "",
          .fullUpdate [routerResource] "1"]).filter_config_providers_ ∧
    routerSlotAfterBroadcast.installedConfig = some { type_name := "router", content := "r" } ∧
    SatisfiesSlot sampleCollaborators "foo" routerSlotAfterBroadcast
      { type_name := "router", content := "r" } :=
  ⟨by decide, by decide,
    (installed_config_satisfies_slot sampleCollaborators "foo"
      [.fullUpdate [bufferResource] "1", .createProvider [] routerSource true "http",
        .deltaUpdate [] ["foo"] "", .fullUpdate [routerResource] "1"]
      routerSlotAfterBroadcast (by decide)).2.2 _ (by decide)⟩

/-! ## Delta additions -/

/-- Claim C11. For every subscription state, a delta update with an empty removed set
and a non-empty added list is the full-state `onConfigUpdate` of the whole added list
at the version of its first element: the same resulting subscription (providers
and counters included) and the same exception, whatever version string the
delta call is given. -/
theorem onConfigUpdateDelta_add_is_full_update (env : Collaborators)
    (s : FilterConfigSubscription) (first : DecodedResource) (rest : List DecodedResource)
    (system_version_info : String) :
    s.onConfigUpdateDelta env (first :: rest) [] system_version_info
      = s.onConfigUpdate env (first :: rest) first.version := by
  rw [onConfigUpdateDelta_added]

/-! ## Init targets and the default config at provider creation -/

/-- The init targets `createDynamicFilterConfigProvider` hands to the init manager, by outcome. -/
theorem createDynamicFilterConfigProvider_init_manager (env : Collaborators)
    (init_manager : List InitTarget) (s : FilterConfigSubscription)
    (config_source : ExtensionConfigSource) (filter_config_name : String)
    (last_filter_in_filter_chain : Bool) (filter_chain_type : String) :
    (∀ p, (createDynamicFilterConfigProvider env init_manager s config_source
        filter_config_name last_filter_in_filter_chain filter_chain_type).provider = .ok p →
      (createDynamicFilterConfigProvider env init_manager s config_source filter_config_name
        last_filter_in_filter_chain filter_chain_type).init_manager =
        init_manager ++ [if config_source.apply_default_config_without_warming then
          InitTarget.providerInitTarget else InitTarget.subscriptionInitTarget]) ∧
    (∀ e, (createDynamicFilterConfigProvider env init_manager s config_source
        filter_config_name last_filter_in_filter_chain filter_chain_type).provider = .error e →
      (createDynamicFilterConfigProvider env init_manager s config_source filter_config_name
        last_filter_in_filter_chain filter_chain_type).init_manager =
        init_manager ++ (if config_source.apply_default_config_without_warming then []
          else [InitTarget.subscriptionInitTarget])) := by
  unfold createDynamicFilterConfigProvider
  cases hdefault : config_source.default_config with
  | none =>
    simp only [pure, Except.pure]
    rw [applyLastOrDefaultConfig_eq]
    cases config_source.apply_default_config_without_warming <;> simp
  | some proto_config =>
    cases hget : getDefaultConfig env proto_config filter_config_name
        last_filter_in_filter_chain filter_chain_type
        (config_source.type_urls.map env.typeUrlToDescriptorFullName).eraseDups with
    | error e =>
      cases config_source.apply_default_config_without_warming <;> simp [hget, Except.map]
    | ok m =>
      simp only [hget, Except.map]
      rw [applyLastOrDefaultConfig_eq]
      cases config_source.apply_default_config_without_warming <;> simp

/-- Claim C14. Whenever `createDynamicFilterConfigProvider` returns a provider, exactly one init
target has been added to the listener init manager: the subscription's if
`apply_default_config_without_warming` is false and the provider's own if it is true,
with or without a declared default. -/
theorem createDynamicFilterConfigProvider_adds_one_init_target (env : Collaborators)
    (init_manager : List InitTarget) (s : FilterConfigSubscription)
    (config_source : ExtensionConfigSource) (filter_config_name : String)
    (last_filter_in_filter_chain : Bool) (filter_chain_type : String)
    (p : DynamicFilterConfigProviderImplBase)
    (hcreated : (createDynamicFilterConfigProvider env init_manager s config_source
      filter_config_name last_filter_in_filter_chain filter_chain_type).provider = .ok p) :
    (createDynamicFilterConfigProvider env init_manager s config_source filter_config_name
      last_filter_in_filter_chain filter_chain_type).init_manager =
      init_manager ++ [if config_source.apply_default_config_without_warming then
        InitTarget.providerInitTarget else InitTarget.subscriptionInitTarget] :=
  (createDynamicFilterConfigProvider_init_manager env init_manager s config_source
    filter_config_name last_filter_in_filter_chain filter_chain_type).1 p hcreated

/-- Witness for `createDynamicFilterConfigProvider_adds_one_init_target`: a source with a default and
without warming, on a subscription that holds a config. -/
theorem createDynamicFilterConfigProvider_adds_one_init_target_witness :
    (createDynamicFilterConfigProvider sampleCollaborators [] fooWithBuffer routerSource "foo"
      true "http").init_manager = [] ++ [if routerSource.apply_default_config_without_warming
        then InitTarget.providerInitTarget else InitTarget.subscriptionInitTarget] :=
  createDynamicFilterConfigProvider_adds_one_init_target sampleCollaborators [] fooWithBuffer
    routerSource "foo" true "http"
    { require_type_urls_ := ["router"], last_filter_in_filter_chain_ := true
      filter_chain_type_ := "http"
      default_config_ := some { type_name := "router", content := "d" }
      received := [.applyDefaultConfiguration] } rfl

/-- Claim C15, as the code has it. The init targets `createDynamicFilterConfigProvider` adds are
decided by `apply_default_config_without_warming` alone: the provider's own init target
is added exactly when the flag is true and a provider is returned, and the
subscription's init target is added exactly when the flag is false; a declared
default plays no part. -/
theorem createDynamicFilterConfigProvider_init_target_choice (env : Collaborators)
    (init_manager : List InitTarget) (s : FilterConfigSubscription)
    (config_source : ExtensionConfigSource) (filter_config_name : String)
    (last_filter_in_filter_chain : Bool) (filter_chain_type : String) :
    ∃ added : List InitTarget,
      (createDynamicFilterConfigProvider env init_manager s config_source filter_config_name
        last_filter_in_filter_chain filter_chain_type).init_manager = init_manager ++ added ∧
      (InitTarget.providerInitTarget ∈ added ↔
        config_source.apply_default_config_without_warming = true ∧
        ∃ p, (createDynamicFilterConfigProvider env init_manager s config_source
          filter_config_name last_filter_in_filter_chain filter_chain_type).provider = .ok p) ∧
      (InitTarget.subscriptionInitTarget ∈ added ↔
        config_source.apply_default_config_without_warming = false) := by
  obtain ⟨hok, herr⟩ := createDynamicFilterConfigProvider_init_manager env init_manager s
    config_source filter_config_name last_filter_in_filter_chain filter_chain_type
  cases hresult : (createDynamicFilterConfigProvider env init_manager s config_source
      filter_config_name last_filter_in_filter_chain filter_chain_type).provider with
  | ok p =>
    refine ⟨_, hok p hresult, ?_, ?_⟩
    · cases config_source.apply_default_config_without_warming <;> simp
    · cases config_source.apply_default_config_without_warming <;> simp
  | error e =>
    refine ⟨_, herr e hresult, ?_, ?_⟩
    · cases config_source.apply_default_config_without_warming <;> simp
    · cases config_source.apply_default_config_without_warming <;> simp

/-- The claim C15 fails as stated, in both directions. `bufferSource` asks for warming and
has no default, yet the subscription's init target is the one added, not the
provider's; `routerSource` has the flag set, so by the claim the subscription's
target would be added, yet the provider's own is. -/
theorem createDynamicFilterConfigProvider_init_target_by_flag :
    (bufferSource.apply_default_config_without_warming = false ∧
      bufferSource.default_config = none ∧
      (createDynamicFilterConfigProvider sampleCollaborators []
        (FilterConfigSubscription.create "foo") bufferSource "foo" false "http").init_manager
        = [InitTarget.subscriptionInitTarget]) ∧
    (routerSource.apply_default_config_without_warming = true ∧
      (createDynamicFilterConfigProvider sampleCollaborators []
        (FilterConfigSubscription.create "foo") routerSource "foo" true "http").init_manager
        = [InitTarget.providerInitTarget]) := by
  decide

/-- Claim C16. The checks of `getDefaultConfig` in their order: an unknown factory is
reported first, whatever the whitelist; then a factory type outside
`require_type_urls`; then a failed translation; then a terminal flag the slot's
placement refuses; and when all pass the translated message is returned. When
the source declares the default and `getDefaultConfig`, run on the whitelist built
from the source's `type_urls`, raises, `createDynamicFilterConfigProvider` raises the same
error, returns no provider and attaches none to the subscription. -/
theorem getDefaultConfig_validation (env : Collaborators) (proto_config : Any)
    (filter_config_name : String) (last_filter_in_filter_chain : Bool)
    (filter_chain_type : String) (require_type_urls : List String) :
    (env.getFactoryByType proto_config = none →
      getDefaultConfig env proto_config filter_config_name last_filter_in_filter_chain
        filter_chain_type require_type_urls
        = .error (.defaultFactoryNotFound filter_config_name proto_config.type_url)) ∧
    (∀ factory, env.getFactoryByType proto_config = some factory →
      (env.getFactoryType proto_config ∉ require_type_urls →
        getDefaultConfig env proto_config filter_config_name last_filter_in_filter_chain
          filter_chain_type require_type_urls
          = .error (.typeUrlNotExpected (env.getFactoryType proto_config) require_type_urls)) ∧
      (env.getFactoryType proto_config ∈ require_type_urls →
        (∀ e, env.translateAnyToFactoryConfig proto_config factory = .error e →
          getDefaultConfig env proto_config filter_config_name last_filter_in_filter_chain
            filter_chain_type require_type_urls = .error e) ∧
        (∀ message, env.translateAnyToFactoryConfig proto_config factory = .ok message →
          (∀ e, env.validateTerminalFilters filter_config_name factory.name filter_chain_type
              (factory.isTerminalFilterByProto message) last_filter_in_filter_chain = .error e →
            getDefaultConfig env proto_config filter_config_name last_filter_in_filter_chain
              filter_chain_type require_type_urls = .error e) ∧
          (env.validateTerminalFilters filter_config_name factory.name filter_chain_type
              (factory.isTerminalFilterByProto message) last_filter_in_filter_chain = .ok () →
            getDefaultConfig env proto_config filter_config_name last_filter_in_filter_chain
              filter_chain_type require_type_urls = .ok message)))) ∧
    (∀ (init_manager : List InitTarget) (s : FilterConfigSubscription)
        (config_source : ExtensionConfigSource) (e : EnvoyException),
      config_source.default_config = some proto_config →
      getDefaultConfig env proto_config filter_config_name last_filter_in_filter_chain
        filter_chain_type
        (config_source.type_urls.map env.typeUrlToDescriptorFullName).eraseDups = .error e →
      (createDynamicFilterConfigProvider env init_manager s config_source filter_config_name
        last_filter_in_filter_chain filter_chain_type).provider = .error e ∧
      (createDynamicFilterConfigProvider env init_manager s config_source filter_config_name
        last_filter_in_filter_chain filter_chain_type).subscription = s) := by
  refine ⟨fun hnone => ?_, fun factory hfactory => ⟨fun hout => ?_, fun hin => ⟨fun e he => ?_,
    fun message hm => ⟨fun e he => ?_, fun hok => ?_⟩⟩⟩, ?_⟩
  · simp [getDefaultConfig, hnone, throw, throwThe, MonadExceptOf.throw]
  · simp [getDefaultConfig, hfactory, validateTypeUrlHelper, hout, bind, Except.bind, throw,
      throwThe, MonadExceptOf.throw]
  · have h1 := (validateTypeUrlHelper_ok_iff _ _).mpr hin
    simp [getDefaultConfig, hfactory, h1, he, bind, Except.bind]
  · have h1 := (validateTypeUrlHelper_ok_iff _ _).mpr hin
    simp [getDefaultConfig, hfactory, h1, hm, he, bind, Except.bind]
  · have h1 := (validateTypeUrlHelper_ok_iff _ _).mpr hin
    simp [getDefaultConfig, hfactory, h1, hm, hok, bind, Except.bind, pure, Except.pure]
  · intro init_manager s config_source e hdefault hget
    simp [createDynamicFilterConfigProvider, hdefault, hget, Except.map]

/-- Witness for `getDefaultConfig_validation`: a default of an unregistered type that is also
outside the whitelist is reported as an unknown factory, and no provider is
created. -/
theorem getDefaultConfig_validation_witness :
    getDefaultConfig sampleCollaborators { type_url := "unknown", value := "d" } "foo" false
        "http" ["router"]
      = .error (.defaultFactoryNotFound "foo" "unknown") ∧
    (createDynamicFilterConfigProvider sampleCollaborators []
        (FilterConfigSubscription.create "foo") unknownDefaultSource "foo" false "http").provider
      = .error (.defaultFactoryNotFound "foo" "unknown") ∧
    (createDynamicFilterConfigProvider sampleCollaborators []
        (FilterConfigSubscription.create "foo") unknownDefaultSource "foo" false
        "http").subscription
      = FilterConfigSubscription.create "foo" :=
  ⟨(getDefaultConfig_validation sampleCollaborators { type_url := "unknown", value := "d" }
      "foo" false "http" ["router"]).1 rfl,
    (getDefaultConfig_validation sampleCollaborators { type_url := "unknown", value := "d" }
      "foo" false "http" ["router"]).2.2 [] (FilterConfigSubscription.create "foo")
      unknownDefaultSource (.defaultFactoryNotFound "foo" "unknown") rfl rfl⟩

/-! ## Starting the subscription -/

/-- A second `start` changes nothing. -/
theorem start_start (s : FilterConfigSubscription) : s.start.start = s.start := by
  unfold FilterConfigSubscription.start
  cases h : s.started_ <;> simp [h]

/-- Every operation other than `start` leaves `started_` and the record of transport
starts alone. -/
theorem step_started_frame (env : Collaborators) (s : FilterConfigSubscription)
    (op : Operation) (hop : op ≠ .start) :
    (step env s op).started_ = s.started_ ∧
    (step env s op).transport_started_with = s.transport_started_with := by
  have hfull : ∀ resources version_info,
      (s.onConfigUpdate env resources version_info).subscription.started_ = s.started_ ∧
      (s.onConfigUpdate env resources version_info).subscription.transport_started_with
        = s.transport_started_with := by
    intro resources version_info
    rcases onConfigUpdate_cases env s resources version_info with
      ⟨heq, -⟩ | ⟨⟨e, heq⟩, -⟩ | ⟨r, f, m, hr, hn, hh, hf, ht, h1, h2⟩
    · rw [heq]; exact ⟨rfl, rfl⟩
    · rw [heq]; exact ⟨rfl, rfl⟩
    · subst hr
      rw [onConfigUpdate_success env s r version_info f m hn hh hf ht h1 h2]
      exact ⟨rfl, rfl⟩
  cases op with
  | fullUpdate resources version_info => exact hfull resources version_info
  | deltaUpdate added removed version_info =>
    simp only [step]
    cases removed with
    | cons r rs =>
      rw [onConfigUpdateDelta_removed env s added (r :: rs) version_info (by simp)]
      exact ⟨rfl, rfl⟩
    | nil =>
      rw [onConfigUpdateDelta_added]
      cases added with
      | nil => exact ⟨rfl, rfl⟩
      | cons a as => exact hfull (a :: as) a.version
  | updateFailed reason => exact ⟨rfl, rfl⟩
  | createProvider init_manager config_source last chain =>
    simp only [step]
    rcases createDynamicFilterConfigProvider_cases env init_manager s config_source
      s.filter_config_name_ last chain with
      h | ⟨d, -, ⟨-, h⟩ | ⟨m, -, -, h⟩ | ⟨m, -, -, h⟩⟩
    all_goals rw [h]
    all_goals exact ⟨rfl, rfl⟩
  | destroyProvider index => exact ⟨rfl, rfl⟩
  | start => exact absurd rfl hop

/-- Along any sequence of operations the transport has been started once if a `start`
occurred and not at all otherwise. -/
theorem runOperations_started (env : Collaborators) (ops : List Operation)
    (s : FilterConfigSubscription) (b : Bool) (hstarted : s.started_ = b)
    (htransport : s.transport_started_with = if b then [[s.filter_config_name_]] else []) :
    (runOperations env s ops).started_ = (b || decide (Operation.start ∈ ops)) ∧
    (runOperations env s ops).transport_started_with =
      if (b || decide (Operation.start ∈ ops)) then [[s.filter_config_name_]] else [] := by
  induction ops generalizing s b with
  | nil => simpa [runOperations] using ⟨hstarted, htransport⟩
  | cons op ops ih =>
    have hname := step_name env s op
    by_cases hop : op = .start
    · subst hop
      have hs : (step env s .start).started_ = true := by
        simp only [step, FilterConfigSubscription.start]
        split
        · rfl
        · rename_i h; simpa using h
      have ht : (step env s .start).transport_started_with
          = if true then [[(step env s .start).filter_config_name_]] else [] := by
        rw [hname]
        simp only [step, FilterConfigSubscription.start]
        cases b with
        | false => simp [hstarted, htransport]
        | true => simp [hstarted, htransport]
      have := ih (step env s .start) true hs ht
      rw [hname] at this
      simpa [runOperations] using this
    · obtain ⟨hs, ht⟩ := step_started_frame env s op hop
      have := ih (step env s op) b (hs.trans hstarted)
        (by rw [ht, hname]; exact htransport)
      rw [hname] at this
      have hmem : (Operation.start ∈ op :: ops) ↔ (Operation.start ∈ ops) := by
        simp [List.mem_cons, Ne.symm hop]
      simpa [runOperations, hmem] using this

/-- Claim C17. On a subscription reached from a fresh one by any sequence of operations,
`n ≥ 1` further `start` calls, however they are interleaved with what came before,
leave the transport subscription started exactly once, with the singleton
resource set of `filter_config_name`; and a second `start` changes no state. Before
any `start` the transport has not been started at all. -/
theorem start_idempotent (env : Collaborators) (filter_config_name : String)
    (ops : List Operation) (n : Nat) (hn : 1 ≤ n) :
    (FilterConfigSubscription.start^[n]
      (runOperations env (FilterConfigSubscription.create filter_config_name)
        ops)).transport_started_with = [[filter_config_name]] ∧
    (FilterConfigSubscription.start^[n]
      (runOperations env (FilterConfigSubscription.create filter_config_name) ops)).start
      = FilterConfigSubscription.start^[n]
        (runOperations env (FilterConfigSubscription.create filter_config_name) ops) ∧
    FilterConfigSubscription.start^[n]
      (runOperations env (FilterConfigSubscription.create filter_config_name) ops)
      = (runOperations env (FilterConfigSubscription.create filter_config_name) ops).start ∧
    (Operation.start ∉ ops →
      (runOperations env (FilterConfigSubscription.create filter_config_name)
        ops).transport_started_with = []) := by
  have hiter : ∀ (k : Nat) (s : FilterConfigSubscription),
      FilterConfigSubscription.start^[k + 1] s = s.start := by
    intro k
    induction k with
    | zero => intro s; rfl
    | succ k ih =>
      intro s
      rw [Function.iterate_succ_apply, ih, start_start]
  obtain ⟨k, rfl⟩ : ∃ k, n = k + 1 := ⟨n - 1, by omega⟩
  rw [hiter]
  have hrun := runOperations_started env (ops ++ [.start])
    (FilterConfigSubscription.create filter_config_name) false rfl rfl
  have hrun0 := runOperations_started env ops
    (FilterConfigSubscription.create filter_config_name) false rfl rfl
  have happ : runOperations env (FilterConfigSubscription.create filter_config_name)
      (ops ++ [.start])
      = (runOperations env (FilterConfigSubscription.create filter_config_name) ops).start := by
    simp [runOperations, List.foldl_append, step]
  rw [happ] at hrun
  refine ⟨?_, start_start _, rfl, fun hno => ?_⟩
  · simpa [FilterConfigSubscription.create] using hrun.2
  · simpa [hno] using hrun0.2

/-- Witness for `start_idempotent`: three `start` calls after a `start`, an update and a provider
creation. -/
theorem start_idempotent_witness :
    (FilterConfigSubscription.start^[3]
      (runOperations sampleCollaborators (FilterConfigSubscription.create "foo")
        [.start, .fullUpdate [bufferResource] "1",
          .createProvider [] routerSource true "http"])).transport_started_with = [["foo"]] :=
  (start_idempotent sampleCollaborators "foo"
    [.start, .fullUpdate [bufferResource] "1", .createProvider [] routerSource true "http"]
    3 (by decide)).1

/-! ## The interning key -/

theorem digitChar_value (k : Nat) (hk : k < 10) :
    (Nat.digitChar k).toNat - 48 = k ∧ Nat.digitChar k ≠ '.' := by
  interval_cases k <;> decide

/-- With enough fuel the digit loop of `Nat.repr` prepends the decimal digits of `n`,
none of which is a dot. -/
theorem toDigitsCore_decimal (fuel n : Nat) (ds : List Char) (hfuel : n < fuel) :
    ∃ cs, Nat.toDigitsCore 10 fuel n ds = cs ++ ds ∧ decimalValue cs = n ∧ '.' ∉ cs := by
  induction fuel generalizing n ds with
  | zero => omega
  | succ fuel ih =>
    obtain ⟨hv, hd⟩ := digitChar_value (n % 10) (Nat.mod_lt _ (by decide))
    simp only [Nat.toDigitsCore]
    by_cases h0 : n / 10 = 0
    · refine ⟨[Nat.digitChar (n % 10)], by simp [h0], ?_, by simpa using hd.symm⟩
      simp only [decimalValue, List.foldl, hv]
      omega
    · obtain ⟨cs, hcs, hval, hdot⟩ := ih (n / 10) (Nat.digitChar (n % 10) :: ds) (by omega)
      refine ⟨cs ++ [Nat.digitChar (n % 10)], by simp [h0, hcs], ?_, ?_⟩
      · unfold decimalValue at hval ⊢
        rw [List.foldl_append, hval]
        simp only [List.foldl, hv]
        omega
      · simp [hdot, hd.symm]

theorem repr_decimal (n : Nat) :
    decimalValue (Nat.repr n).data = n ∧ '.' ∉ (Nat.repr n).data := by
  obtain ⟨cs, hcs, hval, hdot⟩ := toDigitsCore_decimal (n + 1) n [] (by omega)
  simp only [Nat.repr, Nat.toDigits, hcs, List.append_nil, List.asString]
  exact ⟨hval, hdot⟩

/-- Two strings that agree are cut at their first dot in the same place. -/
theorem append_dot_cancel (xs ys us vs : List Char) (hx : '.' ∉ xs) (hy : '.' ∉ ys)
    (h : xs ++ '.' :: us = ys ++ '.' :: vs) : xs = ys ∧ us = vs := by
  induction xs generalizing ys with
  | nil =>
    cases ys with
    | nil => simpa using h
    | cons y ys =>
      simp only [List.nil_append, List.cons_append, List.cons.injEq] at h
      exact absurd h.1.symm (by simpa using (List.ne_of_not_mem_cons hy).symm)
  | cons x xs ih =>
    cases ys with
    | nil =>
      simp only [List.nil_append, List.cons_append, List.cons.injEq] at h
      exact absurd h.1 (by simpa using (List.ne_of_not_mem_cons hx).symm)
    | cons y ys =>
      simp only [List.cons_append, List.cons.injEq] at h
      obtain ⟨h1, h2⟩ := ih ys (fun hm => hx (List.mem_cons_of_mem _ hm))
        (fun hm => hy (List.mem_cons_of_mem _ hm)) h.2
      exact ⟨by rw [h.1, h1], h2⟩

/-- The key determines the hash and the name. -/
theorem subscriptionId_inj (h1 h2 : Nat) (n1 n2 : String) :
    subscriptionId h1 n1 = subscriptionId h2 n2 ↔ h1 = h2 ∧ n1 = n2 := by
  constructor
  · intro h
    have hd := congrArg String.data h
    simp only [subscriptionId, String.data_append, toString, List.append_assoc] at hd
    obtain ⟨hv1, hdot1⟩ := repr_decimal h1
    obtain ⟨hv2, hdot2⟩ := repr_decimal h2
    simp only [List.singleton_append] at hd
    obtain ⟨hx, hn⟩ := append_dot_cancel _ _ _ _ hdot1 hdot2 hd
    refine ⟨?_, String.ext hn⟩
    rw [← hv1, ← hv2, hx]
  · rintro ⟨rfl, rfl⟩; rfl

/-! ## The interning table -/

namespace FilterConfigProviderManagerImplBase

theorem lock_some (manager : FilterConfigProviderManagerImplBase) (address : Nat)
    (object : SubscriptionObject) (h : manager.lock address = some object) :
    object ∈ manager.alive ∧ object.address = address := by
  unfold lock at h
  exact ⟨List.mem_of_find?_eq_some h, by simpa using List.find?_some h⟩

theorem lock_none (manager : FilterConfigProviderManagerImplBase) (address : Nat)
    (h : manager.lock address = none) : ∀ object ∈ manager.alive, object.address ≠ address := by
  unfold lock at h
  intro object hobject
  simpa using List.find?_eq_none.mp h object hobject

/-- Two live objects at one address are one object. -/
theorem TableConsistent_same_address (manager : FilterConfigProviderManagerImplBase)
    (h : TableConsistent manager) (x y : SubscriptionObject) (hx : x ∈ manager.alive)
    (hy : y ∈ manager.alive) (hxy : x.address = y.address) : x = y :=
  List.inj_on_of_nodup_map h.addresses_nodup hx hy hxy

/-- Two entries under one key are one entry. -/
theorem TableConsistent_same_key (manager : FilterConfigProviderManagerImplBase)
    (h : TableConsistent manager) (x y : String × Nat) (hx : x ∈ manager.subscriptions_)
    (hy : y ∈ manager.subscriptions_) (hxy : x.1 = y.1) : x = y :=
  List.inj_on_of_nodup_map h.keys_nodup hx hy hxy

theorem empty_consistent : TableConsistent empty :=
  { entry_alive := fun _ h => by cases h
    alive_entered := fun _ h => by cases h
    keys_nodup := List.nodup_nil
    addresses_nodup := List.nodup_nil
    addresses_lt := fun _ h => by cases h }

/-- The lookup branch never meets an expired weak pointer in a consistent table. -/
theorem getSubscription_cases (hashSource : ConfigSource → Nat)
    (manager : FilterConfigProviderManagerImplBase) (h : TableConsistent manager)
    (config_source : ConfigSource) (name : String) :
    (manager.subscriptions_.find?
        (fun entry => entry.1 == subscriptionId (configSourceHash hashSource config_source) name)
        = none ∧
      manager.getSubscription hashSource config_source name =
        ({ subscriptions_ := manager.subscriptions_ ++
              [(subscriptionId (configSourceHash hashSource config_source) name,
                manager.next_address)]
           alive := manager.alive ++
              [{ address := manager.next_address
                 subscription_id_ :=
                   subscriptionId (configSourceHash hashSource config_source) name
                 subscription := FilterConfigSubscription.create name }]
           next_address := manager.next_address + 1 },
          .subscription manager.next_address)) ∨
    (∃ object ∈ manager.alive,
      object.subscription_id_ = subscriptionId (configSourceHash hashSource config_source) name ∧
      manager.getSubscription hashSource config_source name
        = (manager, .subscription object.address)) := by
  simp only [getSubscription]
  cases hfind : manager.subscriptions_.find?
      (fun entry => entry.1 == subscriptionId (configSourceHash hashSource config_source) name)
    with
  | none => exact Or.inl ⟨rfl, rfl⟩
  | some entry =>
    right
    have hmem := List.mem_of_find?_eq_some hfind
    have hkey : entry.1 = subscriptionId (configSourceHash hashSource config_source) name := by
      simpa using List.find?_some hfind
    obtain ⟨object, hobject, haddress, hid⟩ := h.entry_alive entry hmem
    cases hlock : manager.lock entry.2 with
    | none => exact absurd haddress (lock_none manager entry.2 hlock object hobject)
    | some existing =>
      obtain ⟨hexisting, haddr⟩ := lock_some manager entry.2 existing hlock
      have : existing = object :=
        TableConsistent_same_address manager h existing object hexisting hobject
          (haddr.trans haddress.symm)
      subst this
      exact ⟨existing, hexisting, hid.trans hkey, by simp only [hlock]⟩

theorem getSubscription_consistent (hashSource : ConfigSource → Nat)
    (manager : FilterConfigProviderManagerImplBase) (h : TableConsistent manager)
    (config_source : ConfigSource) (name : String) :
    TableConsistent (manager.getSubscription hashSource config_source name).1 := by
  rcases getSubscription_cases hashSource manager h config_source name with
    ⟨hfind, heq⟩ | ⟨object, -, -, heq⟩
  · rw [heq]
    have hfresh : ∀ entry ∈ manager.subscriptions_,
        entry.1 ≠ subscriptionId (configSourceHash hashSource config_source) name := by
      intro entry hentry
      simpa using List.find?_eq_none.mp hfind entry hentry
    refine ⟨?_, ?_, ?_, ?_, ?_⟩
    · intro entry hentry
      rcases List.mem_append.mp hentry with hold | hnew
      · obtain ⟨object, hobject, h1, h2⟩ := h.entry_alive entry hold
        exact ⟨object, List.mem_append_left _ hobject, h1, h2⟩
      · have : entry = (subscriptionId (configSourceHash hashSource config_source) name,
            manager.next_address) := by simpa using hnew
        subst this
        exact ⟨_, List.mem_append_right _ (List.mem_singleton.mpr rfl), rfl, rfl⟩
    · intro object hobject
      rcases List.mem_append.mp hobject with hold | hnew
      · exact List.mem_append_left _ (h.alive_entered object hold)
      · have : object = _ := List.mem_singleton.mp hnew
        subst this
        exact List.mem_append_right _ (List.mem_singleton.mpr rfl)
    · simp only [List.map_append, List.map_cons, List.map_nil]
      refine List.Nodup.append h.keys_nodup (List.nodup_singleton _) ?_
      intro key hkey hkey2
      obtain ⟨entry, hentry, rfl⟩ := List.mem_map.mp hkey
      exact hfresh entry hentry (List.mem_singleton.mp hkey2)
    · simp only [List.map_append, List.map_cons, List.map_nil]
      refine List.Nodup.append h.addresses_nodup (List.nodup_singleton _) ?_
      intro address haddress haddress2
      obtain ⟨object, hobject, rfl⟩ := List.mem_map.mp haddress
      have := h.addresses_lt object hobject
      have := List.mem_singleton.mp haddress2
      omega
    · intro object hobject
      rcases List.mem_append.mp hobject with hold | hnew
      · have := h.addresses_lt object hold
        show object.address < manager.next_address + 1
        omega
      · have : object = _ := List.mem_singleton.mp hnew
        subst this
        show manager.next_address < manager.next_address + 1
        omega
  · rw [heq]; exact h

theorem destroySubscription_consistent (manager : FilterConfigProviderManagerImplBase)
    (h : TableConsistent manager) (address : Nat) :
    TableConsistent (manager.destroySubscription address) := by
  unfold destroySubscription
  cases hlock : manager.lock address with
  | none => exact h
  | some subscription =>
    obtain ⟨hsub, haddr⟩ := lock_some manager address subscription hlock
    refine ⟨?_, ?_, ?_, ?_, ?_⟩
    · intro entry hentry
      obtain ⟨hentry, hkey⟩ := List.mem_filter.mp hentry
      obtain ⟨object, hobject, h1, h2⟩ := h.entry_alive entry hentry
      refine ⟨object, List.mem_filter.mpr ⟨hobject, ?_⟩, h1, h2⟩
      have hne : object.address ≠ address := by
        intro heq
        have : object = subscription :=
          TableConsistent_same_address manager h object subscription hobject hsub
            (heq.trans haddr.symm)
        subst this
        simp [h2] at hkey
      simpa using hne
    · intro object hobject
      obtain ⟨hobject, hne⟩ := List.mem_filter.mp hobject
      refine List.mem_filter.mpr ⟨h.alive_entered object hobject, ?_⟩
      have hkey : object.subscription_id_ ≠ subscription.subscription_id_ := by
        intro heq
        have := TableConsistent_same_key manager h _ _ (h.alive_entered object hobject)
          (h.alive_entered subscription hsub) heq
        have haddress : object.address = subscription.address := congrArg Prod.snd this
        rw [haddr] at haddress
        simp [haddress] at hne
      simpa using hkey
    · exact (List.filter_sublist _).map Prod.fst |>.nodup h.keys_nodup
    · exact (List.filter_sublist _).map SubscriptionObject.address |>.nodup h.addresses_nodup
    · intro object hobject
      exact h.addresses_lt object (List.mem_filter.mp hobject).1

end FilterConfigProviderManagerImplBase

theorem managerStep_consistent (hashSource : ConfigSource → Nat)
    (manager : FilterConfigProviderManagerImplBase) (h : TableConsistent manager)
    (op : ManagerOperation) : TableConsistent (managerStep hashSource manager op) := by
  cases op with
  | getSubscription config_source name =>
    exact FilterConfigProviderManagerImplBase.getSubscription_consistent hashSource manager h
      config_source name
  | destroySubscription address =>
    exact FilterConfigProviderManagerImplBase.destroySubscription_consistent manager h address

theorem runManager_consistent (hashSource : ConfigSource → Nat) (ops : List ManagerOperation)
    (manager : FilterConfigProviderManagerImplBase) (h : TableConsistent manager) :
    TableConsistent (runManager hashSource manager ops) := by
  induction ops generalizing manager with
  | nil => exact h
  | cons op ops ih =>
    exact ih (managerStep hashSource manager op) (managerStep_consistent hashSource manager h op)

/-- A call hands out no address below `next_address`, and keeps the objects it leaves
alive as they were. -/
theorem managerStep_alive (hashSource : ConfigSource → Nat)
    (manager : FilterConfigProviderManagerImplBase) (op : ManagerOperation) :
    manager.next_address ≤ (managerStep hashSource manager op).next_address ∧
    ∀ object ∈ (managerStep hashSource manager op).alive,
      object.address < manager.next_address → object ∈ manager.alive := by
  cases op with
  | getSubscription config_source name =>
    simp only [managerStep, FilterConfigProviderManagerImplBase.getSubscription]
    split
    · refine ⟨Nat.le_succ _, fun object hobject hlt => ?_⟩
      rcases List.mem_append.mp hobject with hold | hnew
      · exact hold
      · have : object = _ := List.mem_singleton.mp hnew
        subst this
        exact absurd hlt (Nat.lt_irrefl _)
    · split
      · exact ⟨Nat.le_refl _, fun _ h _ => h⟩
      · exact ⟨Nat.le_refl _, fun _ h _ => h⟩
  | destroySubscription address =>
    simp only [managerStep, FilterConfigProviderManagerImplBase.destroySubscription]
    split
    · exact ⟨Nat.le_refl _, fun _ h _ => h⟩
    · exact ⟨Nat.le_refl _, fun _ h _ => (List.mem_filter.mp h).1⟩

theorem runManager_alive (hashSource : ConfigSource → Nat) (ops : List ManagerOperation)
    (manager : FilterConfigProviderManagerImplBase) :
    manager.next_address ≤ (runManager hashSource manager ops).next_address ∧
    ∀ object ∈ (runManager hashSource manager ops).alive,
      object.address < manager.next_address → object ∈ manager.alive := by
  induction ops generalizing manager with
  | nil => exact ⟨Nat.le_refl _, fun _ h _ => h⟩
  | cons op ops ih =>
    obtain ⟨hle, hold⟩ := managerStep_alive hashSource manager op
    obtain ⟨hle2, hold2⟩ := ih (managerStep hashSource manager op)
    refine ⟨Nat.le_trans hle hle2, fun object hobject hlt => ?_⟩
    exact hold object (hold2 object hobject (Nat.lt_of_lt_of_le hlt hle)) hlt

/-- Claim C12. Let `getSubscription(c1, n1)` return the subscription at `a1`, and let that
subscription still be alive after any further calls. Then `getSubscription(c2, n2)`
returns the subscription at `a1` if and only if the two config sources have the
same hash and the two names are equal; so two different config sources with
equal hash and name share one subscription. The key, the decimal hash followed
by a dot and the name, determines the pair of hash and name, whatever dots or
digits the name contains. -/
theorem getSubscription_same_iff (hashSource : ConfigSource → Nat)
    (before after : List ManagerOperation) (c1 c2 : ConfigSource) (n1 n2 : String) (a1 : Nat)
    (hfirst : ((runManager hashSource FilterConfigProviderManagerImplBase.empty
      before).getSubscription hashSource c1 n1).2 = .subscription a1)
    (halive : ∃ object ∈ (runManager hashSource
        ((runManager hashSource FilterConfigProviderManagerImplBase.empty
          before).getSubscription hashSource c1 n1).1 after).alive,
      object.address = a1) :
    (((runManager hashSource
        ((runManager hashSource FilterConfigProviderManagerImplBase.empty
          before).getSubscription hashSource c1 n1).1 after).getSubscription hashSource c2 n2).2
        = .subscription a1 ↔
      configSourceHash hashSource c1 = configSourceHash hashSource c2 ∧ n1 = n2) ∧
    (∀ (h1 h2 : Nat) (m1 m2 : String),
      subscriptionId h1 m1 = subscriptionId h2 m2 ↔ h1 = h2 ∧ m1 = m2) := by
  refine ⟨?_, subscriptionId_inj⟩
  have h0 := runManager_consistent hashSource before _
    FilterConfigProviderManagerImplBase.empty_consistent
  have h1 := FilterConfigProviderManagerImplBase.getSubscription_consistent hashSource _ h0 c1 n1
  have h2 := runManager_consistent hashSource after _ h1
  -- the object at `a1` right after the first call carries the key of `(c1, n1)`
  have hobject1 : ∃ object ∈ ((runManager hashSource
        FilterConfigProviderManagerImplBase.empty before).getSubscription hashSource c1
        n1).1.alive,
      object.address = a1 ∧
      object.subscription_id_ = subscriptionId (configSourceHash hashSource c1) n1 := by
    rcases FilterConfigProviderManagerImplBase.getSubscription_cases hashSource _ h0 c1 n1 with
      ⟨-, heq⟩ | ⟨object, hobject, hid, heq⟩
    · rw [heq] at hfirst ⊢
      have ha : (runManager hashSource FilterConfigProviderManagerImplBase.empty
          before).next_address = a1 := by simpa using hfirst
      exact ⟨_, List.mem_append_right _ (List.mem_singleton.mpr rfl), ha, rfl⟩
    · rw [heq] at hfirst ⊢
      have ha : object.address = a1 := by simpa using hfirst
      exact ⟨object, hobject, ha, hid⟩
  obtain ⟨object1, hmem1, haddr1, hid1⟩ := hobject1
  obtain ⟨object2, hmem2, haddr2⟩ := halive
  -- it is the same object after the further calls
  have hsame : object2 = object1 := by
    have hlt : object2.address < ((runManager hashSource
        FilterConfigProviderManagerImplBase.empty before).getSubscription hashSource c1
        n1).1.next_address := by
      rw [haddr2, ← haddr1]
      exact h1.addresses_lt object1 hmem1
    have hold := (runManager_alive hashSource after _).2 object2 hmem2 hlt
    exact FilterConfigProviderManagerImplBase.TableConsistent_same_address _ h1 object2 object1
      hold hmem1 (haddr2.trans haddr1.symm)
  subst hsame
  rcases FilterConfigProviderManagerImplBase.getSubscription_cases hashSource _ h2 c2 n2 with
    ⟨hfind, heq⟩ | ⟨object, hobject, hid, heq⟩
  · rw [heq]
    have hentry := h2.alive_entered object2 hmem2
    have hne : object2.subscription_id_
        ≠ subscriptionId (configSourceHash hashSource c2) n2 := by
      simpa using List.find?_eq_none.mp hfind _ hentry
    have hlt := h2.addresses_lt object2 hmem2
    constructor
    · intro hres
      have : (runManager hashSource
        ((runManager hashSource FilterConfigProviderManagerImplBase.empty
          before).getSubscription hashSource c1 n1).1 after).next_address = a1 := by
        simpa using hres
      omega
    · rintro ⟨hh, hn⟩
      exact absurd (by rw [hid1, hh, hn]) hne
  · rw [heq]
    constructor
    · intro hres
      have ha : object.address = a1 := by simpa using hres
      have : object = object2 :=
        FilterConfigProviderManagerImplBase.TableConsistent_same_address _ h2 object object2
          hobject hmem2 (ha.trans haddr2.symm)
      subst this
      exact (subscriptionId_inj _ _ _ _).mp (hid1.symm.trans hid)
    · rintro ⟨hh, hn⟩
      have hkey : object.subscription_id_ = object2.subscription_id_ := by
        rw [hid, hid1, hh, hn]
      have := FilterConfigProviderManagerImplBase.TableConsistent_same_key _ h2 _ _
        (h2.alive_entered object hobject) (h2.alive_entered object2 hmem2) hkey
      have ha : object.address = object2.address := congrArg Prod.snd this
      rw [ha, haddr2]

/-- Witness for `getSubscription_same_iff`: `xdsA` and `xdsB` differ but hash alike under
`descriptorLength`, and so share the subscription `foo`. -/
theorem getSubscription_same_iff_witness :
    xdsA ≠ xdsB ∧
    ((FilterConfigProviderManagerImplBase.empty.getSubscription descriptorLength xdsA
        "foo").1.getSubscription descriptorLength xdsB "foo").2 = .subscription 0 :=
  ⟨by decide,
    ((getSubscription_same_iff descriptorLength [] [] xdsA xdsB "foo" "foo" 0 (by decide)
      ⟨_, List.mem_singleton.mpr rfl, rfl⟩).1).mpr ⟨by decide, rfl⟩⟩

/-- Claim C13. After every sequence of `getSubscription` calls and subscription
destructions, every entry of the table points to a subscription that is alive
and was constructed with the entry's key; so `getSubscription` never meets an
expired weak pointer; and destroying a live subscription removes its own entry
from the table and no other. -/
theorem interning_table_alive (hashSource : ConfigSource → Nat) (ops : List ManagerOperation) :
    (∀ entry ∈ (runManager hashSource FilterConfigProviderManagerImplBase.empty
        ops).subscriptions_,
      ∃ object ∈ (runManager hashSource FilterConfigProviderManagerImplBase.empty ops).alive,
        object.address = entry.2 ∧ object.subscription_id_ = entry.1) ∧
    (∀ config_source name,
      ((runManager hashSource FilterConfigProviderManagerImplBase.empty ops).getSubscription
        hashSource config_source name).2 ≠ .expired) ∧
    (∀ object ∈ (runManager hashSource FilterConfigProviderManagerImplBase.empty ops).alive,
      ∀ entry ∈ (runManager hashSource FilterConfigProviderManagerImplBase.empty
          ops).subscriptions_,
        (entry ∈ ((runManager hashSource FilterConfigProviderManagerImplBase.empty
            ops).destroySubscription object.address).subscriptions_ ↔
          entry ≠ (object.subscription_id_, object.address))) := by
  have h := runManager_consistent hashSource ops _
    FilterConfigProviderManagerImplBase.empty_consistent
  refine ⟨h.entry_alive, fun config_source name => ?_, fun object hobject entry hentry => ?_⟩
  · rcases FilterConfigProviderManagerImplBase.getSubscription_cases hashSource _ h
      config_source name with ⟨-, heq⟩ | ⟨object, -, -, heq⟩
    · rw [heq]; simp
    · rw [heq]; simp
  · have hlock : (runManager hashSource FilterConfigProviderManagerImplBase.empty ops).lock
        object.address = some object := by
      cases hl : (runManager hashSource FilterConfigProviderManagerImplBase.empty ops).lock
          object.address with
      | none =>
        exact absurd rfl
          (FilterConfigProviderManagerImplBase.lock_none _ _ hl object hobject)
      | some existing =>
        obtain ⟨hmem, haddr⟩ := FilterConfigProviderManagerImplBase.lock_some _ _ _ hl
        rw [FilterConfigProviderManagerImplBase.TableConsistent_same_address _ h existing object
          hmem hobject haddr]
    simp only [FilterConfigProviderManagerImplBase.destroySubscription, hlock]
    rw [List.mem_filter]
    constructor
    · rintro ⟨-, hkey⟩ heq
      subst heq
      simp at hkey
    · intro hne
      refine ⟨hentry, ?_⟩
      have : entry.1 ≠ object.subscription_id_ := by
        intro hkey
        exact hne (FilterConfigProviderManagerImplBase.TableConsistent_same_key _ h entry _
          hentry (h.alive_entered object hobject) hkey)
      simpa using this

/-- Witness for `interning_table_alive`: after `foo` was interned for `xdsA`, destroyed and
interned again, a lookup finds a live subscription. -/
theorem interning_table_alive_witness :
    ((runManager descriptorLength FilterConfigProviderManagerImplBase.empty
      [.getSubscription xdsA "foo", .destroySubscription 0,
        .getSubscription xdsA "foo"]).getSubscription descriptorLength xdsB "foo").2
      ≠ .expired :=
  (interning_table_alive descriptorLength
    [.getSubscription xdsA "foo", .destroySubscription 0, .getSubscription xdsA "foo"]).2.1
    xdsB "foo"

/-! ## Delta updates and the init target -/

/-- Claim C22. On a subscription whose init target is not ready, a delta update with a
non-empty removed set leaves the init target not ready and raises nothing,
while every provider receives `onConfigRemoved` and `config_reload` goes up by one;
the added resources play no part in the outcome. A delta update with both lists
empty returns the subscription as it was: no counter, no `last_*` field, no
provider and not the init target is touched. -/
theorem onConfigUpdateDelta_no_warm_up_signal (env : Collaborators)
    (s : FilterConfigSubscription) (added_resources : List DecodedResource)
    (removed_resources : List String) (system_version_info : String)
    (hnot_ready : s.init_target_ready_ = false) :
    (removed_resources ≠ [] →
      (s.onConfigUpdateDelta env added_resources removed_resources
        system_version_info).subscription.init_target_ready_ = false ∧
      (s.onConfigUpdateDelta env added_resources removed_resources
        system_version_info).thrown = none ∧
      (s.onConfigUpdateDelta env added_resources removed_resources
        system_version_info).subscription.filter_config_providers_ =
          s.filter_config_providers_.map (fun p => p.onConfigRemoved) ∧
      (s.onConfigUpdateDelta env added_resources removed_resources
        system_version_info).subscription.stats_ =
          { s.stats_ with config_reload_ := s.stats_.config_reload_ + 1 } ∧
      s.onConfigUpdateDelta env added_resources removed_resources system_version_info =
        s.onConfigUpdateDelta env [] removed_resources system_version_info) ∧
    s.onConfigUpdateDelta env [] [] system_version_info = ⟨s, none⟩ ∧
    (s.onConfigUpdateDelta env [] [] system_version_info).subscription.init_target_ready_ =
      false := by
  refine ⟨fun hremoved => ?_, rfl, hnot_ready⟩
  rw [onConfigUpdateDelta_removed env s added_resources removed_resources system_version_info
    hremoved, onConfigUpdateDelta_removed env s [] removed_resources system_version_info
    hremoved]
  exact ⟨hnot_ready, rfl, rfl, rfl, rfl⟩

/-- Claim C22 at the subscription `foo` with one `buffer` slot and no config yet, for a
delta update that removes `foo` and also carries an added resource. -/
theorem onConfigUpdateDelta_no_warm_up_signal_witness :
    fooWithBufferSlot.init_target_ready_ = false ∧
    ((["foo"] : List String) ≠ [] →
      (fooWithBufferSlot.onConfigUpdateDelta sampleCollaborators [bufferResource] ["foo"]
        "9").subscription.init_target_ready_ = false ∧
      (fooWithBufferSlot.onConfigUpdateDelta sampleCollaborators [bufferResource] ["foo"]
        "9").thrown = none ∧
      (fooWithBufferSlot.onConfigUpdateDelta sampleCollaborators [bufferResource] ["foo"]
        "9").subscription.filter_config_providers_ =
          fooWithBufferSlot.filter_config_providers_.map (fun p => p.onConfigRemoved) ∧
      (fooWithBufferSlot.onConfigUpdateDelta sampleCollaborators [bufferResource] ["foo"]
        "9").subscription.stats_ =
          { fooWithBufferSlot.stats_ with
            config_reload_ := fooWithBufferSlot.stats_.config_reload_ + 1 } ∧
      fooWithBufferSlot.onConfigUpdateDelta sampleCollaborators [bufferResource] ["foo"] "9" =
        fooWithBufferSlot.onConfigUpdateDelta sampleCollaborators [] ["foo"] "9") ∧
    fooWithBufferSlot.onConfigUpdateDelta sampleCollaborators [] [] "9" =
      ⟨fooWithBufferSlot, none⟩ ∧
    (fooWithBufferSlot.onConfigUpdateDelta sampleCollaborators [] []
      "9").subscription.init_target_ready_ = false :=
  ⟨by decide,
    onConfigUpdateDelta_no_warm_up_signal sampleCollaborators fooWithBufferSlot [bufferResource]
      ["foo"] "9" (by decide)⟩

/-! ## A source that declares no type URLs -/

/-- With an empty set of required type URLs, `validateTypeUrlHelper` raises for every type
URL. -/
theorem validateTypeUrlHelper_nil (type_url : String) :
    validateTypeUrlHelper type_url [] = .error (.typeUrlNotExpected type_url []) := by
  simp [validateTypeUrlHelper, throw, throwThe, MonadExceptOf.throw]

/-- The provider `createDynamicFilterConfigProvider` returns carries the descriptor full
names of the source's `type_urls`, without repetition, as its required set. -/
theorem createDynamicFilterConfigProvider_require_type_urls (env : Collaborators)
    (init_manager : List InitTarget) (s : FilterConfigSubscription)
    (config_source : ExtensionConfigSource) (filter_config_name : String)
    (last_filter_in_filter_chain : Bool) (filter_chain_type : String)
    (p : DynamicFilterConfigProviderImplBase)
    (h : (createDynamicFilterConfigProvider env init_manager s config_source filter_config_name
      last_filter_in_filter_chain filter_chain_type).provider = .ok p) :
    p.require_type_urls_ =
      (config_source.type_urls.map env.typeUrlToDescriptorFullName).eraseDups := by
  have key : ∀ default_config : Option Message,
      (match applyLastOrDefaultConfig env s
          (DynamicFilterConfigProviderImplBase.create
            (config_source.type_urls.map env.typeUrlToDescriptorFullName).eraseDups
            last_filter_in_filter_chain filter_chain_type default_config)
          filter_config_name with
        | .error e => (.error e : Except EnvoyException DynamicFilterConfigProviderImplBase)
        | .ok (_, provider) => .ok provider) = .ok p →
      p.require_type_urls_ =
        (config_source.type_urls.map env.typeUrlToDescriptorFullName).eraseDups := by
    intro default_config hp
    rw [applyLastOrDefaultConfig_eq] at hp
    cases hlast : s.last_config_ with
    | none =>
      simp only [hlast, Except.ok.injEq] at hp
      rw [← hp]; rfl
    | some m =>
      by_cases hacc : acceptsLast env s
          (DynamicFilterConfigProviderImplBase.create
            (config_source.type_urls.map env.typeUrlToDescriptorFullName).eraseDups
            last_filter_in_filter_chain filter_chain_type default_config)
          filter_config_name = true
      · simp only [hlast, hacc, if_true, Except.ok.injEq] at hp
        rw [← hp]; rfl
      · simp only [hlast, hacc, Except.ok.injEq] at hp
        rw [← hp]; rfl
  unfold createDynamicFilterConfigProvider at h
  cases hdefault : config_source.default_config with
  | none =>
    simp only [hdefault, pure, Except.pure] at h
    apply key none
    revert h
    cases applyLastOrDefaultConfig env s _ filter_config_name <;> exact id
  | some proto_config =>
    cases hget : getDefaultConfig env proto_config filter_config_name
        last_filter_in_filter_chain filter_chain_type
        (config_source.type_urls.map env.typeUrlToDescriptorFullName).eraseDups with
    | error e => simp [hdefault, hget, Except.map] at h
    | ok m =>
      simp only [hdefault, hget, Except.map] at h
      apply key (some m)
      revert h
      cases applyLastOrDefaultConfig env s _ filter_config_name <;> exact id

/-- With a declared default and an empty required set, `getDefaultConfig` raises. -/
theorem getDefaultConfig_nil (env : Collaborators) (proto_config : Any)
    (filter_config_name : String) (last_filter_in_filter_chain : Bool)
    (filter_chain_type : String) :
    ∃ e, getDefaultConfig env proto_config filter_config_name last_filter_in_filter_chain
      filter_chain_type [] = .error e := by
  cases h : getDefaultConfig env proto_config filter_config_name last_filter_in_filter_chain
      filter_chain_type [] with
  | error e => exact ⟨e, rfl⟩
  | ok message =>
    obtain ⟨_, _, hmem, _⟩ := getDefaultConfig_ok env proto_config filter_config_name
      last_filter_in_filter_chain filter_chain_type [] message h
    exact absurd hmem (List.not_mem_nil _)

/-- The claim C23 as first stated fails where it says that the rejected update changes
no state: on the subscription `foo` with one provider created from a source without
`type_urls`, the `buffer` update passes the count, name, hash and factory checks and
is rejected on the type URL, yet the init target, not ready before the call, is
ready after it. -/
theorem empty_whitelist_update_readies_init_target :
    (∃ p ∈ fooWithNoTypeUrlsSlot.filter_config_providers_, p.require_type_urls_ = []) ∧
    bufferResource.resource.name = fooWithNoTypeUrlsSlot.filter_config_name_ ∧
    sampleCollaborators.hash64 bufferResource.resource.typed_config ≠
      fooWithNoTypeUrlsSlot.last_config_hash_ ∧
    sampleCollaborators.getAndCheckFactory bufferResource.resource = .ok bufferFactory ∧
    (fooWithNoTypeUrlsSlot.onConfigUpdate sampleCollaborators [bufferResource] "1").thrown =
      some (.typeUrlNotExpected "buffer" []) ∧
    fooWithNoTypeUrlsSlot.init_target_ready_ = false ∧
    (fooWithNoTypeUrlsSlot.onConfigUpdate sampleCollaborators [bufferResource]
      "1").subscription.init_target_ready_ = true ∧
    (fooWithNoTypeUrlsSlot.onConfigUpdate sampleCollaborators [bufferResource]
      "1").subscription ≠ fooWithNoTypeUrlsSlot := by
  refine ⟨⟨_, List.mem_singleton.mpr rfl, rfl⟩, rfl, by decide, rfl, rfl, rfl, rfl, ?_⟩
  intro h
  have h2 := congrArg FilterConfigSubscription.init_target_ready_ h
  exact absurd h2 (by decide)

/-- Membership in the accumulating loop of `List.eraseDups`. -/
theorem mem_eraseDups_loop (xs bs : List String) (x : String) :
    x ∈ List.eraseDups.loop xs bs ↔ x ∈ xs ∨ x ∈ bs := by
  induction xs generalizing bs with
  | nil => simp [List.eraseDups.loop]
  | cons a rest ih =>
    unfold List.eraseDups.loop
    cases h : List.elem a bs with
    | true =>
      simp only [ih, List.mem_cons]
      have ha : a ∈ bs := List.elem_iff.mp h
      constructor
      · rintro (h1 | h1)
        · exact Or.inl (Or.inr h1)
        · exact Or.inr h1
      · rintro ((rfl | h1) | h1)
        · exact Or.inr ha
        · exact Or.inl h1
        · exact Or.inr h1
    | false =>
      simp only [ih, List.mem_cons]
      tauto

/-- The list `eraseDups` returns has the members of the list it is given. -/
theorem mem_eraseDups (xs : List String) (x : String) : x ∈ xs.eraseDups ↔ x ∈ xs := by
  unfold List.eraseDups
  rw [mem_eraseDups_loop]
  simp

/-- Claim C23, amended. Let `p` be a provider attached to `s` whose required set is empty.
Then `validateTypeUrl` raises for every type URL, and every full-state update that
passes the count, name, hash and factory checks is rejected with the type URL
exception of an attached provider; the exception leaves the providers, the counters
and every `last_*` field as they were, and the init target ready, which is the only
field the call may change. As to where the required set comes from: a provider
that `createDynamicFilterConfigProvider` returns requires exactly the descriptor full
names of the source's `type_urls`, so none when the source declares none; and a
source that declares no `type_urls` but a default makes the creation raise, with
no provider attached. -/
theorem empty_whitelist_rejects_everything (env : Collaborators)
    (s : FilterConfigSubscription) (p : DynamicFilterConfigProviderImplBase)
    (resource : DecodedResource) (version_info : String)
    (factory : NamedHttpFilterConfigFactory)
    (hattached : p ∈ s.filter_config_providers_)
    (hempty : p.require_type_urls_ = [])
    (hname : resource.resource.name = s.filter_config_name_)
    (hhash : env.hash64 resource.resource.typed_config ≠ s.last_config_hash_)
    (hfactory : env.getAndCheckFactory resource.resource = .ok factory) :
    (∀ type_url, p.validateTypeUrl type_url = .error (.typeUrlNotExpected type_url [])) ∧
    (∃ q ∈ s.filter_config_providers_,
      (s.onConfigUpdate env [resource] version_info).thrown =
        some (.typeUrlNotExpected (env.getFactoryType resource.resource.typed_config)
          q.require_type_urls_)) ∧
    (s.onConfigUpdate env [resource] version_info).subscription =
      { s with init_target_ready_ := true } ∧
    (∀ (init_manager : List InitTarget) (subscription : FilterConfigSubscription)
        (config_source : ExtensionConfigSource) (filter_config_name : String)
        (last_filter_in_filter_chain : Bool) (filter_chain_type : String),
      (∀ created, (createDynamicFilterConfigProvider env init_manager subscription
          config_source filter_config_name last_filter_in_filter_chain
          filter_chain_type).provider = .ok created →
        (∀ name, name ∈ created.require_type_urls_ ↔
          ∃ type_url ∈ config_source.type_urls,
            env.typeUrlToDescriptorFullName type_url = name) ∧
        (config_source.type_urls = [] → created.require_type_urls_ = [])) ∧
      (config_source.type_urls = [] → config_source.default_config ≠ none →
        (∃ e, (createDynamicFilterConfigProvider env init_manager subscription config_source
          filter_config_name last_filter_in_filter_chain filter_chain_type).provider
            = .error e) ∧
        (createDynamicFilterConfigProvider env init_manager subscription config_source
          filter_config_name last_filter_in_filter_chain filter_chain_type).subscription
            = subscription)) := by
  have hraise : ∀ type_url,
      p.validateTypeUrl type_url = .error (.typeUrlNotExpected type_url []) := by
    intro type_url
    unfold DynamicFilterConfigProviderImplBase.validateTypeUrl
    rw [hempty]
    exact validateTypeUrlHelper_nil type_url
  refine ⟨hraise, ?_, ?_, ?_⟩
  · obtain ⟨q, e, hq, hqe, hall⟩ := forEachProvider_error
      (fun provider =>
        provider.validateTypeUrl (env.getFactoryType resource.resource.typed_config))
      s.filter_config_providers_ p _ hattached (hraise _)
    refine ⟨q, hq, ?_⟩
    rw [onConfigUpdate_type_url_rejected env s resource version_info factory e hname hhash
      hfactory hall]
    have he : e = .typeUrlNotExpected (env.getFactoryType resource.resource.typed_config)
        q.require_type_urls_ := by
      have hq2 : q.validateTypeUrl (env.getFactoryType resource.resource.typed_config)
          = .error e := hqe
      unfold DynamicFilterConfigProviderImplBase.validateTypeUrl validateTypeUrlHelper at hq2
      by_cases hc : env.getFactoryType resource.resource.typed_config ∈ q.require_type_urls_
      · simp [hc, pure, Except.pure] at hq2
      · simp [hc, throw, throwThe, MonadExceptOf.throw] at hq2
        exact hq2.symm
    rw [he]
  · obtain ⟨q, e, _, _, hall⟩ := forEachProvider_error
      (fun provider =>
        provider.validateTypeUrl (env.getFactoryType resource.resource.typed_config))
      s.filter_config_providers_ p _ hattached (hraise _)
    rw [onConfigUpdate_type_url_rejected env s resource version_info factory e hname hhash
      hfactory hall]
    rfl
  · intro init_manager subscription config_source filter_config_name
      last_filter_in_filter_chain filter_chain_type
    refine ⟨fun created hcreated => ?_, fun hnone hdefault => ?_⟩
    · have hreq := createDynamicFilterConfigProvider_require_type_urls env init_manager
        subscription config_source filter_config_name last_filter_in_filter_chain
        filter_chain_type created hcreated
      refine ⟨fun name => ?_, fun hnone => ?_⟩
      · rw [hreq, mem_eraseDups, List.mem_map]
      · rw [hreq, hnone]; rfl
    · obtain ⟨proto_config, hsome⟩ := Option.ne_none_iff_exists'.mp hdefault
      obtain ⟨e, he⟩ := getDefaultConfig_nil env proto_config filter_config_name
        last_filter_in_filter_chain filter_chain_type
      have hreq : (config_source.type_urls.map env.typeUrlToDescriptorFullName).eraseDups
          = [] := by rw [hnone]; rfl
      unfold createDynamicFilterConfigProvider
      simp [hsome, hreq, he, Except.map]

/-- Claim C23, amended, at the subscription `foo` with the one provider of a source
without `type_urls`, for the `buffer` update; and at the creation of a provider from
such a source with a `buffer` default. -/
theorem empty_whitelist_rejects_everything_witness :
    noTypeUrlsSlot ∈ fooWithNoTypeUrlsSlot.filter_config_providers_ ∧
    noTypeUrlsSlot.require_type_urls_ = [] ∧
    bufferResource.resource.name = fooWithNoTypeUrlsSlot.filter_config_name_ ∧
    sampleCollaborators.hash64 bufferResource.resource.typed_config ≠
      fooWithNoTypeUrlsSlot.last_config_hash_ ∧
    sampleCollaborators.getAndCheckFactory bufferResource.resource = .ok bufferFactory ∧
    (∃ q ∈ fooWithNoTypeUrlsSlot.filter_config_providers_,
      (fooWithNoTypeUrlsSlot.onConfigUpdate sampleCollaborators [bufferResource] "1").thrown =
        some (.typeUrlNotExpected
          (sampleCollaborators.getFactoryType bufferResource.resource.typed_config)
          q.require_type_urls_)) ∧
    (fooWithNoTypeUrlsSlot.onConfigUpdate sampleCollaborators [bufferResource] "1").subscription =
      { fooWithNoTypeUrlsSlot with init_target_ready_ := true } ∧
    noTypeUrlsDefaultSource.type_urls = [] ∧
    noTypeUrlsDefaultSource.default_config ≠ none ∧
    (∃ e, (createDynamicFilterConfigProvider sampleCollaborators []
      (FilterConfigSubscription.create "foo") noTypeUrlsDefaultSource "foo" false
      "http").provider = .error e) :=
  have h := empty_whitelist_rejects_everything sampleCollaborators fooWithNoTypeUrlsSlot
    noTypeUrlsSlot bufferResource "1" bufferFactory (List.mem_singleton.mpr rfl) rfl rfl
    (by decide) rfl
  ⟨List.mem_singleton.mpr rfl, rfl, rfl, by decide, rfl, h.2.1, h.2.2.1, rfl, by decide,
    (((h.2.2.2 [] (FilterConfigSubscription.create "foo") noTypeUrlsDefaultSource "foo" false
      "http").2 rfl (by decide)).1)⟩

end Filter

/-! ## The connection pool: preconnect and the duration timeout -/

namespace ConnectionPool

theorem ceilMul_eq_ceil (ratio : PreconnectRatio) (streams : Nat) (hden : 0 < ratio.den) :
    ratio.ceilMul streams = ⌈(ratio.num : ℚ) / ratio.den * streams⌉₊ := by
  apply eq_of_forall_ge_iff
  intro m
  rw [Nat.ceil_le]
  have h1 : (ratio.num * streams + ratio.den - 1) / ratio.den ≤ m
      ↔ ratio.num * streams ≤ m * ratio.den := by
    rw [Nat.div_le_iff_le_mul_add_pred hden, Nat.mul_comm ratio.den m]
    omega
  have hpos : (0 : ℚ) < ratio.den := by exact_mod_cast hden
  have h2 : (ratio.num : ℚ) / ratio.den * streams ≤ m
      ↔ ratio.num * streams ≤ m * ratio.den := by
    rw [div_mul_eq_mul_div, div_le_iff₀ hpos]
    exact_mod_cast Iff.rfl
  unfold PreconnectRatio.ceilMul
  rw [h1, h2]

namespace ConnPoolImplBase

theorem withNewClients_zero (pool : ConnPoolImplBase) : pool.withNewClients 0 = pool := by
  simp [withNewClients]

theorem instantiateActiveClient_withNewClients (pool : ConnPoolImplBase) (count : Nat) :
    pool.instantiateActiveClient.withNewClients count = pool.withNewClients (count + 1) := by
  simp [withNewClients, instantiateActiveClient, newClient, List.replicate_succ, Nat.add_mul,
    Nat.add_assoc, Nat.add_comm]

theorem tryCreateNewConnections_spec (ratio : PreconnectRatio) (fuel : Nat)
    (pool : ConnPoolImplBase) (hclient : 0 < pool.newClient.capacity)
    (hfuel : ratio.ceilMul (pool.state_.active_streams_ + pool.state_.pending_streams_)
      ≤ pool.state_.connecting_and_connected_stream_capacity_ + fuel) :
    ∃ count,
      tryCreateNewConnections ratio fuel pool = pool.withNewClients count ∧
      ratio.ceilMul (pool.state_.active_streams_ + pool.state_.pending_streams_)
        ≤ pool.state_.connecting_and_connected_stream_capacity_
          + count * pool.newClient.capacity ∧
      (count = 0 ∨
        pool.state_.connecting_and_connected_stream_capacity_
          + (count - 1) * pool.newClient.capacity
          < ratio.ceilMul (pool.state_.active_streams_ + pool.state_.pending_streams_)) := by
  induction fuel generalizing pool with
  | zero =>
    exact ⟨0, by simp [tryCreateNewConnections, withNewClients_zero], by simpa using hfuel,
      Or.inl rfl⟩
  | succ fuel ih =>
    by_cases hshort : pool.state_.connecting_and_connected_stream_capacity_ <
        ratio.ceilMul (pool.state_.active_streams_ + pool.state_.pending_streams_)
    · have hcreate : pool.shouldCreateNewConnection ratio 0 = true := by
        simp [shouldCreateNewConnection, hshort]
      obtain ⟨count, hresult, htarget, hmin⟩ := ih pool.instantiateActiveClient hclient (by
        show ratio.ceilMul (pool.state_.active_streams_ + pool.state_.pending_streams_)
          ≤ pool.state_.connecting_and_connected_stream_capacity_ + pool.newClient.capacity + fuel
        omega)
      refine ⟨count + 1, ?_, ?_, Or.inr ?_⟩
      · simp only [tryCreateNewConnections, hcreate, if_true, hresult,
          instantiateActiveClient_withNewClients]
      · have : ratio.ceilMul (pool.state_.active_streams_ + pool.state_.pending_streams_)
            ≤ pool.state_.connecting_and_connected_stream_capacity_ + pool.newClient.capacity
              + count * pool.newClient.capacity := htarget
        rw [Nat.add_mul, Nat.one_mul]
        omega
      · rcases hmin with h0 | hlt
        · subst h0
          simpa using hshort
        · have hlt2 : pool.state_.connecting_and_connected_stream_capacity_
              + pool.newClient.capacity + (count - 1) * pool.newClient.capacity
              < ratio.ceilMul (pool.state_.active_streams_ + pool.state_.pending_streams_) := hlt
          have hcount : 0 < count := by
            rcases Nat.eq_zero_or_pos count with h | h
            · subst h
              simp at hlt2
              omega
            · exact h
          obtain ⟨j, rfl⟩ : ∃ j, count = j + 1 := ⟨count - 1, by omega⟩
          simp only [Nat.add_sub_cancel] at hlt2 ⊢
          rw [Nat.add_mul, Nat.one_mul]
          omega
    · have hcreate : pool.shouldCreateNewConnection ratio 0 = false := by
        simp [shouldCreateNewConnection, hshort]
      refine ⟨0, by simp [tryCreateNewConnections, hcreate, withNewClients_zero], ?_, Or.inl rfl⟩
      simp only [Nat.zero_mul, Nat.add_zero]
      omega


theorem newClient_capacity (pool : ConnPoolImplBase) :
    pool.newClient.capacity = min pool.stream_limit_ pool.concurrent_streams_ := by
  simp [newClient, ActiveClient.capacity]

/-- Claim C18. On a pool with no `READY` client and a `Healthy` host, whose new clients
have capacity, `newStream` queues one pending stream and instantiates `count` clients
such that the capacity reaches the target `ceil(ratio * (active + pending))`, the
new stream included, and would not reach it with one client less; the target is
the ceiling of the exact product when the ratio is `num / den`. On the empty pool of
the fixture (ratio `1.5`, one concurrent stream per client) this gives two clients
and the state `(active 0, pending 1, capacity 2)`, and cancelling the stream with
`CloseExcess` leaves `(0, 0, 1)`. -/
theorem newStreamImpl_preconnect (pool : ConnPoolImplBase) (context : Nat)
    (hready : ∀ client ∈ pool.clients_, client.state_ ≠ .READY)
    (hhealthy : pool.health_ = .Healthy)
    (hclient : 0 < min pool.stream_limit_ pool.concurrent_streams_) :
    (∃ count,
      pool.newStreamImpl context = (pool.addPendingStream context).withNewClients count ∧
      (pool.newStreamImpl context).pending_streams_ = pool.pending_streams_ ++ [context] ∧
      (pool.newStreamImpl context).clients_
        = pool.clients_ ++ List.replicate count pool.newClient ∧
      (pool.newStreamImpl context).state_ =
        { active_streams_ := pool.state_.active_streams_
          pending_streams_ := pool.state_.pending_streams_ + 1
          connecting_and_connected_stream_capacity_ :=
            pool.state_.connecting_and_connected_stream_capacity_
              + count * min pool.stream_limit_ pool.concurrent_streams_ } ∧
      pool.per_upstream_preconnect_ratio_.ceilMul
          (pool.state_.active_streams_ + (pool.state_.pending_streams_ + 1))
        ≤ (pool.newStreamImpl context).state_.connecting_and_connected_stream_capacity_ ∧
      (count = 0 ∨
        pool.state_.connecting_and_connected_stream_capacity_
            + (count - 1) * min pool.stream_limit_ pool.concurrent_streams_
          < pool.per_upstream_preconnect_ratio_.ceilMul
              (pool.state_.active_streams_ + (pool.state_.pending_streams_ + 1)))) ∧
    (0 < pool.per_upstream_preconnect_ratio_.den →
      pool.per_upstream_preconnect_ratio_.ceilMul
          (pool.state_.active_streams_ + (pool.state_.pending_streams_ + 1))
        = ⌈(pool.per_upstream_preconnect_ratio_.num : ℚ)
            / pool.per_upstream_preconnect_ratio_.den
            * ((pool.state_.active_streams_ + (pool.state_.pending_streams_ + 1) : Nat) : ℚ)⌉₊) ∧
    ((fixturePool.newStreamImpl context).clients_ = [fixturePool.newClient, fixturePool.newClient] ∧
      (fixturePool.newStreamImpl context).state_ =
        { active_streams_ := 0, pending_streams_ := 1
          connecting_and_connected_stream_capacity_ := 2 } ∧
      ((fixturePool.newStreamImpl context).cancel context .CloseExcess).state_ =
        { active_streams_ := 0, pending_streams_ := 0
          connecting_and_connected_stream_capacity_ := 1 }) := by
  refine ⟨?_, fun hden => ceilMul_eq_ceil _ _ hden, ?_⟩
  · have hnone : pool.clients_.findIdx? (fun client => client.state_ == .READY) = none := by
      rw [List.findIdx?_eq_none_iff]
      intro client hmem
      simpa using hready client hmem
    have heff : (pool.addPendingStream context).effectiveRatio
        = pool.per_upstream_preconnect_ratio_ := by
      simp [effectiveRatio, addPendingStream, hhealthy]
    obtain ⟨count, hresult, htarget, hmin⟩ :=
      tryCreateNewConnections_spec pool.per_upstream_preconnect_ratio_
        (pool.per_upstream_preconnect_ratio_.ceilMul
          ((pool.addPendingStream context).state_.active_streams_
            + (pool.addPendingStream context).state_.pending_streams_))
        (pool.addPendingStream context)
        (by rw [newClient_capacity]; exact hclient) (Nat.le_add_left _ _)
    have hnew : pool.newStreamImpl context
        = (pool.addPendingStream context).withNewClients count := by
      rw [← hresult]
      simp only [newStreamImpl, hnone, heff]
    rw [newClient_capacity] at htarget hmin
    refine ⟨count, hnew, ?_, ?_, ?_, ?_, hmin⟩
    · rw [hnew]; rfl
    · rw [hnew]; rfl
    · rw [hnew]
      simp [withNewClients, addPendingStream, newClient_capacity]
    · rw [hnew]
      simpa [withNewClients, addPendingStream, newClient_capacity] using htarget
  · simp [newStreamImpl, fixturePool, effectiveRatio, PreconnectRatio.ceilMul, addPendingStream,
      tryCreateNewConnections, shouldCreateNewConnection, instantiateActiveClient, newClient,
      ActiveClient.capacity, cancel, closeClient, List.findIdx?_cons]

/-- Witness for `newStreamImpl_preconnect`: the fixture's empty pool and the context `7`. -/
theorem newStreamImpl_preconnect_witness :
    (fixturePool.newStreamImpl 7).clients_ = [fixturePool.newClient, fixturePool.newClient] ∧
      (fixturePool.newStreamImpl 7).state_ =
        { active_streams_ := 0, pending_streams_ := 1
          connecting_and_connected_stream_capacity_ := 2 } ∧
      ((fixturePool.newStreamImpl 7).cancel 7 .CloseExcess).state_ =
        { active_streams_ := 0, pending_streams_ := 0
          connecting_and_connected_stream_capacity_ := 1 } :=
  (newStreamImpl_preconnect fixturePool 7 (by decide) (by decide) (by decide)).2.2


/-- Claim C19. Whatever the preconnect ratios: on a host that is `Unhealthy` or `Degraded`,
`newStream` on an empty pool instantiates exactly one client and leaves the state
`(active 0, pending 1, capacity of that client)`, which is `(0, 1, 1)` with one
concurrent stream per client, and `maybePreconnect` instantiates nothing and returns
false; on a `Healthy` host `maybePreconnect` with a ratio below `1` instantiates
nothing, returns false and leaves the pool, its state included, as it was. -/
theorem preconnect_gate (pool : ConnPoolImplBase) (context : Nat)
    (global_preconnect_ratio : PreconnectRatio) :
    (pool.health_ ≠ .Healthy →
      (pool.clients_ = [] → pool.pending_streams_ = [] →
        pool.state_ = { active_streams_ := 0, pending_streams_ := 0
                        connecting_and_connected_stream_capacity_ := 0 } →
        0 < min pool.stream_limit_ pool.concurrent_streams_ →
        (pool.newStreamImpl context).clients_ = [pool.newClient] ∧
        (pool.newStreamImpl context).pending_streams_ = [context] ∧
        (pool.newStreamImpl context).state_ =
          { active_streams_ := 0, pending_streams_ := 1
            connecting_and_connected_stream_capacity_ :=
              min pool.stream_limit_ pool.concurrent_streams_ }) ∧
      pool.maybePreconnectImpl global_preconnect_ratio = (pool, false)) ∧
    (pool.health_ = .Healthy → global_preconnect_ratio.num < global_preconnect_ratio.den →
      pool.maybePreconnectImpl global_preconnect_ratio = (pool, false)) := by
  refine ⟨fun hhealth => ⟨fun hclients hpending hstate hclient => ?_, ?_⟩, fun hhealth hlt => ?_⟩
  · have hlimit : pool.stream_limit_ ≠ 0 := fun h => by simp [h] at hclient
    have hconcurrent : pool.concurrent_streams_ ≠ 0 := fun h => by simp [h] at hclient
    simp [newStreamImpl, hclients, hpending, hstate, effectiveRatio, hhealth,
      PreconnectRatio.one, PreconnectRatio.ceilMul, addPendingStream, tryCreateNewConnections,
      shouldCreateNewConnection, instantiateActiveClient, newClient, ActiveClient.capacity,
      hlimit, hconcurrent]
  · simp [maybePreconnectImpl, hhealth]
  · simp [maybePreconnectImpl, hhealth, PreconnectRatio.belowOne, hlt]

/-- Witness for `preconnect_gate`: the fixture's pool on a `Degraded` host with ratio `1.5`, and
the explicit preconnect at ratio `0` on the `Healthy` one. -/
theorem preconnect_gate_witness :
    ((degradedPool.newStreamImpl 7).clients_ = [degradedPool.newClient] ∧
      (degradedPool.newStreamImpl 7).pending_streams_ = [7] ∧
      (degradedPool.newStreamImpl 7).state_ =
        { active_streams_ := 0, pending_streams_ := 1
          connecting_and_connected_stream_capacity_ :=
            min degradedPool.stream_limit_ degradedPool.concurrent_streams_ }) ∧
    degradedPool.maybePreconnectImpl { num := 1, den := 1 } = (degradedPool, false) ∧
    fixturePool.maybePreconnectImpl { num := 0, den := 1 } = (fixturePool, false) :=
  ⟨((preconnect_gate degradedPool 7 { num := 1, den := 1 }).1 (by decide)).1 rfl rfl rfl
      (by decide),
    ((preconnect_gate degradedPool 7 { num := 1, den := 1 }).1 (by decide)).2,
    (preconnect_gate fixturePool 7 { num := 0, den := 1 }).2 rfl (by decide)⟩

end ConnPoolImplBase

/-- Claim C20. For every client and counter value, `onConnectionDurationTimeout` in state `BUSY`
moves the client to `DRAINING` and adds one to `upstream_cx_max_duration_reached`; in
state `READY` it closes the client and adds one to the counter; in state `DRAINING` it
changes neither; in state `CONNECTING` or `CLOSED` it raises an `ENVOY_BUG` and changes
neither. Nothing else about the client changes in any state. -/
theorem onConnectionDurationTimeout_transition (client : ActiveClient) (counter : Nat) :
    (client.state_ = .BUSY →
      client.onConnectionDurationTimeout counter
        = ⟨{ client with state_ := .DRAINING }, counter + 1, none⟩) ∧
    (client.state_ = .READY →
      client.onConnectionDurationTimeout counter
        = ⟨{ client with state_ := .CLOSED }, counter + 1, none⟩) ∧
    (client.state_ = .DRAINING →
      client.onConnectionDurationTimeout counter = ⟨client, counter, none⟩) ∧
    (client.state_ = .CONNECTING ∨ client.state_ = .CLOSED →
      (client.onConnectionDurationTimeout counter).envoy_bug.isSome = true ∧
      (client.onConnectionDurationTimeout counter).client = client ∧
      (client.onConnectionDurationTimeout counter).upstream_cx_max_duration_reached_
        = counter) := by
  refine ⟨fun h => ?_, fun h => ?_, fun h => ?_, fun h => ?_⟩
  · simp [ActiveClient.onConnectionDurationTimeout, h]
  · simp [ActiveClient.onConnectionDurationTimeout, h]
  · simp [ActiveClient.onConnectionDurationTimeout, h]
  · rcases h with h | h <;> simp [ActiveClient.onConnectionDurationTimeout, h]

/-- Witness for `onConnectionDurationTimeout_transition`: the `BUSY` client of the test
`MaxConnectionDurationBusy`, with the counter at `0`. -/
theorem onConnectionDurationTimeout_transition_witness :
    busyClient.onConnectionDurationTimeout 0
      = ⟨{ busyClient with state_ := .DRAINING }, 0 + 1, none⟩ :=
  (onConnectionDurationTimeout_transition busyClient 0).1 rfl

/-! ## The connection pool: idle callbacks -/

namespace ConnPoolImplBase

/-- A pool with a client that is not `CLOSED` is not idle. -/
theorem isIdleImpl_of_open_client (pool : ConnPoolImplBase) (index : Nat)
    (client : ActiveClient) (hclient : pool.clients_.get? index = some client)
    (hopen : client.state_ ≠ .CLOSED) : pool.isIdleImpl = false := by
  have hmem : client ∈ pool.clients_ := List.get?_mem hclient
  unfold isIdleImpl
  rw [Bool.and_eq_false_iff]
  right
  rw [List.all_eq_false]
  exact ⟨client, hmem, by simpa using hopen⟩

/-- A pool with a pending stream is not idle. -/
theorem isIdleImpl_of_pending (pool : ConnPoolImplBase) (context : Nat)
    (hpending : context ∈ pool.pending_streams_) : pool.isIdleImpl = false := by
  unfold isIdleImpl
  cases h : pool.pending_streams_ with
  | nil => rw [h] at hpending; exact absurd hpending (List.not_mem_nil _)
  | cons a rest => rfl

/-- Draining leaves a `CLOSED` client as it is. -/
theorem drainClient_closed (client : ActiveClient) (hclosed : client.state_ = .CLOSED) :
    drainClient client = client := by
  simp [drainClient, hclosed]

/-- Draining an idle pool leaves it idle. -/
theorem drainClients_isIdleImpl (pool : ConnPoolImplBase) (hidle : pool.isIdleImpl = true) :
    pool.drainClients.isIdleImpl = true := by
  unfold isIdleImpl at hidle ⊢
  rw [Bool.and_eq_true] at hidle ⊢
  refine ⟨hidle.1, ?_⟩
  have hall := List.all_eq_true.mp hidle.2
  show (pool.clients_.map drainClient).all _ = true
  rw [List.all_eq_true]
  intro client hclient
  obtain ⟨original, horiginal, rfl⟩ := List.mem_map.mp hclient
  have hclosed : original.state_ = .CLOSED := by simpa using hall original horiginal
  rw [drainClient_closed original hclosed]
  simpa using hclosed

end ConnPoolImplBase

namespace ConnPoolImplBase

/-- Attaching a stream to a client that is not `CLOSED`, at a valid index, leaves a
client that is not `CLOSED` at that index. -/
theorem attachStreamToClient_open (pool : ConnPoolImplBase) (index : Nat)
    (client : ActiveClient) (hindex : index < pool.clients_.length)
    (hopen : client.state_ ≠ .CLOSED) :
    ∃ c, (pool.attachStreamToClient index client).clients_.get? index = some c ∧
      c.state_ ≠ .CLOSED := by
  unfold attachStreamToClient
  simp only [List.get?_eq_getElem?]
  rw [List.getElem?_set_self hindex]
  refine ⟨_, rfl, ?_⟩
  split_ifs <;> simp [hopen]

/-- Attaching the queued streams leaves a client that is not `CLOSED` at the index
where there was one. -/
theorem attachPendingStreams_open (index : Nat) (queue : List Nat) (pool : ConnPoolImplBase)
    (hopen : ∃ c, pool.clients_.get? index = some c ∧ c.state_ ≠ .CLOSED) :
    ∃ c, (attachPendingStreams index queue pool).clients_.get? index = some c ∧
      c.state_ ≠ .CLOSED := by
  induction queue generalizing pool with
  | nil => exact hopen
  | cons context rest ih =>
    obtain ⟨c, hc, hstate⟩ := hopen
    unfold attachPendingStreams
    rw [hc]
    dsimp only
    by_cases hready : c.state_ = .READY
    · rw [if_pos hready]
      apply ih
      have hindex : index < pool.clients_.length := by
        rw [List.get?_eq_some] at hc
        exact hc.1
      exact attachStreamToClient_open _ index c hindex hstate
    · rw [if_neg hready]
      exact ⟨c, hc, hstate⟩

/-- A pool that is not idle is not idle after `onConnected`. -/
theorem onConnected_isIdleImpl (pool : ConnPoolImplBase) (index : Nat)
    (max_connection_duration : Option Nat) (hnot : pool.isIdleImpl = false) :
    (pool.onConnected index max_connection_duration).isIdleImpl = false := by
  unfold onConnected
  cases hclient : pool.clients_.get? index with
  | none => exact hnot
  | some client =>
    dsimp only
    by_cases hconnecting : client.state_ = .CONNECTING
    · rw [if_pos hconnecting]
      have hindex : index < pool.clients_.length := by
        rw [List.get?_eq_some] at hclient
        exact hclient.1
      obtain ⟨c, hc, hstate⟩ := attachPendingStreams_open index pool.pending_streams_
        { pool with
          clients_ := pool.clients_.set index
            { client with
              state_ := .READY
              connection_duration_timer_ := max_connection_duration.isSome } }
        ⟨_, by simp only [List.get?_eq_getElem?]; exact List.getElem?_set_self hindex,
          by simp⟩
      exact isIdleImpl_of_open_client _ index c hc hstate
    · rw [if_neg hconnecting]
      exact hnot

/-- Instantiating clients leaves the queue of pending streams alone. -/
theorem tryCreateNewConnections_pending (ratio : PreconnectRatio) (fuel : Nat)
    (pool : ConnPoolImplBase) :
    (tryCreateNewConnections ratio fuel pool).pending_streams_ = pool.pending_streams_ := by
  induction fuel generalizing pool with
  | zero => rfl
  | succ fuel ih =>
    unfold tryCreateNewConnections
    split_ifs
    · rw [ih]; rfl
    · rfl

/-- A pool that is not idle is not idle after `newStreamImpl`. -/
theorem newStreamImpl_isIdleImpl (pool : ConnPoolImplBase) (context : Nat)
    (hnot : pool.isIdleImpl = false) : (pool.newStreamImpl context).isIdleImpl = false := by
  unfold newStreamImpl
  cases hfind : pool.clients_.findIdx? (fun client => client.state_ == .READY) with
  | none =>
    dsimp only
    apply isIdleImpl_of_pending _ context
    rw [tryCreateNewConnections_pending]
    simp [addPendingStream]
  | some index =>
    dsimp only
    cases hclient : pool.clients_.get? index with
    | none => exact hnot
    | some client =>
      dsimp only
      have hindex : index < pool.clients_.length := by
        rw [List.get?_eq_some] at hclient
        exact hclient.1
      have hready := List.findIdx?_of_eq_some hfind
      rw [← List.get?_eq_getElem?, hclient] at hready
      have hstate : client.state_ ≠ .CLOSED := by
        intro hclosed
        simp [hclosed] at hready
      obtain ⟨c, hc, hopen⟩ := attachStreamToClient_open pool index client hindex hstate
      exact isIdleImpl_of_open_client _ index c hc hopen

/-- The idle predicate, spelled out. -/
theorem isIdleImpl_iff (pool : ConnPoolImplBase) :
    pool.isIdleImpl = true ↔
      pool.pending_streams_ = [] ∧ ∀ client ∈ pool.clients_, client.state_ = .CLOSED := by
  unfold isIdleImpl
  rw [Bool.and_eq_true, List.isEmpty_iff, List.all_eq_true]
  simp

end ConnPoolImplBase

namespace PoolWithIdleCallbacks

/-- What the flush adds to the record of calls: every registered callback if the
pool is idle, nothing otherwise; nothing else changes. -/
theorem checkForIdle_eq (p : PoolWithIdleCallbacks) :
    p.checkForIdle =
      { p with invoked_idle_callbacks := p.invoked_idle_callbacks ++
          (if p.pool.isIdleImpl then p.idle_callbacks_ else []) } := by
  unfold checkForIdle
  cases p.pool.isIdleImpl <;> simp

/-- No operation but `addIdleCallbackImpl` touches the registered callbacks, and that one
appends to them. -/
theorem step_idle_callbacks (p : PoolWithIdleCallbacks) (op : PoolOperation) :
    (p.step op).idle_callbacks_ =
      match op with
      | .addIdleCallback cb => p.idle_callbacks_ ++ [cb]
      | _ => p.idle_callbacks_ := by
  cases op with
  | newStream context => rfl
  | connectionEvent index event =>
    cases event with
    | Connected => rfl
    | RemoteClose =>
      simp only [step, onConnectionEvent]
      split
      · split <;> simp [checkForIdle_eq]
      · rfl
    | LocalClose =>
      simp only [step, onConnectionEvent]
      split
      · split <;> simp [checkForIdle_eq]
      · rfl
  | streamClosed index =>
    simp only [step, onStreamClosed]
    split
    · split
      · split <;> rfl
      · rfl
    · rfl
  | cancel context policy =>
    simp only [step, cancel]
    split <;> simp [checkForIdle_eq]
  | addIdleCallback cb => rfl
  | drainConnections behavior =>
    cases behavior with
    | DrainAndDelete => simp [step, drainConnectionsImpl, checkForIdle_eq]
    | DrainExistingConnections =>
      simp only [step, drainConnectionsImpl]
      split <;> simp [checkForIdle_eq]
  | loopTick =>
    simp only [step, onLoopTick]
    split <;> simp [checkForIdle_eq]

/-- Whether an operation invokes the idle callbacks: it does if and only if it
leaves the pool idle and either found it not idle, without being a stream
close, or is `drainConnectionsImpl(DrainAndDelete)`, or is the loop tick with a flush
scheduled. When it does, all the registered callbacks are invoked. -/
theorem step_invoked (p : PoolWithIdleCallbacks) (op : PoolOperation) :
    ∃ fires : Bool,
      (p.step op).invoked_idle_callbacks =
        p.invoked_idle_callbacks ++ (if fires then p.idle_callbacks_ else []) ∧
      (fires = true ↔
        (p.step op).pool.isIdleImpl = true ∧
        ((p.pool.isIdleImpl = false ∧ ∀ index, op ≠ .streamClosed index) ∨
          op = .drainConnections .DrainAndDelete ∨
          (op = .loopTick ∧ p.idle_callbacks_scheduled_ = true))) := by
  have quiet : ∀ q : PoolWithIdleCallbacks,
      q.invoked_idle_callbacks = p.invoked_idle_callbacks →
      ¬ (q.pool.isIdleImpl = true ∧
        ((p.pool.isIdleImpl = false ∧ ∀ index, op ≠ .streamClosed index) ∨
          op = .drainConnections .DrainAndDelete ∨
          (op = .loopTick ∧ p.idle_callbacks_scheduled_ = true))) →
      ∃ fires : Bool,
        q.invoked_idle_callbacks =
          p.invoked_idle_callbacks ++ (if fires then p.idle_callbacks_ else []) ∧
        (fires = true ↔
          q.pool.isIdleImpl = true ∧
          ((p.pool.isIdleImpl = false ∧ ∀ index, op ≠ .streamClosed index) ∨
            op = .drainConnections .DrainAndDelete ∨
            (op = .loopTick ∧ p.idle_callbacks_scheduled_ = true))) := by
    intro q hq hnot
    exact ⟨false, by simp [hq], by simpa using hnot⟩
  have flushed : ∀ q : PoolWithIdleCallbacks,
      q.invoked_idle_callbacks = p.invoked_idle_callbacks →
      q.idle_callbacks_ = p.idle_callbacks_ →
      ((p.pool.isIdleImpl = false ∧ ∀ index, op ≠ .streamClosed index) ∨
          op = .drainConnections .DrainAndDelete ∨
          (op = .loopTick ∧ p.idle_callbacks_scheduled_ = true)) →
      ∃ fires : Bool,
        q.checkForIdle.invoked_idle_callbacks =
          p.invoked_idle_callbacks ++ (if fires then p.idle_callbacks_ else []) ∧
        (fires = true ↔
          q.checkForIdle.pool.isIdleImpl = true ∧
          ((p.pool.isIdleImpl = false ∧ ∀ index, op ≠ .streamClosed index) ∨
            op = .drainConnections .DrainAndDelete ∨
            (op = .loopTick ∧ p.idle_callbacks_scheduled_ = true))) := by
    intro q hq hcb horigin
    refine ⟨q.pool.isIdleImpl, ?_, ?_⟩
    · rw [checkForIdle_eq, ← hq, ← hcb]
    · rw [checkForIdle_eq]
      exact ⟨fun h => ⟨h, horigin⟩, fun h => h.1⟩
  cases op with
  | newStream context =>
    refine quiet _ (by rfl) ?_
    rintro ⟨hidle, (⟨hnot, -⟩ | h | ⟨h, -⟩)⟩
    · have := ConnPoolImplBase.newStreamImpl_isIdleImpl p.pool context hnot
      simp only [step, newStreamImpl] at hidle
      rw [this] at hidle
      cases hidle
    · cases h
    · cases h
  | connectionEvent index event =>
    cases event with
    | Connected =>
      refine quiet _ (by rfl) ?_
      rintro ⟨hidle, (⟨hnot, -⟩ | h | ⟨h, -⟩)⟩
      · have := ConnPoolImplBase.onConnected_isIdleImpl p.pool index p.max_connection_duration_
          hnot
        simp only [step, onConnectionEvent] at hidle
        rw [this] at hidle
        cases hidle
      · cases h
      · cases h
    | RemoteClose =>
      simp only [step, onConnectionEvent]
      cases hclient : p.pool.clients_.get? index with
      | none =>
        refine quiet _ (by rfl) ?_
        rintro ⟨hidle, (⟨hnot, -⟩ | h | ⟨h, -⟩)⟩
        · rw [hnot] at hidle; cases hidle
        · cases h
        · cases h
      | some client =>
        dsimp only
        by_cases hopen : client.state_ ≠ .CLOSED
        · rw [if_pos hopen]
          exact flushed _ (by rfl) (by rfl) (Or.inl
            ⟨ConnPoolImplBase.isIdleImpl_of_open_client p.pool index client hclient hopen,
              fun _ h => by cases h⟩)
        · rw [if_neg hopen]
          refine quiet _ (by rfl) ?_
          rintro ⟨hidle, (⟨hnot, -⟩ | h | ⟨h, -⟩)⟩
          · rw [hnot] at hidle; cases hidle
          · cases h
          · cases h
    | LocalClose =>
      simp only [step, onConnectionEvent]
      cases hclient : p.pool.clients_.get? index with
      | none =>
        refine quiet _ (by rfl) ?_
        rintro ⟨hidle, (⟨hnot, -⟩ | h | ⟨h, -⟩)⟩
        · rw [hnot] at hidle; cases hidle
        · cases h
        · cases h
      | some client =>
        dsimp only
        by_cases hopen : client.state_ ≠ .CLOSED
        · rw [if_pos hopen]
          exact flushed _ (by rfl) (by rfl) (Or.inl
            ⟨ConnPoolImplBase.isIdleImpl_of_open_client p.pool index client hclient hopen,
              fun _ h => by cases h⟩)
        · rw [if_neg hopen]
          refine quiet _ (by rfl) ?_
          rintro ⟨hidle, (⟨hnot, -⟩ | h | ⟨h, -⟩)⟩
          · rw [hnot] at hidle; cases hidle
          · cases h
          · cases h
  | streamClosed index =>
    apply quiet
    · simp only [step, onStreamClosed]
      split
      · split
        · split <;> rfl
        · rfl
      · rfl
    · rintro ⟨-, (⟨-, h⟩ | h | ⟨h, -⟩)⟩
      · exact h index rfl
      · cases h
      · cases h
  | cancel context policy =>
    simp only [step, cancel]
    by_cases hpending : context ∈ p.pool.pending_streams_
    · rw [if_pos hpending]
      exact flushed _ (by rfl) (by rfl) (Or.inl
        ⟨ConnPoolImplBase.isIdleImpl_of_pending p.pool context hpending,
          fun _ h => by cases h⟩)
    · rw [if_neg hpending]
      refine quiet _ (by rfl) ?_
      rintro ⟨hidle, (⟨hnot, -⟩ | h | ⟨h, -⟩)⟩
      · rw [hnot] at hidle; cases hidle
      · cases h
      · cases h
  | addIdleCallback cb =>
    refine quiet _ (by rfl) ?_
    rintro ⟨hidle, (⟨hnot, -⟩ | h | ⟨h, -⟩)⟩
    · simp only [step, addIdleCallbackImpl] at hidle
      rw [hnot] at hidle; cases hidle
    · cases h
    · cases h
  | drainConnections behavior =>
    cases behavior with
    | DrainAndDelete => exact flushed _ (by rfl) (by rfl) (Or.inr (Or.inl rfl))
    | DrainExistingConnections =>
      simp only [step, drainConnectionsImpl]
      by_cases hidle : p.pool.isIdleImpl = true
      · rw [if_pos hidle]
        refine quiet _ (by rfl) ?_
        rintro ⟨-, (⟨hnot, -⟩ | h | ⟨h, -⟩)⟩
        · rw [hidle] at hnot; cases hnot
        · cases h
        · cases h
      · rw [if_neg hidle]
        rw [Bool.not_eq_true] at hidle
        exact flushed _ (by rfl) (by rfl) (Or.inl ⟨hidle, fun _ h => by cases h⟩)
  | loopTick =>
    have hstep : p.step .loopTick = p.onLoopTick := rfl
    rw [hstep]
    unfold onLoopTick
    by_cases hscheduled : p.idle_callbacks_scheduled_ = true
    · rw [if_pos hscheduled]
      exact flushed { p with idle_callbacks_scheduled_ := false } rfl rfl
        (Or.inr (Or.inr ⟨rfl, hscheduled⟩))
    · rw [if_neg hscheduled]
      refine quiet p rfl ?_
      rintro ⟨hidle, (⟨hnot, -⟩ | h | ⟨-, h⟩)⟩
      · rw [hnot] at hidle; cases hidle
      · cases h
      · exact hscheduled h

/-- The flush is scheduled by a stream close that takes the pool from a state
that is not idle into the idle state, stays scheduled through the other
operations, and is taken off the schedule by the loop tick that runs it. -/
theorem step_scheduled (p : PoolWithIdleCallbacks) (op : PoolOperation) :
    (p.step op).idle_callbacks_scheduled_ = true ↔
      op ≠ .loopTick ∧
      (p.idle_callbacks_scheduled_ = true ∨
        ∃ index, op = .streamClosed index ∧ p.pool.isIdleImpl = false ∧
          (p.step op).pool.isIdleImpl = true) := by
  cases op with
  | newStream context => simp [step, newStreamImpl]
  | connectionEvent index event =>
    cases event with
    | Connected => simp [step, onConnectionEvent]
    | RemoteClose =>
      simp only [step, onConnectionEvent]
      split
      · split <;> simp [checkForIdle_eq]
      · simp
    | LocalClose =>
      simp only [step, onConnectionEvent]
      split
      · split <;> simp [checkForIdle_eq]
      · simp
  | streamClosed index =>
    simp only [step, onStreamClosed]
    cases hclient : p.pool.clients_.get? index with
    | none =>
      dsimp only
      cases hidle : p.pool.isIdleImpl <;> simp
    | some client =>
      dsimp only
      by_cases hopen : client.state_ ≠ .CLOSED
      · rw [if_pos hopen]
        have hnot := ConnPoolImplBase.isIdleImpl_of_open_client p.pool index client hclient hopen
        cases hidle : (p.pool.closeStreamOfClient index client).isIdleImpl <;>
          simp [hidle, hnot]
      · rw [if_neg hopen]
        cases hidle : p.pool.isIdleImpl <;> simp
  | cancel context policy =>
    simp only [step, cancel]
    split <;> simp [checkForIdle_eq]
  | addIdleCallback cb => simp [step, addIdleCallbackImpl]
  | drainConnections behavior =>
    cases behavior with
    | DrainAndDelete => simp [step, drainConnectionsImpl, checkForIdle_eq]
    | DrainExistingConnections =>
      simp only [step, drainConnectionsImpl]
      split <;> simp [checkForIdle_eq]
  | loopTick =>
    simp only [step, onLoopTick]
    split <;> simp_all [checkForIdle_eq]

end PoolWithIdleCallbacks

/-- The claim C21 as first stated fails on the two tests it rests on. The idle callback
`0` is registered once; the remote close, and likewise the local close, of the
last connection takes the pool into the idle state and invokes it; the
`drainConnectionsImpl(DrainAndDelete)` that follows starts with the pool idle and invokes it
a second time, as the second `EXPECT_CALL` of each test asks. -/
theorem idle_callback_fires_again_on_drain :
    (idleTestPool.run (idleTestCalls .RemoteClose)).idle_callbacks_ = [0] ∧
    (idleTestPool.run (idleTestCalls .RemoteClose)).invoked_idle_callbacks = [0] ∧
    (idleTestPool.run (idleTestCalls .RemoteClose)).pool.isIdleImpl = true ∧
    ((idleTestPool.run (idleTestCalls .RemoteClose)).drainConnectionsImpl
      .DrainAndDelete).invoked_idle_callbacks = [0, 0] ∧
    (idleTestPool.run (idleTestCalls .LocalClose)).idle_callbacks_ = [0] ∧
    (idleTestPool.run (idleTestCalls .LocalClose)).invoked_idle_callbacks = [0] ∧
    (idleTestPool.run (idleTestCalls .LocalClose)).pool.isIdleImpl = true ∧
    ((idleTestPool.run (idleTestCalls .LocalClose)).drainConnectionsImpl
      .DrainAndDelete).invoked_idle_callbacks = [0, 0] := by
  decide

/-- Claim C21, amended. A callback registered with `addIdleCallbackImpl` stays registered
through every operation. An operation invokes the idle callbacks if and only
if it leaves the pool idle and is of one of three kinds: an operation other than
a stream close that found the pool not idle; `drainConnectionsImpl(DrainAndDelete)`,
whatever it found; or the loop tick with a flush scheduled, a flush being
scheduled exactly by a stream close that takes the pool from a state that is
not idle into the idle state. It then invokes all the registered callbacks, in
registration order, as its last act, so with no pending stream and no client
that is not `CLOSED`; otherwise it invokes none. In particular
`drainConnectionsImpl(DrainAndDelete)` on a pool already idle leaves the pool idle and
invokes every registered callback again. -/
theorem idle_callbacks_fire_when_idle (p : PoolWithIdleCallbacks) (op : PoolOperation) :
    (((p.step op).pool.isIdleImpl = true ∧
        ((p.pool.isIdleImpl = false ∧ ∀ index, op ≠ .streamClosed index) ∨
          op = .drainConnections .DrainAndDelete ∨
          (op = .loopTick ∧ p.idle_callbacks_scheduled_ = true))) →
      (p.step op).invoked_idle_callbacks = p.invoked_idle_callbacks ++ p.idle_callbacks_) ∧
    (¬ ((p.step op).pool.isIdleImpl = true ∧
        ((p.pool.isIdleImpl = false ∧ ∀ index, op ≠ .streamClosed index) ∨
          op = .drainConnections .DrainAndDelete ∨
          (op = .loopTick ∧ p.idle_callbacks_scheduled_ = true))) →
      (p.step op).invoked_idle_callbacks = p.invoked_idle_callbacks) ∧
    ((p.step op).invoked_idle_callbacks ≠ p.invoked_idle_callbacks →
      (p.step op).pool.pending_streams_ = [] ∧
      ∀ client ∈ (p.step op).pool.clients_, client.state_ = .CLOSED) ∧
    (∀ cb ∈ p.idle_callbacks_, cb ∈ (p.step op).idle_callbacks_) ∧
    ((p.step op).idle_callbacks_scheduled_ = true ↔
      op ≠ .loopTick ∧
      (p.idle_callbacks_scheduled_ = true ∨
        ∃ index, op = .streamClosed index ∧ p.pool.isIdleImpl = false ∧
          (p.step op).pool.isIdleImpl = true)) ∧
    (p.pool.isIdleImpl = true →
      (p.step (.drainConnections .DrainAndDelete)).pool.isIdleImpl = true ∧
      (p.step (.drainConnections .DrainAndDelete)).invoked_idle_callbacks =
        p.invoked_idle_callbacks ++ p.idle_callbacks_) := by
  obtain ⟨fires, hinvoked, hfires⟩ := PoolWithIdleCallbacks.step_invoked p op
  refine ⟨fun h => ?_, fun h => ?_, fun h => ?_, fun cb hcb => ?_,
    PoolWithIdleCallbacks.step_scheduled p op, fun hidle => ?_⟩
  · rw [hinvoked, hfires.mpr h, if_pos rfl]
  · have hquiet : fires = false := by
      cases hf : fires with
      | false => rfl
      | true => exact absurd (hfires.mp hf) h
    rw [hinvoked, hquiet]
    simp
  · have hf : fires = true := by
      cases hf : fires with
      | true => rfl
      | false =>
        rw [hinvoked, hf] at h
        simp at h
    exact (ConnPoolImplBase.isIdleImpl_iff _).mp (hfires.mp hf).1
  · rw [PoolWithIdleCallbacks.step_idle_callbacks]
    cases op <;> simp [hcb]
  · have hdrained := ConnPoolImplBase.drainClients_isIdleImpl p.pool hidle
    simp only [PoolWithIdleCallbacks.step, PoolWithIdleCallbacks.drainConnectionsImpl,
      PoolWithIdleCallbacks.checkForIdle_eq, hdrained, if_true]
    exact ⟨trivial, trivial⟩

/-- Claim C21, amended, at the pool of the test `PoolIdleCallbackTriggeredRemoteClose` after the
remote close, which is idle and has invoked the callback `0` once: the drain that
follows invokes it again. -/
theorem idle_callbacks_fire_when_idle_witness :
    (idleTestPool.run (idleTestCalls .RemoteClose)).pool.isIdleImpl = true ∧
    ((idleTestPool.run (idleTestCalls .RemoteClose)).step
      (.drainConnections .DrainAndDelete)).pool.isIdleImpl = true ∧
    ((idleTestPool.run (idleTestCalls .RemoteClose)).step
      (.drainConnections .DrainAndDelete)).invoked_idle_callbacks =
        (idleTestPool.run (idleTestCalls .RemoteClose)).invoked_idle_callbacks ++
          (idleTestPool.run (idleTestCalls .RemoteClose)).idle_callbacks_ :=
  ⟨by decide,
    (idle_callbacks_fire_when_idle (idleTestPool.run (idleTestCalls .RemoteClose))
      (.drainConnections .DrainAndDelete)).2.2.2.2.2 (by decide)⟩

/-- The stream close of a `DRAINING` client that leaves the pool idle invokes no
callback itself and schedules the flush; the loop tick that follows invokes
the callback; a stream asked for before the tick keeps the tick silent. -/
theorem idle_callback_after_stream_close :
    (drainingTestPool.run streamCloseCalls).pool.isIdleImpl = true ∧
    (drainingTestPool.run streamCloseCalls).invoked_idle_callbacks = [] ∧
    (drainingTestPool.run streamCloseCalls).idle_callbacks_scheduled_ = true ∧
    ((drainingTestPool.run streamCloseCalls).step .loopTick).invoked_idle_callbacks = [0] ∧
    ((drainingTestPool.run streamCloseCalls).run
      [.newStream 8, .loopTick]).invoked_idle_callbacks = [] := by
  decide

end ConnectionPool

end Envoy
